import Mathlib

/-!
# Portal Manduvi backend: chunking and task dispatch

A shallow embedding of the two edge functions
`supabase/functions/generate-embeddings/index.ts` and
`supabase/functions/process-task-run/index.ts`, with the properties of the
chunker, of the embedding pipeline and of the task dispatcher.

Conventions of the embedding.

* A JavaScript string that is cut into pieces is a list of UTF-16 code units,
  so that `text.length` is `List.length` and `text.slice` is `slice`.
* Sizes and offsets are natural numbers.
* A `while` loop is a function with a fuel argument that returns `none` when
  the fuel runs out; the entry point supplies fuel that is enough whenever the
  loop terminates at all.
-/

namespace Manduvi

/-! ## generate-embeddings: the chunker -/

/-- The call `text.slice(i, e)` for offsets `0 ≤ i` and `0 ≤ e`: the code units
at the positions `i, ..., e - 1` that exist in `text`. -/
def slice {α : Type} (text : List α) (i e : Nat) : List α :=
  (text.drop i).take (e - i)

/-- The `while (i < text.length)` loop of `chunkText`, `chunks` being the array
built so far. One unit of fuel is spent for each evaluation of the loop
condition. -/
def chunkTextLoop {α : Type} (text : List α) (size overlap : Nat) :
    Nat → Nat → List (List α) → Option (List (List α))
  | 0, _, _ => none
  | fuel + 1, i, chunks =>
    if i < text.length then
      let e := min (i + size) text.length
      chunkTextLoop text size overlap fuel (i + (size - overlap)) (chunks ++ [slice text i e])
    else
      some chunks

/-- The function `chunkText(text, size, overlap)`. The result is `none` when the
loop does not terminate, which is the case exactly when the text is not empty
and `size - overlap` is not positive (see `chunkText_isSome_iff`). -/
def chunkText {α : Type} (text : List α) (size : Nat := 500) (overlap : Nat := 50) :
    Option (List (List α)) :=
  chunkTextLoop text size overlap (text.length + 1) 0 []

/-- The loop of `chunkText` with the offsets recorded in place of the
substrings: what is pushed is the pair `(i, e)` that `text.slice(i, e)` is
called with, for a text of `len` code units. -/
def chunkSpansLoop (len size overlap : Nat) :
    Nat → Nat → List (Nat × Nat) → Option (List (Nat × Nat))
  | 0, _, _ => none
  | fuel + 1, i, spans =>
    if i < len then
      let e := min (i + size) len
      chunkSpansLoop len size overlap fuel (i + (size - overlap)) (spans ++ [(i, e)])
    else
      some spans

/-- The start and end offsets of the chunks of a text of `len` code units. -/
def chunkSpans (len : Nat) (size : Nat := 500) (overlap : Nat := 50) :
    Option (List (Nat × Nat)) :=
  chunkSpansLoop len size overlap (len + 1) 0 []

/-- The number of windows of step `step` that start before `len`: the ceiling of
`len / step`, in natural-number arithmetic. -/
def ceilDiv (len step : Nat) : Nat :=
  (len + step - 1) / step

/-- The `n` windows that start at `i`, `i + step`, `i + 2 * step`, ... -/
def windows {α : Type} (text : List α) (size step : Nat) : Nat → Nat → List (List α)
  | 0, _ => []
  | n + 1, i => slice text i (min (i + size) text.length) :: windows text size step n (i + step)

/-- The offsets of the `n` windows that start at `i`, `i + step`, ... -/
def windowSpans (len size step : Nat) : Nat → Nat → List (Nat × Nat)
  | 0, _ => []
  | n + 1, i => (i, min (i + size) len) :: windowSpans len size step n (i + step)

/-- The reassembly the specification describes: the first chunk whole, then
every later chunk without its first `overlap` code units. -/
def reassemble {α : Type} (overlap : Nat) : List (List α) → List α
  | [] => []
  | c :: cs => c ++ (cs.map (List.drop overlap)).flatten

/-! ## generate-embeddings: the handler -/

/-- A UTF-16 code unit of a JavaScript string. -/
abbrev CodeUnit := Fin 65536

/-- A JavaScript string whose code units matter: the body of a record and its
chunks. -/
abbrev JsText := List CodeUnit

/-- The `record` of the request body. `body` is `none` when the field is absent
or `null`. -/
structure SourceRecord where
  id : String
  org_id : String
  body : Option JsText
  deriving DecidableEq, Repr

/-- A row of the table `ai_embeddings`; `V` is the type of embedding vectors,
which the handler passes on as it receives them. -/
structure EmbeddingRow (V : Type) where
  org_id : String
  content : JsText
  embedding : V
  source_table : String
  source_field : String
  source_record_id : String
  chunk_ix : Nat
  deriving DecidableEq, Repr

/-- The argument of `openai.createEmbeddings`. -/
structure EmbeddingRequest where
  model : String
  input : JsText
  deriving DecidableEq, Repr

/-- What the handler does to its collaborators, in order. -/
inductive EmbedEvent (V : Type) where
  | delete (source_record_id : String)
  | createEmbeddings (request : EmbeddingRequest)
  | insert (row : EmbeddingRow V)
  deriving DecidableEq, Repr

/-- The behaviour of the collaborators during one run of the handler.
`deleteError` and `insertError k` are the `error` of the store's reply to the
delete and to the insert of chunk `k` (`none`: the write is carried out);
`createEmbeddings k request` is the outcome of the request for chunk `k`: the
message of the error it raises, or the `data` array of its response. -/
structure EmbedEnv (V : Type) where
  deleteError : Option String
  createEmbeddings : Nat → EmbeddingRequest → Except String (List V)
  insertError : Nat → Option String

/-- The table `ai_embeddings` and the calls made so far. -/
structure EmbedWorld (V : Type) where
  ai_embeddings : List (EmbeddingRow V)
  log : List (EmbedEvent V)

/-- The parsed request: `json` is the outcome of `req.json()` and, when the body
parses, its `record` field (`none` when absent). -/
structure EmbedRequest where
  json : Except String (Option SourceRecord)

/-- The JSON body of the response. -/
inductive EmbedBody where
  | message (message : String)
  | error (error : String)
  deriving DecidableEq, Repr

/-- The response of the handler; its only header is the JSON content type. -/
structure EmbedResponse where
  status : Nat
  body : EmbedBody
  deriving DecidableEq, Repr

/-- The call `.from('ai_embeddings').delete().eq('source_record_id', id)`. The
handler does not look at the reply. A write the store reports an error for is
not carried out. -/
def deleteEmbeddings {V : Type} (env : EmbedEnv V) (id : String) (w : EmbedWorld V) :
    EmbedWorld V :=
  { ai_embeddings :=
      match env.deleteError with
      | none => w.ai_embeddings.filter (fun row => decide (row.source_record_id ≠ id))
      | some _ => w.ai_embeddings
    log := w.log ++ [EmbedEvent.delete id] }

/-- The call `.from('ai_embeddings').insert(row)` for chunk `i`. The handler
does not look at the reply. -/
def insertEmbedding {V : Type} (env : EmbedEnv V) (i : Nat) (row : EmbeddingRow V)
    (w : EmbedWorld V) : EmbedWorld V :=
  { ai_embeddings :=
      match env.insertError i with
      | none => w.ai_embeddings ++ [row]
      | some _ => w.ai_embeddings
    log := w.log ++ [EmbedEvent.insert row] }

/-- The row inserted for chunk `i`. -/
def embeddingRow {V : Type} (record : SourceRecord) (i : Nat) (chunk : JsText) (embedding : V) :
    EmbeddingRow V :=
  { org_id := record.org_id
    content := chunk
    embedding := embedding
    source_table := "content_items"
    source_field := "body"
    source_record_id := record.id
    chunk_ix := i }

/-- The loop `for (let i = 0; i < chunks.length; i++)` from index `i` on, the
first argument being the chunks `chunks[i], chunks[i+1], ...` still to do. The
result is the message of the error that left the loop, if any. -/
def embedChunks {V : Type} (env : EmbedEnv V) (record : SourceRecord) :
    List JsText → Nat → EmbedWorld V → Option String × EmbedWorld V
  | [], _, w => (none, w)
  | chunk :: rest, i, w =>
    let request : EmbeddingRequest := { model := "text-embedding-3-small", input := chunk }
    let w1 : EmbedWorld V := { w with log := w.log ++ [EmbedEvent.createEmbeddings request] }
    match env.createEmbeddings i request with
    | Except.error msg => (some msg, w1)
    | Except.ok [] =>
      (some "Cannot read properties of undefined (reading \x27embedding\x27)", w1)
    | Except.ok (embedding :: _) =>
      embedChunks env record rest (i + 1)
        (insertEmbedding env i (embeddingRow record i chunk embedding) w1)

/-- The handler of generate-embeddings. The result is `none` only if the loop of
`chunkText` does not terminate. -/
def generateEmbeddings {V : Type} (env : EmbedEnv V) (req : EmbedRequest) (w : EmbedWorld V) :
    Option (EmbedResponse × EmbedWorld V) :=
  match req.json with
  | Except.error msg => some ({ status := 400, body := EmbedBody.error msg }, w)
  | Except.ok none =>
    some ({ status := 400,
            body := EmbedBody.error "Cannot read properties of undefined (reading \x27body\x27)" },
          w)
  | Except.ok (some record) =>
    let content : JsText := record.body.getD []
    match chunkText content with
    | none => none
    | some chunks =>
      let w1 := deleteEmbeddings env record.id w
      match embedChunks env record chunks 0 w1 with
      | (none, w2) =>
        some ({ status := 200,
                body := EmbedBody.message
                  ("Generated " ++ toString chunks.length ++ " embeddings.") }, w2)
      | (some msg, w2) => some ({ status := 400, body := EmbedBody.error msg }, w2)

/-! ## process-task-run: data -/

/-- A string-valued field of a stored record as JavaScript sees it: absent,
`null`, or a string. -/
inductive JsStr where
  | undefined
  | null
  | str (s : String)
  deriving DecidableEq, Repr

/-- Truthiness: only a non-empty string is truthy. -/
def JsStr.truthy : JsStr → Bool
  | JsStr.str s => decide (s ≠ "")
  | _ => false

/-- The operator `a || b`. -/
def JsStr.or (a b : JsStr) : JsStr :=
  if a.truthy then a else b

/-- The conversion to a string in a template literal or a concatenation. -/
def JsStr.toString : JsStr → String
  | JsStr.undefined => "undefined"
  | JsStr.null => "null"
  | JsStr.str s => s

/-- The expression `a || ''`, which is a string for every `a` of this type. -/
def JsStr.orEmpty (a : JsStr) : String :=
  if a.truthy then a.toString else ""

/-- The `length` of a JavaScript string: its number of UTF-16 code units. -/
def jsLength (s : String) : Nat :=
  (s.data.map (fun c => if c.val < 0x10000 then 1 else 2)).sum

/-- White space and line terminators, which `String.prototype.trim` removes. -/
def isJsWhiteSpace (c : Char) : Bool :=
  decide (c.val ∈ [0x9, 0xA, 0xB, 0xC, 0xD, 0x20, 0xA0, 0x1680, 0x2028, 0x2029, 0x202F, 0x205F,
    0x3000, 0xFEFF]) || (decide (0x2000 ≤ c.val) && decide (c.val ≤ 0x200A))

/-- The method `trim` of a string. -/
def jsTrim (s : String) : String :=
  String.mk ((s.data.dropWhile isJsWhiteSpace).reverse.dropWhile isJsWhiteSpace).reverse

/-- A JSON value, as `JSON.parse` returns it. -/
inductive Json where
  | null
  | bool (b : Bool)
  | num (q : ℚ)
  | str (s : String)
  | arr (items : List Json)
  | obj (fields : List (String × Json))

/-- The property access `v.name` on a parsed value: it raises a `TypeError` on
`null`, gives the field of an object when it has one, and `undefined` (`none`)
otherwise. -/
def Json.prop (v : Json) (name : String) : Except String (Option Json) :=
  match v with
  | Json.null =>
    Except.error ("Cannot read properties of null (reading \x27" ++ name ++ "\x27)")
  | Json.obj fields => Except.ok (fields.lookup name)
  | _ => Except.ok none

/-- The field `filters` of the parameters, with the keys the operations read.
A key is `none` when absent. -/
structure Filters where
  status : Option String := none
  date_from : Option String := none
  date_to : Option String := none
  limit : Option Nat := none
  category : Option String := none
  featured : Option Bool := none
  deriving DecidableEq, Repr

/-- The field `parameters` of a request. -/
structure Parameters where
  table_name : Option String := none
  record_ids : Option (List String) := none
  filters : Option Filters := none
  options : Option (List (String × String)) := none
  deriving DecidableEq, Repr

/-- The parsed body of a request, an object whose three keys may be absent. -/
structure TaskRunRequest where
  task_type : Option String := none
  parameters : Option Parameters := none
  priority : Option String := none
  deriving DecidableEq, Repr

/-- A request: its method and the outcome of `await req.json()` followed by the
destructuring of the value: the message of the error raised when the body is
not JSON text or is the text `null`, and the three keys otherwise. -/
structure Request where
  method : String
  json : Except String TaskRunRequest

/-- A record of a content table, with the columns the operations read. -/
structure ContentRecord where
  id : String
  title : JsStr := JsStr.undefined
  name : JsStr := JsStr.undefined
  body : JsStr := JsStr.undefined
  lead : JsStr := JsStr.undefined
  description : JsStr := JsStr.undefined
  content : JsStr := JsStr.undefined
  deriving DecidableEq, Repr

/-- An entry of the result of `generateSummaries`. -/
structure SummaryEntry where
  id : String
  title : Option String := none
  summary : String
  word_count : Option Nat := none
  error : Option String := none
  deriving DecidableEq, Repr

/-- An entry of the result of `categorizeContent`. -/
structure CategoryEntry where
  id : String
  title : JsStr
  suggested_category : String
  confidence : Option String := none
  error : Option String := none
  deriving DecidableEq, Repr

/-- An entry of the result of `performSentimentAnalysis`; a field that is
`undefined` is `none`. -/
structure SentimentEntry where
  id : String
  title : JsStr
  sentiment : Option Json
  confidence : Option Json
  reasoning : Option Json := none
  error : Option String := none

/-- The value an operation returns. -/
inductive OpResult where
  | message (message : String)
  | articles (articles_analyzed : Nat) (analysis : Json) (timestamp : String)
  | summaries (summaries : List SummaryEntry) (total_processed : Nat) (timestamp : String)
  | insights (records_analyzed : Nat) (insights : Json) (timestamp : String)
  | categories (categories : List CategoryEntry) (total_processed : Nat) (timestamp : String)
  | sentiments (sentiments : List SentimentEntry) (total_processed : Nat) (timestamp : String)

/-- The object `createTask` inserts into `ai_tasks`. -/
structure TaskInsert where
  task_type : String
  parameters : Parameters
  priority : String
  status : String
  created_at : String
  deriving DecidableEq, Repr

/-- A row of `ai_tasks`. -/
structure TaskRow where
  id : String
  task_type : String
  parameters : Parameters
  priority : String
  status : String
  created_at : String
  updated_at : Option String := none
  results : Option OpResult := none
  error_message : Option String := none

/-- The object `updateData` of `updateTaskStatus`; `results` and
`error_message` are `none` when the key is not set. -/
structure TaskUpdate where
  status : String
  updated_at : String
  results : Option OpResult := none
  error_message : Option String := none

/-- A filter of a store query. -/
inductive Cond where
  | eq (column value : String)
  | eqBool (column : String) (value : Bool)
  | gte (column value : String)
  | lte (column value : String)
  | limit (count : Nat)
  | isIn (column : String) (values : List String)
  deriving DecidableEq, Repr

/-- The query `supabase.from(table).select('*')` with its filters, in the order
in which they are applied. The table is `none` when `table_name` is absent. -/
structure Query where
  table : Option String
  conds : List Cond
  deriving DecidableEq, Repr

/-- The reply `{ data, error }` of the store to a query. -/
structure SelectReply where
  data : Option (List ContentRecord)
  error : Option String
  deriving DecidableEq, Repr

/-- A message of a chat-completion request. -/
structure ChatMessage where
  role : String
  content : String
  deriving DecidableEq, Repr

/-- The JSON body `callOpenAI` posts. -/
structure ChatRequest where
  model : String
  messages : List ChatMessage
  temperature : ℚ
  max_tokens : Nat
  deriving DecidableEq, Repr

/-- The outcome of the `fetch` of `callOpenAI`: the call or the reading of the
reply raises an error, the reply has a status that is not 2xx, or the reply
carries the generated text. -/
inductive ApiReply where
  | failure (message : String)
  | httpError (status : Nat) (text : String)
  | ok (content : String)
  deriving DecidableEq, Repr

/-- What the handler does to its collaborators, in order. `insertTask` carries
the id of the new row when the insert succeeds, `updateTask` whether the update
succeeds. -/
inductive Event where
  | readBody
  | insertTask (row : TaskInsert) (id : Option String)
  | updateTask (id : String) (update : TaskUpdate) (ok : Bool)
  | select (query : Query)
  | completion (request : ChatRequest)

/-- The behaviour of the collaborators during one run of the handler. Each
oracle takes the number of events that precede the call, so that a collaborator
may answer the same call differently at different times.

* `clock n` is the text of `new Date().toISOString()`.
* `insertTask n row` is the reply to the insert into `ai_tasks`: the message of
  the error, or the id of the new row.
* `updateTask n id update` is the error of the reply to an update of `ai_tasks`,
  `none` when the update is carried out.
* `select n query` is the reply to a query of a content table.
* `fetch n request` is the outcome of a chat-completion call.
* `jsonParse text` is `JSON.parse(text)`: the message of the `SyntaxError`, or
  the value. -/
structure Env where
  clock : Nat → String
  insertTask : Nat → TaskInsert → Except String String
  updateTask : Nat → String → TaskUpdate → Option String
  select : Nat → Query → SelectReply
  fetch : Nat → ChatRequest → ApiReply
  jsonParse : String → Except String Json

/-- The table `ai_tasks` and the calls made so far. A write the store reports
an error for is not carried out. -/
structure World where
  ai_tasks : List TaskRow
  log : List Event

/-- The object `TaskRunResponse`; a key that is not set is `none`. -/
structure TaskRunResponse where
  success : Bool
  task_id : Option String := none
  results : Option OpResult := none
  error : Option String := none
  status : Option String := none

/-- A response: status, headers and the JSON body (`none` for the `null` body
of the answer to `OPTIONS`). -/
structure Response where
  status : Nat
  headers : List (String × String)
  body : Option TaskRunResponse

/-! ## process-task-run: collaborators -/

/-- The constant `GPT_MODEL`. -/
def GPT_MODEL : String := "gpt-4o-mini"

/-- The world with one more event in its log. -/
def World.record (w : World) (e : Event) : World :=
  { w with log := w.log ++ [e] }

/-- The row the store makes of an inserted object. -/
def TaskInsert.toRow (row : TaskInsert) (id : String) : TaskRow :=
  { id := id
    task_type := row.task_type
    parameters := row.parameters
    priority := row.priority
    status := row.status
    created_at := row.created_at }

/-- The effect of an update on one row: the keys of `updateData` that are set
overwrite the columns. -/
def TaskUpdate.apply (update : TaskUpdate) (row : TaskRow) : TaskRow :=
  { row with
    status := update.status
    updated_at := some update.updated_at
    results := match update.results with
      | some r => some r
      | none => row.results
    error_message := match update.error_message with
      | some m => some m
      | none => row.error_message }

/-- The function `createTask`: the id of the new row with status `pending`, or
the error it raises. -/
def createTask (env : Env) (taskType : String) (parameters : Parameters)
    (priority : String := "normal") (w : World) : Except String String × World :=
  let row : TaskInsert :=
    { task_type := taskType
      parameters := parameters
      priority := priority
      status := "pending"
      created_at := env.clock w.log.length }
  match env.insertTask w.log.length row with
  | Except.error message =>
    (Except.error ("Failed to create task: " ++ message), w.record (Event.insertTask row none))
  | Except.ok id =>
    (Except.ok id,
      { ai_tasks := w.ai_tasks ++ [row.toRow id]
        log := w.log ++ [Event.insertTask row (some id)] })

/-- The function `updateTaskStatus`. `results` is set when it is not `null`
(every result is an object, hence truthy); `error_message` is set when the
message is a non-empty string. -/
def updateTaskStatus (env : Env) (taskId : String) (status : String)
    (results : Option OpResult := none) (error : Option String := none) (w : World) :
    Except String Unit × World :=
  let updateData : TaskUpdate :=
    { status := status
      updated_at := env.clock w.log.length
      results := results
      error_message := error.filter (fun m => decide (m ≠ "")) }
  match env.updateTask w.log.length taskId updateData with
  | some message =>
    (Except.error ("Failed to update task: " ++ message),
      w.record (Event.updateTask taskId updateData false))
  | none =>
    (Except.ok (),
      { ai_tasks := w.ai_tasks.map (fun row => if row.id = taskId then updateData.apply row else row)
        log := w.log ++ [Event.updateTask taskId updateData true] })

/-- The function `callOpenAI`: the generated text, or the error it raises. -/
def callOpenAI (env : Env) (messages : List ChatMessage) (temperature : ℚ := 7 / 10)
    (w : World) : Except String String × World :=
  let request : ChatRequest :=
    { model := GPT_MODEL, messages := messages, temperature := temperature, max_tokens := 4000 }
  let w1 := w.record (Event.completion request)
  match env.fetch w.log.length request with
  | ApiReply.failure message => (Except.error message, w1)
  | ApiReply.httpError status text =>
    (Except.error ("OpenAI API error: " ++ toString status ++ " - " ++ text), w1)
  | ApiReply.ok content => (Except.ok content, w1)

/-- A query of a content table. -/
def runQuery (env : Env) (query : Query) (w : World) : SelectReply × World :=
  (env.select w.log.length query, w.record (Event.select query))

/-! ## process-task-run: the operations -/

/-- The condition list `analyzeArticles` builds from its filters. -/
def articleConds (filters : Filters) : List Cond :=
  (match filters.status with
    | some v => if v ≠ "" then [Cond.eq "status" v] else []
    | none => []) ++
  (match filters.date_from with
    | some v => if v ≠ "" then [Cond.gte "published_at" v] else []
    | none => []) ++
  (match filters.date_to with
    | some v => if v ≠ "" then [Cond.lte "published_at" v] else []
    | none => []) ++
  (match filters.limit with
    | some n => if n ≠ 0 then [Cond.limit n] else []
    | none => [])

/-- The prompt of `analyzeArticles`. -/
def articlesPrompt (articlesText : String) : String :=
  "Analyze the following articles and provide insights:\n\n" ++ articlesText ++
  "\n\nPlease provide:\n1. Main themes and topics\n" ++
  "2. Sentiment analysis (positive, negative, neutral)\n3. Key insights and trends\n" ++
  "4. Recommendations for content strategy\n5. Most engaging topics\n\n" ++
  "Format your response as JSON with the following structure:\n\x7b\n" ++
  "  \"themes\": [\"theme1\", \"theme2\"],\n" ++
  "  \"sentiment\": \x7b\"positive\": 0.6, \"negative\": 0.2, \"neutral\": 0.2\x7d,\n" ++
  "  \"insights\": [\"insight1\", \"insight2\"],\n" ++
  "  \"recommendations\": [\"rec1\", \"rec2\"],\n" ++
  "  \"top_topics\": [\"topic1\", \"topic2\"]\n\x7d"

/-- The function `analyzeArticles`. -/
def analyzeArticles (env : Env) (parameters : Parameters) (w : World) :
    Except String OpResult × World :=
  let table_name := parameters.table_name.getD "articles"
  let filters := parameters.filters.getD {}
  match runQuery env { table := some table_name, conds := articleConds filters } w with
  | (reply, w1) =>
    match reply.error with
    | some message => (Except.error ("Failed to fetch articles: " ++ message), w1)
    | none =>
      match reply.data with
      | none => (Except.ok (OpResult.message "No articles found for analysis"), w1)
      | some [] => (Except.ok (OpResult.message "No articles found for analysis"), w1)
      | some (a :: as) =>
        let articles := a :: as
        let articlesText := "\n".intercalate (articles.map (fun article =>
          "Title: " ++ article.title.toString ++ "\nContent: " ++
            (article.body.or article.lead).orEmpty ++ "\n---"))
        match callOpenAI env
          [{ role := "system",
             content := "You are an expert content analyst. Provide detailed, actionable insights from article content." },
           { role := "user", content := articlesPrompt articlesText }] (7 / 10) w1 with
        | (Except.error message, w2) => (Except.error message, w2)
        | (Except.ok analysis, w2) =>
          match env.jsonParse analysis with
          | Except.error message => (Except.error message, w2)
          | Except.ok value =>
            (Except.ok (OpResult.articles articles.length value (env.clock w2.log.length)), w2)

/-- The loop `for (const record of records)` of `generateSummaries`, the second
argument being the array `summaries` built so far. -/
def summarizeRecords (env : Env) :
    List ContentRecord → List SummaryEntry → World → List SummaryEntry × World
  | [], summaries, w => (summaries, w)
  | record :: rest, summaries, w =>
    let content := ((record.body.or record.description).or record.content).orEmpty
    if content = "" then
      summarizeRecords env rest
        (summaries ++ [{ id := record.id
                         summary := "No content available for summarization"
                         error := some "Empty content" }]) w
    else
      let prompt :=
        "Summarize the following content in 2-3 sentences, focusing on the key points:\n\n" ++
          content
      match callOpenAI env
        [{ role := "system",
           content := "You are an expert summarizer. Create concise, informative summaries." },
         { role := "user", content := prompt }] (7 / 10) w with
      | (Except.ok summary, w1) =>
        summarizeRecords env rest
          (summaries ++ [{ id := record.id
                           title := some (((record.title.or record.name).or
                             (JsStr.str "Untitled")).orEmpty)
                           summary := summary
                           word_count := some (jsLength content) }]) w1
      | (Except.error message, w1) =>
        summarizeRecords env rest
          (summaries ++ [{ id := record.id
                           summary := "Failed to generate summary"
                           error := some message }]) w1

/-- The function `generateSummaries`. -/
def generateSummaries (env : Env) (parameters : Parameters) (w : World) :
    Except String OpResult × World :=
  match parameters.record_ids with
  | none => (Except.error "record_ids is required for summary generation", w)
  | some [] => (Except.error "record_ids is required for summary generation", w)
  | some (r :: rs) =>
    match runQuery env { table := parameters.table_name, conds := [Cond.isIn "id" (r :: rs)] } w with
    | (reply, w1) =>
      match reply.error with
      | some message => (Except.error ("Failed to fetch records: " ++ message), w1)
      | none =>
        match reply.data with
        | none => (Except.error "records is not iterable", w1)
        | some records =>
          match summarizeRecords env records [] w1 with
          | (summaries, w2) =>
            (Except.ok (OpResult.summaries summaries records.length (env.clock w2.log.length)), w2)

/-- The condition list `extractInsights` builds from its filters. -/
def insightConds (filters : Filters) : List Cond :=
  (match filters.category with
    | some v => if v ≠ "" then [Cond.eq "category" v] else []
    | none => []) ++
  (match filters.featured with
    | some true => [Cond.eqBool "featured" true]
    | _ => []) ++
  (match filters.limit with
    | some n => if n ≠ 0 then [Cond.limit n] else []
    | none => [])

/-- The prompt of `extractInsights`. -/
def insightsPrompt (content : String) : String :=
  "Extract key insights from the following content:\n\n" ++ content ++
  "\n\nPlease provide:\n1. Key trends and patterns\n2. Important statistics or metrics\n" ++
  "3. Notable quotes or statements\n4. Actionable recommendations\n" ++
  "5. Areas for further investigation\n\nFormat as JSON with this structure:\n\x7b\n" ++
  "  \"trends\": [\"trend1\", \"trend2\"],\n" ++
  "  \"statistics\": [\"stat1\", \"stat2\"],\n" ++
  "  \"quotes\": [\"quote1\", \"quote2\"],\n" ++
  "  \"recommendations\": [\"rec1\", \"rec2\"],\n" ++
  "  \"investigation_areas\": [\"area1\", \"area2\"]\n\x7d"

/-- The function `extractInsights`. -/
def extractInsights (env : Env) (parameters : Parameters) (w : World) :
    Except String OpResult × World :=
  let filters := parameters.filters.getD {}
  match runQuery env { table := parameters.table_name, conds := insightConds filters } w with
  | (reply, w1) =>
    match reply.error with
    | some message => (Except.error ("Failed to fetch records: " ++ message), w1)
    | none =>
      match reply.data with
      | none => (Except.ok (OpResult.message "No records found for insight extraction"), w1)
      | some [] => (Except.ok (OpResult.message "No records found for insight extraction"), w1)
      | some (r :: rs) =>
        let records := r :: rs
        let content := "\n".intercalate (records.map (fun record =>
          "Title: " ++ (record.title.or record.name).toString ++ "\nContent: " ++
            (record.description.or record.body).orEmpty ++ "\n---"))
        match callOpenAI env
          [{ role := "system",
             content := "You are an expert data analyst. Extract meaningful insights from content." },
           { role := "user", content := insightsPrompt content }] (7 / 10) w1 with
        | (Except.error message, w2) => (Except.error message, w2)
        | (Except.ok insights, w2) =>
          match env.jsonParse insights with
          | Except.error message => (Except.error message, w2)
          | Except.ok value =>
            (Except.ok (OpResult.insights records.length value (env.clock w2.log.length)), w2)

/-- The prompt of `categorizeContent`. -/
def categoryPrompt (content : String) : String :=
  "Categorize the following content into one of these categories: \n" ++
  "    - Education\n    - Health\n    - Environment\n    - Technology\n    - Social Issues\n" ++
  "    - Economy\n    - Culture\n    - Sports\n    - Politics\n    - Other\n\n" ++
  "Content: " ++ content ++ "\n\nRespond with only the category name."

/-- The loop `for (const record of records)` of `categorizeContent`. -/
def categorizeRecords (env : Env) :
    List ContentRecord → List CategoryEntry → World → List CategoryEntry × World
  | [], categories, w => (categories, w)
  | record :: rest, categories, w =>
    let content := record.title.toString ++ " " ++ (record.description.or record.body).orEmpty
    match callOpenAI env
      [{ role := "system",
         content := "You are a content categorization expert. Choose the most appropriate category." },
       { role := "user", content := categoryPrompt content }] (7 / 10) w with
    | (Except.ok category, w1) =>
      categorizeRecords env rest
        (categories ++ [{ id := record.id
                          title := record.title.or record.name
                          suggested_category := jsTrim category
                          confidence := some "high" }]) w1
    | (Except.error message, w1) =>
      categorizeRecords env rest
        (categories ++ [{ id := record.id
                          title := record.title.or record.name
                          suggested_category := "Other"
                          error := some message }]) w1

/-- The function `categorizeContent`. -/
def categorizeContent (env : Env) (parameters : Parameters) (w : World) :
    Except String OpResult × World :=
  match parameters.record_ids with
  | none => (Except.error "record_ids is required for categorization", w)
  | some [] => (Except.error "record_ids is required for categorization", w)
  | some (r :: rs) =>
    match runQuery env { table := parameters.table_name, conds := [Cond.isIn "id" (r :: rs)] } w with
    | (reply, w1) =>
      match reply.error with
      | some message => (Except.error ("Failed to fetch records: " ++ message), w1)
      | none =>
        match reply.data with
        | none => (Except.error "records is not iterable", w1)
        | some records =>
          match categorizeRecords env records [] w1 with
          | (categories, w2) =>
            (Except.ok (OpResult.categories categories records.length (env.clock w2.log.length)),
              w2)

/-- The prompt of `performSentimentAnalysis`. -/
def sentimentPrompt (content : String) : String :=
  "Analyze the sentiment of the following content and respond with a JSON object containing:\n" ++
  "    - sentiment: \"positive\", \"negative\", or \"neutral\"\n" ++
  "    - confidence: a number between 0 and 1\n" ++
  "    - reasoning: brief explanation\n\n" ++
  "Content: " ++ content ++ "\n\nRespond with only the JSON object."

/-- The body of the `try` block of `performSentimentAnalysis` after the
completion call: parse the reply and read its three properties. -/
def sentimentEntry (env : Env) (record : ContentRecord) (sentimentResult : String) :
    Except String SentimentEntry :=
  match env.jsonParse sentimentResult with
  | Except.error message => Except.error message
  | Except.ok sentiment =>
    match sentiment.prop "sentiment", sentiment.prop "confidence", sentiment.prop "reasoning" with
    | Except.ok s, Except.ok c, Except.ok r =>
      Except.ok { id := record.id
                  title := record.title.or record.name
                  sentiment := s
                  confidence := c
                  reasoning := r }
    | Except.error message, _, _ => Except.error message
    | _, Except.error message, _ => Except.error message
    | _, _, Except.error message => Except.error message

/-- The loop `for (const record of records)` of `performSentimentAnalysis`. -/
def analyzeSentiments (env : Env) :
    List ContentRecord → List SentimentEntry → World → List SentimentEntry × World
  | [], sentiments, w => (sentiments, w)
  | record :: rest, sentiments, w =>
    let content := record.title.toString ++ " " ++ (record.description.or record.body).orEmpty
    let failed (message : String) : SentimentEntry :=
      { id := record.id
        title := record.title.or record.name
        sentiment := some (Json.str "neutral")
        confidence := some (Json.num 0)
        error := some message }
    match callOpenAI env
      [{ role := "system",
         content := "You are a sentiment analysis expert. Analyze text sentiment accurately." },
       { role := "user", content := sentimentPrompt content }] (7 / 10) w with
    | (Except.ok sentimentResult, w1) =>
      match sentimentEntry env record sentimentResult with
      | Except.ok entry => analyzeSentiments env rest (sentiments ++ [entry]) w1
      | Except.error message => analyzeSentiments env rest (sentiments ++ [failed message]) w1
    | (Except.error message, w1) =>
      analyzeSentiments env rest (sentiments ++ [failed message]) w1

/-- The function `performSentimentAnalysis`. -/
def performSentimentAnalysis (env : Env) (parameters : Parameters) (w : World) :
    Except String OpResult × World :=
  match parameters.record_ids with
  | none => (Except.error "record_ids is required for sentiment analysis", w)
  | some [] => (Except.error "record_ids is required for sentiment analysis", w)
  | some (r :: rs) =>
    match runQuery env { table := parameters.table_name, conds := [Cond.isIn "id" (r :: rs)] } w with
    | (reply, w1) =>
      match reply.error with
      | some message => (Except.error ("Failed to fetch records: " ++ message), w1)
      | none =>
        match reply.data with
        | none => (Except.error "records is not iterable", w1)
        | some records =>
          match analyzeSentiments env records [] w1 with
          | (sentiments, w2) =>
            (Except.ok (OpResult.sentiments sentiments records.length (env.clock w2.log.length)),
              w2)

/-! ## process-task-run: the handler -/

/-- The array `validTaskTypes`. -/
def validTaskTypes : List String :=
  ["analyze_articles", "generate_summaries", "extract_insights", "categorize_content",
    "sentiment_analysis"]

/-- The headers of the responses sent before a task exists. -/
def jsonHeaders : List (String × String) :=
  [("Content-Type", "application/json")]

/-- The headers of the responses sent once a task was attempted. -/
def jsonCorsHeaders : List (String × String) :=
  [("Content-Type", "application/json"), ("Access-Control-Allow-Origin", "*")]

/-- The `switch (task_type)` of the handler. -/
def dispatch (env : Env) (task_type : String) (parameters : Parameters) (w : World) :
    Except String OpResult × World :=
  if task_type = "analyze_articles" then analyzeArticles env parameters w
  else if task_type = "generate_summaries" then generateSummaries env parameters w
  else if task_type = "extract_insights" then extractInsights env parameters w
  else if task_type = "categorize_content" then categorizeContent env parameters w
  else if task_type = "sentiment_analysis" then performSentimentAnalysis env parameters w
  else (Except.error ("Unknown task type: " ++ task_type), w)

/-- The inner `try` block of the handler: run the operation, mark the task
completed and build the response. An error raised in it is the `taskError` of
the `catch` that follows. -/
def runTask (env : Env) (taskId task_type : String) (parameters : Parameters) (w : World) :
    Except String Response × World :=
  match dispatch env task_type parameters w with
  | (Except.error message, w1) => (Except.error message, w1)
  | (Except.ok results, w1) =>
    match updateTaskStatus env taskId "completed" (some results) none w1 with
    | (Except.error message, w2) => (Except.error message, w2)
    | (Except.ok (), w2) =>
      (Except.ok
        { status := 200
          headers := jsonCorsHeaders
          body := some { success := true, task_id := some taskId, results := some results,
                         status := some "completed" } }, w2)

/-- The outer `try` block of the handler; an error raised in it reaches the
outer `catch`. -/
def handleRequest (env : Env) (req : Request) (w : World) : Except String Response × World :=
  if req.method ≠ "POST" then
    (Except.ok { status := 405, headers := jsonHeaders,
                 body := some { success := false, error := some "Method not allowed" } }, w)
  else
    let w0 := w.record Event.readBody
    match req.json with
    | Except.error message => (Except.error message, w0)
    | Except.ok body =>
      let priority := body.priority.getD "normal"
      match body.task_type, body.parameters with
      | none, _ | _, none =>
        (Except.ok { status := 400, headers := jsonHeaders,
                     body := some { success := false,
                                    error := some "Missing required fields: task_type, parameters" } },
          w0)
      | some task_type, some parameters =>
        if task_type = "" then
          (Except.ok { status := 400, headers := jsonHeaders,
                       body := some { success := false,
                                      error := some "Missing required fields: task_type, parameters" } },
            w0)
        else if ¬ task_type ∈ validTaskTypes then
          (Except.ok { status := 400, headers := jsonHeaders,
                       body := some { success := false,
                                      error := some ("Invalid task_type. Must be one of: " ++
                                        ", ".intercalate validTaskTypes) } }, w0)
        else
          match createTask env task_type parameters priority w0 with
          | (Except.error message, w1) => (Except.error message, w1)
          | (Except.ok taskId, w1) =>
            match updateTaskStatus env taskId "processing" none none w1 with
            | (Except.error message, w2) => (Except.error message, w2)
            | (Except.ok (), w2) =>
              match runTask env taskId task_type parameters w2 with
              | (Except.ok response, w3) => (Except.ok response, w3)
              | (Except.error taskError, w3) =>
                match updateTaskStatus env taskId "failed" none (some taskError) w3 with
                | (Except.error message, w4) => (Except.error message, w4)
                | (Except.ok (), w4) =>
                  (Except.ok
                    { status := 500
                      headers := jsonCorsHeaders
                      body := some { success := false, task_id := some taskId,
                                     error := some taskError, status := some "failed" } }, w4)

/-- The handler passed to `Deno.serve`. -/
def handler (env : Env) (req : Request) (w : World) : Response × World :=
  if req.method = "OPTIONS" then
    ({ status := 200
       headers := [("Access-Control-Allow-Origin", "*"),
                   ("Access-Control-Allow-Headers",
                     "authorization, x-client-info, apikey, content-type"),
                   ("Access-Control-Allow-Methods", "POST, OPTIONS")]
       body := none }, w)
  else
    match handleRequest env req w with
    | (Except.ok response, w1) => (response, w1)
    | (Except.error message, w1) =>
      ({ status := 500, headers := jsonCorsHeaders,
         body := some { success := false, error := some message } }, w1)

/-- The statuses the run has written to the task `taskId`, in order: the status
of the row inserted under that id and of every update of it that the store
carried out. -/
def statusWrites (taskId : String) : List Event → List String
  | [] => []
  | Event.insertTask row (some id) :: rest =>
    if id = taskId then row.status :: statusWrites taskId rest else statusWrites taskId rest
  | Event.updateTask id update true :: rest =>
    if id = taskId then update.status :: statusWrites taskId rest else statusWrites taskId rest
  | _ :: rest => statusWrites taskId rest

/-- Whether an event is a write to `ai_tasks`, attempted or carried out. -/
def Event.isTaskWrite : Event → Bool
  | Event.insertTask _ _ => true
  | Event.updateTask _ _ _ => true
  | _ => false

/-- Whether an event is a chat-completion call. -/
def Event.isCompletion : Event → Bool
  | Event.completion _ => true
  | _ => false

/-- Whether an event is a query of a content table. -/
def Event.isSelect : Event → Bool
  | Event.select _ => true
  | _ => false

/-- The world `w1` comes from `w` by queries of content tables and completion
calls only: `ai_tasks` is the same and the log has grown by events that are not
writes to `ai_tasks`. -/
def OpExtends (w w1 : World) : Prop :=
  w1.ai_tasks = w.ai_tasks ∧
    ∃ evs, w1.log = w.log ++ evs ∧ ∀ e ∈ evs, Event.isTaskWrite e = false

/-- Whether a status is terminal. -/
def isTerminal (status : String) : Bool :=
  decide (status = "completed") || decide (status = "failed")

/-- Whether an event is a write of a terminal status that the store carried
out. -/
def Event.isTerminalWrite : Event → Bool
  | Event.insertTask row (some _) => isTerminal row.status
  | Event.updateTask _ update true => isTerminal update.status
  | _ => false

/-- No write to `ai_tasks`, attempted or carried out, comes after a write of a
terminal status that the store carried out. -/
def noWriteAfterTerminal : List Event → Bool
  | [] => true
  | e :: rest =>
    (!e.isTerminalWrite || rest.all (fun later => !later.isTaskWrite)) &&
      noWriteAfterTerminal rest

/-- The ways in which a run that reached the operation ends: the update to
`completed` is carried out; or an update to `failed` is attempted, either at
once, when the operation raised an error, or after the store reported an error
for the update to `completed`. -/
inductive TraceEnd (id : String) : List Event → Prop where
  | completed (u : TaskUpdate) (h : u.status = "completed") :
      TraceEnd id [Event.updateTask id u true]
  | failed (u : TaskUpdate) (ok : Bool) (h : u.status = "failed") :
      TraceEnd id [Event.updateTask id u ok]
  | lostThenFailed (u1 u2 : TaskUpdate) (ok : Bool) (h1 : u1.status = "completed")
      (h2 : u2.status = "failed") :
      TraceEnd id [Event.updateTask id u1 false, Event.updateTask id u2 ok]

/-- The shapes of the list of events of one run of the handler. -/
inductive HandlerTrace : List Event → Prop where
  | idle : HandlerTrace []
  | rejected : HandlerTrace [Event.readBody]
  | notCreated (row : TaskInsert) : HandlerTrace [Event.readBody, Event.insertTask row none]
  | notStarted (row : TaskInsert) (id : String) (u : TaskUpdate)
      (hrow : row.status = "pending") (hu : u.status = "processing") :
      HandlerTrace [Event.readBody, Event.insertTask row (some id), Event.updateTask id u false]
  | ran (row : TaskInsert) (id : String) (u : TaskUpdate) (ops tail : List Event)
      (hrow : row.status = "pending") (hu : u.status = "processing")
      (hops : ∀ e ∈ ops, Event.isTaskWrite e = false) (htail : TraceEnd id tail) :
      HandlerTrace
        (Event.readBody :: Event.insertTask row (some id) :: Event.updateTask id u true ::
          (ops ++ tail))

/-! ## process-task-run: what the per-record policy prescribes -/

/-- The body `callOpenAI` posts for the given messages at the default
temperature. -/
def chatRequest (messages : List ChatMessage) : ChatRequest :=
  { model := GPT_MODEL, messages := messages, temperature := 7 / 10, max_tokens := 4000 }

/-- The outcome of a completion call for a reply of the API: the generated
text, or the message of the error raised. -/
def ApiReply.outcome : ApiReply → Except String String
  | ApiReply.failure message => Except.error message
  | ApiReply.httpError status text =>
    Except.error ("OpenAI API error: " ++ toString status ++ " - " ++ text)
  | ApiReply.ok content => Except.ok content

/-- The text `generateSummaries` summarizes for a record. -/
def summaryContent (record : ContentRecord) : String :=
  ((record.body.or record.description).or record.content).orEmpty

/-- The messages of the completion call of `generateSummaries` for a record. -/
def summaryMessages (record : ContentRecord) : List ChatMessage :=
  [{ role := "system",
     content := "You are an expert summarizer. Create concise, informative summaries." },
   { role := "user",
     content :=
       "Summarize the following content in 2-3 sentences, focusing on the key points:\n\n" ++
         summaryContent record }]

/-- The entry of a record that has no content: no completion call is made. -/
def emptySummaryEntry (record : ContentRecord) : SummaryEntry :=
  { id := record.id
    summary := "No content available for summarization"
    error := some "Empty content" }

/-- The error-tagged entry of a record whose completion call failed. -/
def failedSummaryEntry (record : ContentRecord) (message : String) : SummaryEntry :=
  { id := record.id, summary := "Failed to generate summary", error := some message }

/-- The entry of a record with content, given the outcome of its completion
call. -/
def summaryEntryFor (record : ContentRecord) : Except String String → SummaryEntry
  | Except.ok summary =>
    { id := record.id
      title := some (((record.title.or record.name).or (JsStr.str "Untitled")).orEmpty)
      summary := summary
      word_count := some (jsLength (summaryContent record)) }
  | Except.error message => failedSummaryEntry record message

/-- The entries for `records` when the next completion call is event number `n`
of the run: a record without content gets its entry without a call, every other
record the entry for the outcome of its own call. -/
def summaryEntries (env : Env) : List ContentRecord → Nat → List SummaryEntry
  | [], _ => []
  | record :: rest, n =>
    if summaryContent record = "" then
      emptySummaryEntry record :: summaryEntries env rest n
    else
      summaryEntryFor record (env.fetch n (chatRequest (summaryMessages record))).outcome ::
        summaryEntries env rest (n + 1)

/-- The messages of the completion call of `categorizeContent` for a record. -/
def categoryMessages (record : ContentRecord) : List ChatMessage :=
  [{ role := "system",
     content := "You are a content categorization expert. Choose the most appropriate category." },
   { role := "user",
     content := categoryPrompt
       (record.title.toString ++ " " ++ (record.description.or record.body).orEmpty) }]

/-- The error-tagged entry of a record whose completion call failed. -/
def failedCategoryEntry (record : ContentRecord) (message : String) : CategoryEntry :=
  { id := record.id
    title := record.title.or record.name
    suggested_category := "Other"
    error := some message }

/-- The entry of a record, given the outcome of its completion call. -/
def categoryEntryFor (record : ContentRecord) : Except String String → CategoryEntry
  | Except.ok category =>
    { id := record.id
      title := record.title.or record.name
      suggested_category := jsTrim category
      confidence := some "high" }
  | Except.error message => failedCategoryEntry record message

/-- The messages of the completion call of `performSentimentAnalysis` for a
record. -/
def sentimentMessages (record : ContentRecord) : List ChatMessage :=
  [{ role := "system",
     content := "You are a sentiment analysis expert. Analyze text sentiment accurately." },
   { role := "user",
     content := sentimentPrompt
       (record.title.toString ++ " " ++ (record.description.or record.body).orEmpty) }]

/-- The error-tagged entry of a record whose completion call failed or whose
reply could not be read. -/
def failedSentimentEntry (record : ContentRecord) (message : String) : SentimentEntry :=
  { id := record.id
    title := record.title.or record.name
    sentiment := some (Json.str "neutral")
    confidence := some (Json.num 0)
    error := some message }

/-- The entry of a record, given the outcome of its completion call. -/
def sentimentEntryFor (env : Env) (record : ContentRecord) :
    Except String String → SentimentEntry
  | Except.ok sentimentResult =>
    match sentimentEntry env record sentimentResult with
    | Except.ok entry => entry
    | Except.error message => failedSentimentEntry record message
  | Except.error message => failedSentimentEntry record message

/-- The messages of the one completion call of `analyzeArticles` for the
fetched articles. -/
def articlesMessages (articles : List ContentRecord) : List ChatMessage :=
  [{ role := "system",
     content := "You are an expert content analyst. Provide detailed, actionable insights from article content." },
   { role := "user",
     content := articlesPrompt ("\n".intercalate (articles.map (fun article =>
       "Title: " ++ article.title.toString ++ "\nContent: " ++
         (article.body.or article.lead).orEmpty ++ "\n---"))) }]

/-- The messages of the one completion call of `extractInsights` for the
fetched records. -/
def insightsMessages (records : List ContentRecord) : List ChatMessage :=
  [{ role := "system",
     content := "You are an expert data analyst. Extract meaningful insights from content." },
   { role := "user",
     content := insightsPrompt ("\n".intercalate (records.map (fun record =>
       "Title: " ++ (record.title.or record.name).toString ++ "\nContent: " ++
         (record.description.or record.body).orEmpty ++ "\n---"))) }]

/-- The collaborators `env0` behave as `env` does, except that a completion call
that fails under `env` may have any reply under `env0`: `env0` is `env` as if
calls had not failed. -/
def SameButFailures (env env0 : Env) : Prop :=
  env0.clock = env.clock ∧ env0.select = env.select ∧ env0.jsonParse = env.jsonParse ∧
    ∀ n request, env0.fetch n request = env.fetch n request ∨
      ∃ message, (env.fetch n request).outcome = Except.error message

/-- The ids of the entries of a result, in order; a result without an entry
list has none. -/
def OpResult.entryIds : OpResult → List String
  | OpResult.summaries entries _ _ => entries.map (fun e => e.id)
  | OpResult.categories entries _ _ => entries.map (fun e => e.id)
  | OpResult.sentiments entries _ _ => entries.map (fun e => e.id)
  | _ => []

/-- The key `message` of a result, `none` when the result has no such key. -/
def OpResult.message? : OpResult → Option String
  | OpResult.message text => some text
  | _ => none

/-- The result of an operation that returned; `none` when it raised an error. -/
def returned (r : Except String OpResult × World) : Option OpResult :=
  match r.1 with
  | Except.ok result => some result
  | Except.error _ => none

/-- The completion call that is event number `n` of the run fails with the
message `m`: the call raises an error with that message, or it returns text
whose `JSON.parse` raises an error with that message. -/
def CallFails (env : Env) (n : Nat) (request : ChatRequest) (m : String) : Prop :=
  (env.fetch n request).outcome = Except.error m ∨
    ∃ text, (env.fetch n request).outcome = Except.ok text ∧
      env.jsonParse text = Except.error m

/-! ## clerk-webhook -/

/-- An entry of `email_addresses` of a Clerk user. -/
structure ClerkEmail where
  id : String
  email_address : String
  deriving DecidableEq, Repr

/-- The `data` of a Clerk event; `attributes` are the fields that the
destructuring collects in `...attributes`. -/
structure ClerkUser where
  id : String
  email_addresses : List ClerkEmail
  primary_email_address_id : String
  attributes : List (String × Json)

/-- A verified Clerk event. -/
structure ClerkEvent where
  type : String
  data : ClerkUser

/-- A request to the webhook: the entries of `req.headers`, whose names are in
lower case and distinct, and the outcome of `req.json()`. -/
structure WebhookRequest where
  headers : List (String × String)
  json : Except String Json

/-- What the webhook handler does to its collaborators, in order. -/
inductive ClerkCall where
  | readBody
  | verify (payload : Json) (svix_id svix_timestamp svix_signature : String)
  | updateUserById (id : String) (email : Option String) (user_metadata : List (String × Json))
  | createUser (id : String) (email : Option String) (user_metadata : List (String × Json))
      (email_confirm : Bool)
  | deleteUser (id : String)

/-- The behaviour of the collaborators of the webhook during one run; the
oracles of calls take the number of calls that precede.

* `secret` is `Deno.env.get('CLERK_WEBHOOK_SECRET_KEY')`.
* `newWebhook secret` is the message of the error `new Webhook(secret)` raises,
  `none` when it raises none.
* `verify n payload id timestamp signature` is the outcome of `wh.verify`: the
  message of the error, or the event.
* `updateUserById`, `createUser` and `deleteUser` give the message of the
  `error` of the reply of the auth admin API, `none` when there is none. -/
structure ClerkEnv where
  secret : Option String
  newWebhook : String → Option String
  verify : Nat → Json → String → String → String → Except String ClerkEvent
  updateUserById : Nat → String → Option String → List (String × Json) → Option String
  createUser : Nat → String → Option String → List (String × Json) → Option String
  deleteUser : Nat → String → Option String

/-- The response of the webhook: a status and a text body. -/
structure ClerkResponse where
  status : Nat
  body : String
  deriving DecidableEq, Repr

/-- Whether the characters `sub` stand at the start of the characters `s`. -/
def startsWithChars : List Char → List Char → Bool
  | _, [] => true
  | [], _ :: _ => false
  | c :: cs, d :: ds => (c == d) && startsWithChars cs ds

/-- Whether the characters `sub` occur in the characters `s`. -/
def includesChars : List Char → List Char → Bool
  | [], sub => startsWithChars [] sub
  | c :: cs, sub => startsWithChars (c :: cs) sub || includesChars cs sub

/-- The method `includes` of a string. -/
def jsIncludes (s sub : String) : Bool :=
  includesChars s.data sub.data

/-- A header of the request, `none` when it is absent or empty: the value is
then falsy. -/
def truthyHeader (headers : List (String × String)) (name : String) : Option String :=
  match headers.lookup name with
  | some value => if value = "" then none else some value
  | none => none

/-- The part of the handler that follows the verification of the signature:
the action for the type of the event. The result is the message of the error
raised, if any. -/
def syncUser (env : ClerkEnv) (evt : ClerkEvent) (log : List ClerkCall) :
    Option String × List ClerkCall :=
  let id := evt.data.id
  let attributes := evt.data.attributes
  let primaryEmail :=
    (evt.data.email_addresses.find?
      (fun email => email.id = evt.data.primary_email_address_id)).map
        (fun email => email.email_address)
  if evt.type = "user.created" ∨ evt.type = "user.updated" then
    let log1 := log ++ [ClerkCall.updateUserById id primaryEmail attributes]
    match env.updateUserById log.length id primaryEmail attributes with
    | some message =>
      if jsIncludes message "User not found" then
        let log2 := log1 ++ [ClerkCall.createUser id primaryEmail attributes true]
        match env.createUser log1.length id primaryEmail attributes with
        | some message2 => (some message2, log2)
        | none => (none, log2)
      else
        (some message, log1)
    | none => (none, log1)
  else if evt.type = "user.deleted" then
    let log1 := log ++ [ClerkCall.deleteUser id]
    match env.deleteUser log.length id with
    | some message => (some message, log1)
    | none => (none, log1)
  else
    (none, log)

/-- The handler of clerk-webhook. An error raised inside its `try` block is
answered with 500 and the message of the error. -/
def clerkWebhook (env : ClerkEnv) (req : WebhookRequest) (log : List ClerkCall) :
    ClerkResponse × List ClerkCall :=
  match env.secret with
  | none =>
    ({ status := 500,
       body := "Error: CLERK_WEBHOOK_SECRET_KEY is not set in environment variables" }, log)
  | some WEBHOOK_SECRET =>
    if WEBHOOK_SECRET = "" then
      ({ status := 500,
         body := "Error: CLERK_WEBHOOK_SECRET_KEY is not set in environment variables" }, log)
    else
      let log0 := log ++ [ClerkCall.readBody]
      match req.json with
      | Except.error message => ({ status := 500, body := "Error: " ++ message }, log0)
      | Except.ok payload =>
        match truthyHeader req.headers "svix-id", truthyHeader req.headers "svix-timestamp",
          truthyHeader req.headers "svix-signature" with
        | some svix_id, some svix_timestamp, some svix_signature =>
          match env.newWebhook WEBHOOK_SECRET with
          | some message => ({ status := 500, body := "Error: " ++ message }, log0)
          | none =>
            let log1 := log0 ++ [ClerkCall.verify payload svix_id svix_timestamp svix_signature]
            match env.verify log0.length payload svix_id svix_timestamp svix_signature with
            | Except.error _ =>
              ({ status := 400, body := "Error: Webhook signature verification failed" }, log1)
            | Except.ok evt =>
              match syncUser env evt log1 with
              | (some message, log2) => ({ status := 500, body := "Error: " ++ message }, log2)
              | (none, log2) =>
                ({ status := 200, body := "Webhook processed successfully" }, log2)
        | _, _, _ => ({ status := 400, body := "Error: Missing svix headers" }, log0)

/-! ## Sample data -/

/-- A record of three code units and a store that holds a row of an earlier
generation of it and a row of another record. -/
def sampleRecord : SourceRecord :=
  { id := "r1", org_id := "org", body := some [104, 105, 33] }

/-- Collaborators that succeed; the embedding of chunk `k` is `k`. -/
def sampleEmbedEnv : EmbedEnv Nat :=
  { deleteError := none
    createEmbeddings := fun k _ => Except.ok [k]
    insertError := fun _ => none }

/-- A store with a row of an earlier generation and a row of another record. -/
def sampleEmbedWorld : EmbedWorld Nat :=
  { ai_embeddings :=
      [{ org_id := "org", content := [1], embedding := 7, source_table := "content_items",
         source_field := "body", source_record_id := "r1", chunk_ix := 4 },
       { org_id := "org", content := [2], embedding := 8, source_table := "content_items",
         source_field := "body", source_record_id := "r2", chunk_ix := 0 }]
    log := [] }

/-- Collaborators of process-task-run whose store carries out every write: the
task gets the id `task-1`, queries find no record, completion calls fail. -/
def sampleEnv : Env :=
  { clock := fun _ => "2024-01-01T00:00:00.000Z"
    insertTask := fun _ _ => Except.ok "task-1"
    updateTask := fun _ _ _ => none
    select := fun _ _ => { data := some [], error := none }
    fetch := fun _ _ => ApiReply.failure "network down"
    jsonParse := fun _ => Except.error "Unexpected token" }

/-- Collaborators whose store accepts the insert and then reports an error for
every update. -/
def lostStoreEnv : Env :=
  { clock := fun _ => "2024-01-01T00:00:00.000Z"
    insertTask := fun _ _ => Except.ok "task-1"
    updateTask := fun _ _ _ => some "connection lost"
    select := fun _ _ => { data := some [], error := none }
    fetch := fun _ _ => ApiReply.failure "network down"
    jsonParse := fun _ => Except.error "Unexpected token" }

/-- The store before any task. -/
def emptyWorld : World :=
  { ai_tasks := [], log := [] }

/-- A `POST` request with the given parsed body. -/
def postRequest (body : TaskRunRequest) : Request :=
  { method := "POST", json := Except.ok body }

/-- The request `{ task_type: "analyze_articles", parameters: {} }`. -/
def analyzeRequest : Request :=
  postRequest { task_type := some "analyze_articles", parameters := some {} }

/-- The request `{ task_type: "categorize_content", parameters: { table_name:
"articles", record_ids: [] } }`. -/
def emptyCategorizeRequest : Request :=
  postRequest { task_type := some "categorize_content",
                parameters := some { table_name := some "articles", record_ids := some [] } }

/-- The request `{ task_type: "generate_summaries", parameters: { table_name:
"articles" } }`, which names no record. -/
def summariesRequest : Request :=
  postRequest { task_type := some "generate_summaries",
                parameters := some { table_name := some "articles" } }

/-- The request `{ task_type: "sentiment_analysis", parameters: {} }`. -/
def sentimentRequest : Request :=
  postRequest { task_type := some "sentiment_analysis", parameters := some {} }

/-- The request `{ task_type: "translate", parameters: {} }`, whose task type is
not in the enumeration. -/
def translateRequest : Request :=
  postRequest { task_type := some "translate", parameters := some {} }

/-- Collaborators of generate-embeddings whose store reports an error for the
delete and for every insert, while every embedding request succeeds. -/
def refusingEmbedEnv : EmbedEnv Nat :=
  { deleteError := some "permission denied"
    createEmbeddings := fun k _ => Except.ok [k]
    insertError := fun _ => some "permission denied" }

/-- A record whose body of 451 code units makes two chunks. -/
def longRecord : SourceRecord :=
  { id := "r1", org_id := "org", body := some (List.replicate 451 7) }

/-- Collaborators whose embedding request succeeds for chunk 0 and raises an
error for every later chunk. -/
def limitedEmbedEnv : EmbedEnv Nat :=
  { deleteError := none
    createEmbeddings := fun k _ => if k = 0 then Except.ok [0] else Except.error "rate limited"
    insertError := fun _ => none }

/-- Collaborators that succeed and embed a text as its length, so that the same
input always gets the same vector. -/
def lengthEmbedEnv : EmbedEnv Nat :=
  { deleteError := none
    createEmbeddings := fun _ request => Except.ok [request.input.length]
    insertError := fun _ => none }

/-- A stored record with a title and a body. -/
def recordA : ContentRecord :=
  { id := "a", title := JsStr.str "Alpha", body := JsStr.str "First text" }

/-- Another stored record with a title and a body. -/
def recordB : ContentRecord :=
  { id := "b", title := JsStr.str "Beta", body := JsStr.str "Second text" }

/-- A stored record without body, description or content. -/
def recordBlank : ContentRecord :=
  { id := "c", title := JsStr.str "Gamma" }

/-- The parameters `{ table_name: "articles", record_ids: ["a", "b"] }`. -/
def twoIds : Parameters :=
  { table_name := some "articles", record_ids := some ["a", "b"] }

/-- The parameters `{ table_name: "articles", record_ids: ["c"] }`. -/
def oneId : Parameters :=
  { table_name := some "articles", record_ids := some ["c"] }

/-- Collaborators whose store answers a query with record `b` before record
`a`, and whose completion API fails for the call that is event number 1 of the
run and answers every other call. -/
def flakyEnv : Env :=
  { clock := fun _ => "2024-01-01T00:00:00.000Z"
    insertTask := fun _ _ => Except.ok "task-1"
    updateTask := fun _ _ _ => none
    select := fun _ _ => { data := some [recordB, recordA], error := none }
    fetch := fun n _ => if n = 1 then ApiReply.failure "network down" else ApiReply.ok "Politics"
    jsonParse := fun _ => Except.ok (Json.obj [("sentiment", Json.str "positive")]) }

/-- The collaborators `flakyEnv` with a completion API that answers every
call. -/
def steadyEnv : Env :=
  { clock := fun _ => "2024-01-01T00:00:00.000Z"
    insertTask := fun _ _ => Except.ok "task-1"
    updateTask := fun _ _ _ => none
    select := fun _ _ => { data := some [recordB, recordA], error := none }
    fetch := fun _ _ => ApiReply.ok "Politics"
    jsonParse := fun _ => Except.ok (Json.obj [("sentiment", Json.str "positive")]) }

/-- Collaborators whose store answers a query with the one record that has no
content. -/
def blankEnv : Env :=
  { clock := fun _ => "2024-01-01T00:00:00.000Z"
    insertTask := fun _ _ => Except.ok "task-1"
    updateTask := fun _ _ _ => none
    select := fun _ _ => { data := some [recordBlank], error := none }
    fetch := fun _ _ => ApiReply.ok "A summary."
    jsonParse := fun _ => Except.error "Unexpected token" }

/-- Collaborators of generate-embeddings whose store reports an error for the
delete and whose embedding request raises an error for every chunk. -/
def refusingLimitedEmbedEnv : EmbedEnv Nat :=
  { deleteError := some "permission denied"
    createEmbeddings := fun _ _ => Except.error "rate limited"
    insertError := fun _ => none }

/-- A `GET` request; its body is not JSON text. -/
def getRequest : Request :=
  { method := "GET", json := Except.error "Unexpected end of JSON input" }

/-- The parameters `{ table_name: "articles", filters: { limit: 10 } }` of the
example request in the closing comment of the source: a batch request, without
`record_ids`. -/
def analyzeParameters : Parameters :=
  { table_name := some "articles", filters := some { limit := some 10 } }

/-- A `POST` request with an empty body: `await req.json()` raises a
`SyntaxError`. -/
def emptyBodyRequest : Request :=
  { method := "POST", json := Except.error "Unexpected end of JSON input" }

/-- Collaborators whose store fetches record `a` and carries out every write,
and whose completion call raises an error with the empty message. -/
def silentEnv : Env :=
  { clock := fun _ => "2024-01-01T00:00:00.000Z"
    insertTask := fun _ _ => Except.ok "task-1"
    updateTask := fun _ _ _ => none
    select := fun _ _ => { data := some [recordA], error := none }
    fetch := fun _ _ => ApiReply.failure ""
    jsonParse := fun _ => Except.error "Unexpected token" }

/-- Collaborators whose store carries out every write to `ai_tasks` but the
update to `failed`, for which it reports an error. -/
def lateLostEnv : Env :=
  { clock := fun _ => "2024-01-01T00:00:00.000Z"
    insertTask := fun _ _ => Except.ok "task-1"
    updateTask := fun _ _ update => if update.status = "failed" then some "connection lost" else none
    select := fun _ _ => { data := some [], error := none }
    fetch := fun _ _ => ApiReply.failure "network down"
    jsonParse := fun _ => Except.error "Unexpected token" }

/-- Collaborators of the webhook with the secret configured; no signature
verifies. -/
def sampleClerkEnv : ClerkEnv :=
  { secret := some "whsec_c2VjcmV0"
    newWebhook := fun _ => none
    verify := fun _ _ _ _ _ => Except.error "No matching signature found"
    updateUserById := fun _ _ _ _ => none
    createUser := fun _ _ _ _ => none
    deleteUser := fun _ _ => none }

/-- A request with a JSON body and the headers `svix-id` and `svix-timestamp`,
but without `svix-signature`. -/
def unsignedRequest : WebhookRequest :=
  { headers := [("content-type", "application/json"), ("svix-id", "msg_1"),
                ("svix-timestamp", "1700000000")]
    json := Except.ok (Json.obj [("test", Json.str "invalid_webhook_data")]) }

/-! ### Lemmas on the chunker -/

theorem ceilDiv_zero (step : Nat) (h : 0 < step) : ceilDiv 0 step = 0 := by
  unfold ceilDiv
  apply Nat.div_eq_of_lt
  omega

theorem ceilDiv_step (len step : Nat) (hs : 0 < step) (hl : 0 < len) :
    ceilDiv len step = ceilDiv (len - step) step + 1 := by
  unfold ceilDiv
  by_cases h : step ≤ len
  · have e : len + step - 1 = (len - step + step - 1) + step := by omega
    rw [e, Nat.add_div_right _ hs]
  · have e1 : len - step = 0 := by omega
    have e2 : len + step - 1 = (len - 1) + step := by omega
    rw [e1, e2, Nat.add_div_right _ hs, Nat.div_eq_of_lt (by omega), Nat.div_eq_of_lt (by omega)]

theorem lt_ceilDiv_iff (len step k : Nat) (hs : 0 < step) :
    k < ceilDiv len step ↔ k * step < len := by
  unfold ceilDiv
  rw [Nat.lt_iff_add_one_le, Nat.le_div_iff_mul_le hs]
  constructor
  · intro h
    have : (k + 1) * step = k * step + step := by ring
    omega
  · intro h
    have : (k + 1) * step = k * step + step := by ring
    omega

theorem ceilDiv_eq_ceil (len step : Nat) (hs : 0 < step) :
    ceilDiv len step = ⌈(len : ℚ) / (step : ℚ)⌉₊ := by
  have hq : (0 : ℚ) < step := by exact_mod_cast hs
  apply le_antisymm
  · by_contra hlt
    push_neg at hlt
    have h1 : (len : ℚ) / step ≤ (⌈(len : ℚ) / (step : ℚ)⌉₊ : ℚ) := Nat.le_ceil _
    have h2 : ⌈(len : ℚ) / (step : ℚ)⌉₊ * step < len :=
      (lt_ceilDiv_iff len step _ hs).1 hlt
    have h3 : ((⌈(len : ℚ) / (step : ℚ)⌉₊ : ℚ)) * step < len := by exact_mod_cast h2
    rw [div_le_iff₀ hq] at h1
    linarith
  · rw [Nat.ceil_le, div_le_iff₀ hq]
    have h : ¬ ceilDiv len step < ceilDiv len step := lt_irrefl _
    rw [lt_ceilDiv_iff len step _ hs] at h
    push_neg at h
    exact_mod_cast h

theorem chunkTextLoop_eq {α : Type} (text : List α) (size overlap : Nat)
    (hs : 0 < size - overlap) :
    ∀ (fuel i : Nat) (chunks : List (List α)),
      ceilDiv (text.length - i) (size - overlap) < fuel →
      chunkTextLoop text size overlap fuel i chunks =
        some (chunks ++
          windows text size (size - overlap) (ceilDiv (text.length - i) (size - overlap)) i) := by
  intro fuel
  induction fuel with
  | zero => intro i chunks h; omega
  | succ fuel ih =>
    intro i chunks h
    unfold chunkTextLoop
    by_cases hi : i < text.length
    · have hc := ceilDiv_step (text.length - i) (size - overlap) hs (by omega)
      have e : text.length - i - (size - overlap) = text.length - (i + (size - overlap)) := by
        omega
      rw [e] at hc
      simp only [hi, if_true]
      rw [ih _ _ (by omega), hc]
      simp [windows]
    · have e : text.length - i = 0 := by omega
      simp [hi, e, ceilDiv_zero _ hs, windows]

theorem chunkSpansLoop_eq (len size overlap : Nat) (hs : 0 < size - overlap) :
    ∀ (fuel i : Nat) (spans : List (Nat × Nat)),
      ceilDiv (len - i) (size - overlap) < fuel →
      chunkSpansLoop len size overlap fuel i spans =
        some (spans ++
          windowSpans len size (size - overlap) (ceilDiv (len - i) (size - overlap)) i) := by
  intro fuel
  induction fuel with
  | zero => intro i spans h; omega
  | succ fuel ih =>
    intro i spans h
    unfold chunkSpansLoop
    by_cases hi : i < len
    · have hc := ceilDiv_step (len - i) (size - overlap) hs (by omega)
      have e : len - i - (size - overlap) = len - (i + (size - overlap)) := by omega
      rw [e] at hc
      simp only [hi, if_true]
      rw [ih _ _ (by omega), hc]
      simp [windowSpans]
    · have e : len - i = 0 := by omega
      simp [hi, e, ceilDiv_zero _ hs, windowSpans]

theorem ceilDiv_le (len step : Nat) (hs : 0 < step) : ceilDiv len step ≤ len := by
  by_contra h
  push_neg at h
  have := (lt_ceilDiv_iff len step len hs).1 h
  have : len * 1 ≤ len * step := Nat.mul_le_mul_left _ hs
  omega

theorem chunkText_eq {α : Type} (text : List α) (size overlap : Nat) (h : overlap < size) :
    chunkText text size overlap =
      some (windows text size (size - overlap) (ceilDiv text.length (size - overlap)) 0) := by
  have hs : 0 < size - overlap := by omega
  have := chunkTextLoop_eq text size overlap hs (text.length + 1) 0 []
    (by have := ceilDiv_le text.length (size - overlap) hs; simp; omega)
  simpa [chunkText] using this

theorem chunkSpans_eq (len size overlap : Nat) (h : overlap < size) :
    chunkSpans len size overlap =
      some (windowSpans len size (size - overlap) (ceilDiv len (size - overlap)) 0) := by
  have hs : 0 < size - overlap := by omega
  have := chunkSpansLoop_eq len size overlap hs (len + 1) 0 []
    (by have := ceilDiv_le len (size - overlap) hs; simp; omega)
  simpa [chunkSpans] using this

theorem chunkTextLoop_stuck {α : Type} (text : List α) (size overlap i : Nat)
    (hs : size ≤ overlap) (hi : i < text.length) :
    ∀ (fuel : Nat) (chunks : List (List α)),
      chunkTextLoop text size overlap fuel i chunks = none := by
  intro fuel
  induction fuel with
  | zero => intro chunks; rfl
  | succ fuel ih =>
    intro chunks
    have e : size - overlap = 0 := by omega
    unfold chunkTextLoop
    simp only [hi, if_true, e, Nat.add_zero]
    exact ih _

theorem chunkTextLoop_fuel_mono {α : Type} (text : List α) (size overlap : Nat) :
    ∀ (fuel i : Nat) (chunks result : List (List α)),
      chunkTextLoop text size overlap fuel i chunks = some result →
      chunkTextLoop text size overlap (fuel + 1) i chunks = some result := by
  intro fuel
  induction fuel with
  | zero => intro i chunks result h; simp [chunkTextLoop] at h
  | succ fuel ih =>
    intro i chunks result h
    unfold chunkTextLoop at h ⊢
    by_cases hi : i < text.length
    · simp only [hi, if_true] at h ⊢
      exact ih _ _ _ h
    · simp only [hi, if_false] at h ⊢
      exact h

theorem chunkText_isSome_iff {α : Type} (text : List α) (size overlap : Nat) :
    (chunkText text size overlap).isSome = true ↔ text = [] ∨ overlap < size := by
  constructor
  · intro h
    by_contra hc
    push_neg at hc
    obtain ⟨hne, hle⟩ := hc
    have hpos : 0 < text.length := List.length_pos.2 hne
    have := chunkTextLoop_stuck text size overlap 0 hle hpos (text.length + 1) []
    unfold chunkText at h
    rw [this] at h
    simp at h
  · rintro (h | h)
    · subst h
      simp [chunkText, chunkTextLoop]
    · rw [chunkText_eq text size overlap h]
      rfl

theorem windows_length {α : Type} (text : List α) (size step : Nat) :
    ∀ (n i : Nat), (windows text size step n i).length = n := by
  intro n
  induction n with
  | zero => intro i; rfl
  | succ n ih => intro i; simp [windows, ih]

theorem windows_eq_map_spans {α : Type} (text : List α) (size step : Nat) :
    ∀ (n i : Nat), windows text size step n i =
      (windowSpans text.length size step n i).map (fun p => slice text p.1 p.2) := by
  intro n
  induction n with
  | zero => intro i; rfl
  | succ n ih => intro i; simp [windows, windowSpans, ih]

theorem windows_eq_map_range {α : Type} (text : List α) (size step : Nat) :
    ∀ (n i : Nat), windows text size step n i =
      (List.range n).map
        (fun k => slice text (i + k * step) (min (i + k * step + size) text.length)) := by
  intro n
  induction n with
  | zero => intro i; rfl
  | succ n ih =>
    intro i
    rw [List.range_succ_eq_map, List.map_cons, List.map_map, windows, ih]
    simp only [Nat.zero_mul, Nat.add_zero, List.cons.injEq, true_and]
    apply List.map_congr_left
    intro k _
    simp only [Function.comp]
    have e : i + step + k * step = i + (k + 1) * step := by ring
    rw [e]

theorem windowSpans_eq_map_range (len size step : Nat) :
    ∀ (n i : Nat), windowSpans len size step n i =
      (List.range n).map (fun k => (i + k * step, min (i + k * step + size) len)) := by
  intro n
  induction n with
  | zero => intro i; rfl
  | succ n ih =>
    intro i
    rw [List.range_succ_eq_map, List.map_cons, List.map_map, windowSpans, ih]
    simp only [Nat.zero_mul, Nat.add_zero, List.cons.injEq, true_and]
    apply List.map_congr_left
    intro k _
    simp only [Function.comp]
    have e : i + step + k * step = i + (k + 1) * step := by ring
    rw [e]

theorem drop_slice_append_drop {α : Type} (text : List α) (size overlap i : Nat)
    (h : overlap < size) :
    (slice text i (min (i + size) text.length)).drop overlap ++ text.drop (i + size) =
      text.drop (i + overlap) := by
  unfold slice
  rw [List.drop_take, List.drop_drop]
  by_cases hle : i + size ≤ text.length
  · have e1 : min (i + size) text.length - i - overlap = size - overlap := by
      rw [Nat.min_eq_left hle]; omega
    have e2 : i + size = (i + overlap) + (size - overlap) := by omega
    rw [e1, e2, ← List.drop_drop (size - overlap) (i + overlap) text, List.take_append_drop]
  · have e1 : text.drop (i + size) = [] := List.drop_eq_nil_of_le (by omega)
    rw [e1, List.append_nil]
    apply List.take_of_length_le
    rw [List.length_drop, Nat.min_eq_right (by omega)]
    omega

theorem windows_flatten {α : Type} (text : List α) (size overlap : Nat) (h : overlap < size) :
    ∀ (n i : Nat), n = ceilDiv (text.length - i) (size - overlap) →
      ((windows text size (size - overlap) n i).map (List.drop overlap)).flatten =
        text.drop (i + overlap) := by
  have hs : 0 < size - overlap := by omega
  intro n
  induction n with
  | zero =>
    intro i hn
    have hz : ¬ 0 < ceilDiv (text.length - i) (size - overlap) := by omega
    rw [lt_ceilDiv_iff _ _ _ hs] at hz
    simp only [windows, List.map_nil, List.flatten_nil]
    exact (List.drop_eq_nil_of_le (by omega)).symm
  | succ n ih =>
    intro i hn
    have hpos : 0 < text.length - i := by
      by_contra hc
      have e : text.length - i = 0 := by omega
      rw [e, ceilDiv_zero _ hs] at hn
      omega
    have hc := ceilDiv_step (text.length - i) (size - overlap) hs hpos
    have e : text.length - i - (size - overlap) = text.length - (i + (size - overlap)) := by
      omega
    rw [e] at hc
    simp only [windows, List.map_cons, List.flatten_cons]
    rw [ih (i + (size - overlap)) (by omega)]
    have e2 : i + (size - overlap) + overlap = i + size := by omega
    rw [e2]
    exact drop_slice_append_drop text size overlap i h

/-! ### The claims on the chunker -/

/-- C1, as the specification states it, fails: for the four code units
`[10, 11, 12, 13]` with size 4 and overlap 1 the code returns the two chunks
`[10, 11, 12, 13]` and `[13]`, while `ceil(max(L - O, 0) / (S - O))` is 1. -/
theorem chunkText_count_counterexample :
    chunkText [10, 11, 12, 13] 4 1 = some [[10, 11, 12, 13], [13]] ∧
    ⌈max ((4 : ℚ) - 1) 0 / ((4 : ℚ) - 1)⌉₊ = 1 ∧
    (chunkText [10, 11, 12, 13] 4 1).map List.length ≠
      some ⌈max ((4 : ℚ) - 1) 0 / ((4 : ℚ) - 1)⌉₊ := by
  have hc : chunkText [10, 11, 12, 13] 4 1 = some [[10, 11, 12, 13], [13]] := by decide
  have hq : ⌈max ((4 : ℚ) - 1) 0 / ((4 : ℚ) - 1)⌉₊ = 1 := by
    norm_num
  refine ⟨hc, hq, ?_⟩
  rw [hc, hq]
  decide

/-- C1, amended: for a text of length `L` and `0 ≤ O < S`, `chunkText` returns
(its loop terminates) and the number of chunks is `ceil(L / (S - O))`, which is
0 when `L = 0`. -/
theorem chunkText_count {α : Type} (text : List α) (S O : Nat) (h : O < S) :
    (chunkText text S O).map List.length =
      some ⌈(text.length : ℚ) / ((S : ℚ) - (O : ℚ))⌉₊ ∧
    (text.length = 0 → (chunkText text S O).map List.length = some 0) := by
  have hs : 0 < S - O := by omega
  have hcast : ((S - O : ℕ) : ℚ) = (S : ℚ) - (O : ℚ) := by
    rw [Nat.cast_sub (le_of_lt h)]
  have hcount : (chunkText text S O).map List.length =
      some ⌈(text.length : ℚ) / ((S : ℚ) - (O : ℚ))⌉₊ := by
    rw [chunkText_eq text S O h, Option.map_some', windows_length,
      ceilDiv_eq_ceil _ _ hs, hcast]
  refine ⟨hcount, ?_⟩
  intro h0
  rw [hcount, h0]
  simp

theorem chunkText_count_witness :
    (chunkText [10, 11, 12, 13] 4 1).map List.length =
      some ⌈(([10, 11, 12, 13] : List Nat).length : ℚ) / (((4 : ℕ) : ℚ) - ((1 : ℕ) : ℚ))⌉₊ ∧
    (([10, 11, 12, 13] : List Nat).length = 0 →
      (chunkText [10, 11, 12, 13] 4 1).map List.length = some 0) :=
  chunkText_count [10, 11, 12, 13] 4 1 (by decide)

/-- C2: for `0 ≤ O < S`, `chunkText` returns, and the first chunk followed by
every later chunk without its first `O` code units is the original text. -/
theorem chunkText_reassemble {α : Type} (text : List α) (S O : Nat) (h : O < S) :
    ∃ chunks, chunkText text S O = some chunks ∧ reassemble O chunks = text := by
  have hs : 0 < S - O := by omega
  refine ⟨_, chunkText_eq text S O h, ?_⟩
  by_cases hl : 0 < text.length
  · have hc := ceilDiv_step text.length (S - O) hs hl
    rw [hc]
    simp only [windows, reassemble]
    rw [windows_flatten text S O h _ _ (by simp)]
    have e : 0 + (S - O) + O = 0 + S := by omega
    rw [e]
    have := drop_slice_append_drop text S 0 0 (by omega)
    simpa using this
  · have e : text.length = 0 := by omega
    have e2 : text = [] := List.length_eq_zero.1 e
    subst e2
    simp [ceilDiv_zero _ hs, windows, reassemble]

theorem chunkText_reassemble_witness :
    ∃ chunks, chunkText [10, 11, 12, 13, 14] 3 1 = some chunks ∧
      reassemble 1 chunks = [10, 11, 12, 13, 14] :=
  chunkText_reassemble [10, 11, 12, 13, 14] 3 1 (by decide)

/-- C3, as the specification states it, fails: for a text of four code units
with size 4 and overlap 3 the chunks are `[0,4)`, `[1,4)`, `[2,4)`, `[3,4)`; the
pair of chunks 1 and 2 does not end in the final chunk, and the end offset of
chunk 1 minus the start offset of chunk 2 is 2, not the overlap 3. -/
theorem chunkText_overlap_counterexample :
    chunkSpans 4 4 3 = some [(0, 4), (1, 4), (2, 4), (3, 4)] ∧
    chunkText [10, 11, 12, 13] 4 3 =
      some ([(0, 4), (1, 4), (2, 4), (3, 4)].map (fun p => slice [10, 11, 12, 13] p.1 p.2)) ∧
    ¬ (∀ (i : Nat) (a b : Nat × Nat),
        i + 2 < ([(0, 4), (1, 4), (2, 4), (3, 4)] : List (Nat × Nat)).length →
        ([(0, 4), (1, 4), (2, 4), (3, 4)] : List (Nat × Nat))[i]? = some a →
        ([(0, 4), (1, 4), (2, 4), (3, 4)] : List (Nat × Nat))[i + 1]? = some b →
        a.2 - b.1 = 3) := by
  refine ⟨by decide, by decide, ?_⟩
  intro hall
  have := hall 1 (1, 4) (2, 4) (by decide) (by decide) (by decide)
  revert this
  decide

/-- C3, amended: for `0 ≤ O < S`, the end offset of chunk `i` minus the start
offset of chunk `i + 1` is `min(O, L - start of chunk i + 1)`; it is exactly `O`
for every pair whose first chunk is a full window (`start + S ≤ L`), and it is
smaller only when chunk `i` is cut short by the end of the text. -/
theorem chunkText_overlap {α : Type} (text : List α) (S O : Nat) (h : O < S) :
    ∃ spans, chunkSpans text.length S O = some spans ∧
      chunkText text S O = some (spans.map (fun p => slice text p.1 p.2)) ∧
      ∀ (i : Nat) (a b : Nat × Nat), spans[i]? = some a → spans[i + 1]? = some b →
        b.1 ≤ a.2 ∧ a.2 - b.1 = min O (text.length - b.1) ∧
        (a.1 + S ≤ text.length → a.2 - b.1 = O) := by
  have hs : 0 < S - O := by omega
  refine ⟨_, chunkSpans_eq text.length S O h, ?_, ?_⟩
  · rw [chunkText_eq text S O h, windows_eq_map_spans]
  · intro i a b ha hb
    rw [windowSpans_eq_map_range] at ha hb
    simp only [List.getElem?_map, Option.map_eq_some', Nat.zero_add] at ha hb
    obtain ⟨k, hk, rfl⟩ := ha
    obtain ⟨k2, hk2, rfl⟩ := hb
    rw [List.getElem?_eq_some] at hk hk2
    obtain ⟨hlt, hk⟩ := hk
    obtain ⟨hlt2, hk2⟩ := hk2
    simp only [List.getElem_range] at hk hk2
    subst hk
    subst hk2
    simp only [List.length_range] at hlt2
    have hb := (lt_ceilDiv_iff text.length (S - O) (i + 1) hs).1 hlt2
    have e : (i + 1) * (S - O) = i * (S - O) + (S - O) := by ring
    rw [e] at hb
    simp only [e]
    generalize i * (S - O) = p at hb ⊢
    refine ⟨?_, ?_, ?_⟩
    · omega
    · omega
    · intro hfull
      omega

theorem chunkText_overlap_witness :
    ∃ spans, chunkSpans ([10, 11, 12, 13] : List Nat).length 4 3 = some spans ∧
      chunkText [10, 11, 12, 13] 4 3 =
        some (spans.map (fun p => slice [10, 11, 12, 13] p.1 p.2)) ∧
      ∀ (i : Nat) (a b : Nat × Nat), spans[i]? = some a → spans[i + 1]? = some b →
        b.1 ≤ a.2 ∧ a.2 - b.1 = min 3 (([10, 11, 12, 13] : List Nat).length - b.1) ∧
        (a.1 + 4 ≤ ([10, 11, 12, 13] : List Nat).length → a.2 - b.1 = 3) :=
  chunkText_overlap [10, 11, 12, 13] 4 3 (by decide)

/-- C4: for `0 ≤ O < S`, `chunkText` returns the substrings
`text[k*(S-O) .. min(k*(S-O)+S, L))`, in increasing `k`, for exactly the `k` with
`k*(S-O) < L`; the empty text gives no chunk, and a text of length 120 with
size 50 and overlap 10 gives the chunks `[0,50)`, `[40,90)`, `[80,120)`. -/
theorem chunkText_spec {α : Type} (text : List α) (S O : Nat) (h : O < S) :
    (∃ n, (∀ k, k < n ↔ k * (S - O) < text.length) ∧
      chunkText text S O = some ((List.range n).map
        (fun k => slice text (k * (S - O)) (min (k * (S - O) + S) text.length)))) ∧
    chunkText ([] : List α) S O = some [] ∧
    (text.length = 120 →
      chunkText text 50 10 = some [slice text 0 50, slice text 40 90, slice text 80 120]) := by
  have hs : 0 < S - O := by omega
  refine ⟨⟨ceilDiv text.length (S - O), fun k => lt_ceilDiv_iff _ _ k hs, ?_⟩, ?_, ?_⟩
  · rw [chunkText_eq text S O h, windows_eq_map_range]
    simp
  · rw [chunkText_eq [] S O h]
    simp [ceilDiv_zero _ hs, windows]
  · intro hl
    rw [chunkText_eq text 50 10 (by decide), hl]
    have e : ceilDiv 120 (50 - 10) = 3 := by decide
    rw [e]
    simp [windows, hl]

theorem chunkText_spec_witness :
    (∃ n, (∀ k, k < n ↔ k * (50 - 10) < (List.replicate 120 (7 : Nat)).length) ∧
      chunkText (List.replicate 120 (7 : Nat)) 50 10 = some ((List.range n).map
        (fun k => slice (List.replicate 120 (7 : Nat)) (k * (50 - 10))
          (min (k * (50 - 10) + 50) (List.replicate 120 (7 : Nat)).length)))) ∧
    chunkText ([] : List Nat) 50 10 = some [] ∧
    ((List.replicate 120 (7 : Nat)).length = 120 →
      chunkText (List.replicate 120 (7 : Nat)) 50 10 =
        some [slice (List.replicate 120 (7 : Nat)) 0 50,
          slice (List.replicate 120 (7 : Nat)) 40 90,
          slice (List.replicate 120 (7 : Nat)) 80 120]) :=
  chunkText_spec (List.replicate 120 (7 : Nat)) 50 10 (by decide)

/-! ### The embedding pipeline -/

theorem chunkText_default_isSome {α : Type} (text : List α) :
    ∃ chunks, chunkText text = some chunks :=
  ⟨_, chunkText_eq text 500 50 (by decide)⟩

theorem embedChunks_ok {V : Type} (env : EmbedEnv V) (record : SourceRecord) (vec : Nat → V)
    (hins : ∀ k, env.insertError k = none) :
    ∀ (cs : List JsText) (i : Nat) (w : EmbedWorld V),
      (∀ k chunk, cs[k]? = some chunk → ∃ rest,
        env.createEmbeddings (i + k) { model := "text-embedding-3-small", input := chunk } =
          Except.ok (vec (i + k) :: rest)) →
      (embedChunks env record cs i w).1 = none ∧
      (embedChunks env record cs i w).2.ai_embeddings =
        w.ai_embeddings ++
          (cs.enumFrom i).map (fun p => embeddingRow record p.1 p.2 (vec p.1)) := by
  intro cs
  induction cs with
  | nil => intro i w _; simp [embedChunks]
  | cons c cs ih =>
    intro i w h
    obtain ⟨rest, hc⟩ := h 0 c (by simp)
    have hrest : ∀ k chunk, cs[k]? = some chunk → ∃ rest,
        env.createEmbeddings (i + 1 + k) { model := "text-embedding-3-small", input := chunk } =
          Except.ok (vec (i + 1 + k) :: rest) := by
      intro k chunk hk
      have := h (k + 1) chunk (by simpa using hk)
      have e : i + (k + 1) = i + 1 + k := by omega
      rw [e] at this
      exact this
    simp only [Nat.add_zero] at hc
    simp only [embedChunks, hc]
    obtain ⟨h1, h2⟩ := ih (i + 1)
      (insertEmbedding env i (embeddingRow record i c (vec i))
        { w with log := w.log ++ [EmbedEvent.createEmbeddings
            { model := "text-embedding-3-small", input := c }] }) hrest
    refine ⟨h1, ?_⟩
    rw [h2]
    simp [insertEmbedding, hins, List.enumFrom]

/-- C5: when the delete, every embedding request and every insert succeed, the
handler of generate-embeddings returns 200 with the message
`Generated n embeddings.`, `n` being the number of chunks of the body (the empty
text when the body is absent) for size 500 and overlap 50, and the rows of
`ai_embeddings` with the record's id are then exactly the `n` new rows, in the
order of the chunks, row `k` holding chunk `k`, the vector returned for it, the
record's `org_id`, the table and field names and `chunk_ix = k`. -/
theorem generateEmbeddings_replaces {V : Type} (env : EmbedEnv V) (record : SourceRecord)
    (w : EmbedWorld V) (vec : Nat → V)
    (hdel : env.deleteError = none)
    (hemb : ∀ chunks, chunkText (record.body.getD []) 500 50 = some chunks →
      ∀ k chunk, chunks[k]? = some chunk → ∃ rest,
        env.createEmbeddings k { model := "text-embedding-3-small", input := chunk } =
          Except.ok (vec k :: rest))
    (hins : ∀ k, env.insertError k = none) :
    ∃ chunks w1, chunkText (record.body.getD []) 500 50 = some chunks ∧
      generateEmbeddings env { json := Except.ok (some record) } w =
        some ({ status := 200,
                body := EmbedBody.message
                  ("Generated " ++ toString chunks.length ++ " embeddings.") }, w1) ∧
      w1.ai_embeddings.filter (fun row => decide (row.source_record_id = record.id)) =
        (chunks.enumFrom 0).map (fun p =>
          { org_id := record.org_id
            content := p.2
            embedding := vec p.1
            source_table := "content_items"
            source_field := "body"
            source_record_id := record.id
            chunk_ix := p.1 }) := by
  obtain ⟨chunks, hchunks⟩ := chunkText_default_isSome (record.body.getD [])
  have hloop := embedChunks_ok env record vec hins chunks 0 (deleteEmbeddings env record.id w)
    (by
      intro k chunk hk
      simpa using hemb chunks hchunks k chunk hk)
  obtain ⟨h1, h2⟩ := hloop
  refine ⟨chunks, (embedChunks env record chunks 0 (deleteEmbeddings env record.id w)).2,
    hchunks, ?_, ?_⟩
  · simp only [generateEmbeddings, hchunks]
    generalize embedChunks env record chunks 0 (deleteEmbeddings env record.id w) = r at h1
    obtain ⟨r1, r2⟩ := r
    simp only at h1
    subst h1
    rfl
  · rw [h2]
    simp only [deleteEmbeddings, hdel, List.filter_append, List.filter_filter]
    have e1 : List.filter
        (fun a => decide (a.source_record_id = record.id) && decide (a.source_record_id ≠ record.id))
        w.ai_embeddings = [] := by
      rw [List.filter_eq_nil_iff]
      intro a _
      simp
    rw [e1, List.nil_append]
    have e2 : ∀ l : List (EmbeddingRow V),
        (∀ a ∈ l, a.source_record_id = record.id) →
        l.filter (fun row => decide (row.source_record_id = record.id)) = l := by
      intro l hl
      rw [List.filter_eq_self]
      intro a ha
      simpa using hl a ha
    rw [e2]
    · rfl
    · intro a ha
      simp only [List.mem_map] at ha
      obtain ⟨p, _, rfl⟩ := ha
      rfl

theorem generateEmbeddings_replaces_witness :
    ∃ chunks w1, chunkText (sampleRecord.body.getD []) 500 50 = some chunks ∧
      generateEmbeddings sampleEmbedEnv { json := Except.ok (some sampleRecord) }
          sampleEmbedWorld =
        some ({ status := 200,
                body := EmbedBody.message
                  ("Generated " ++ toString chunks.length ++ " embeddings.") }, w1) ∧
      w1.ai_embeddings.filter (fun row => decide (row.source_record_id = sampleRecord.id)) =
        (chunks.enumFrom 0).map (fun p =>
          { org_id := sampleRecord.org_id
            content := p.2
            embedding := id p.1
            source_table := "content_items"
            source_field := "body"
            source_record_id := sampleRecord.id
            chunk_ix := p.1 }) :=
  generateEmbeddings_replaces sampleEmbedEnv sampleRecord sampleEmbedWorld id rfl
    (fun _ _ _ _ _ => ⟨[], rfl⟩) (fun _ => rfl)

/-! ### The operations leave `ai_tasks` alone -/

theorem OpExtends.refl (w : World) : OpExtends w w :=
  ⟨rfl, [], by simp, by simp⟩

theorem OpExtends.trans {w w1 w2 : World} (h1 : OpExtends w w1) (h2 : OpExtends w1 w2) :
    OpExtends w w2 := by
  obtain ⟨a1, e1, l1, n1⟩ := h1
  obtain ⟨a2, e2, l2, n2⟩ := h2
  refine ⟨a2.trans a1, e1 ++ e2, by rw [l2, l1, List.append_assoc], ?_⟩
  intro e he
  rcases List.mem_append.1 he with h | h
  · exact n1 e h
  · exact n2 e h

theorem callOpenAI_extends {env : Env} {messages : List ChatMessage} {temperature : ℚ}
    {w w1 : World} {r : Except String String}
    (h : callOpenAI env messages temperature w = (r, w1)) : OpExtends w w1 := by
  have e : w1 = (callOpenAI env messages temperature w).2 := by rw [h]
  subst e
  simp only [callOpenAI]
  split <;> exact ⟨rfl, [_], rfl, by simp [Event.isTaskWrite]⟩

theorem runQuery_extends (env : Env) (query : Query) (w : World) :
    OpExtends w (runQuery env query w).2 :=
  ⟨rfl, [_], rfl, by simp [Event.isTaskWrite]⟩

theorem summarizeRecords_extends (env : Env) :
    ∀ (records : List ContentRecord) (summaries : List SummaryEntry) (w : World),
      OpExtends w (summarizeRecords env records summaries w).2 := by
  intro records
  induction records with
  | nil => intro summaries w; exact OpExtends.refl w
  | cons record rest ih =>
    intro summaries w
    unfold summarizeRecords
    simp only
    split
    · exact ih _ _
    · split
      · next summary w1 heq =>
        have h := callOpenAI_extends heq
        exact h.trans (ih _ _)
      · next message w1 heq =>
        have h := callOpenAI_extends heq
        exact h.trans (ih _ _)

theorem categorizeRecords_extends (env : Env) :
    ∀ (records : List ContentRecord) (categories : List CategoryEntry) (w : World),
      OpExtends w (categorizeRecords env records categories w).2 := by
  intro records
  induction records with
  | nil => intro categories w; exact OpExtends.refl w
  | cons record rest ih =>
    intro categories w
    unfold categorizeRecords
    simp only
    split
    · next category w1 heq =>
      have h := callOpenAI_extends heq
      exact h.trans (ih _ _)
    · next message w1 heq =>
      have h := callOpenAI_extends heq
      exact h.trans (ih _ _)

theorem analyzeSentiments_extends (env : Env) :
    ∀ (records : List ContentRecord) (sentiments : List SentimentEntry) (w : World),
      OpExtends w (analyzeSentiments env records sentiments w).2 := by
  intro records
  induction records with
  | nil => intro sentiments w; exact OpExtends.refl w
  | cons record rest ih =>
    intro sentiments w
    unfold analyzeSentiments
    simp only
    split
    · next sentimentResult w1 heq =>
      have h := callOpenAI_extends heq
      split
      · exact h.trans (ih _ _)
      · exact h.trans (ih _ _)
    · next message w1 heq =>
      have h := callOpenAI_extends heq
      exact h.trans (ih _ _)

theorem analyzeArticles_extends (env : Env) (parameters : Parameters) (w : World) :
    OpExtends w (analyzeArticles env parameters w).2 := by
  unfold analyzeArticles
  simp only
  have hq := runQuery_extends env
    { table := some (parameters.table_name.getD "articles"),
      conds := articleConds (parameters.filters.getD {}) } w
  generalize runQuery env _ w = q at hq
  obtain ⟨reply, w1⟩ := q
  simp only at hq ⊢
  split
  · exact hq
  · split
    · exact hq
    · exact hq
    · split
      · next message w2 heq =>
        have h := callOpenAI_extends heq
        exact hq.trans h
      · next analysis w2 heq =>
        have h := callOpenAI_extends heq
        split
        · exact hq.trans h
        · exact hq.trans h

theorem extractInsights_extends (env : Env) (parameters : Parameters) (w : World) :
    OpExtends w (extractInsights env parameters w).2 := by
  unfold extractInsights
  simp only
  have hq := runQuery_extends env
    { table := parameters.table_name, conds := insightConds (parameters.filters.getD {}) } w
  generalize runQuery env _ w = q at hq
  obtain ⟨reply, w1⟩ := q
  simp only at hq ⊢
  split
  · exact hq
  · split
    · exact hq
    · exact hq
    · split
      · next message w2 heq =>
        have h := callOpenAI_extends heq
        exact hq.trans h
      · next insights w2 heq =>
        have h := callOpenAI_extends heq
        split
        · exact hq.trans h
        · exact hq.trans h

theorem generateSummaries_extends (env : Env) (parameters : Parameters) (w : World) :
    OpExtends w (generateSummaries env parameters w).2 := by
  unfold generateSummaries
  split
  · exact OpExtends.refl w
  · exact OpExtends.refl w
  · next r rs _ =>
    have hq := runQuery_extends env
      { table := parameters.table_name, conds := [Cond.isIn "id" (r :: rs)] } w
    generalize runQuery env _ w = q at hq
    obtain ⟨reply, w1⟩ := q
    simp only at hq ⊢
    split
    · exact hq
    · split
      · exact hq
      · next records _ =>
        exact hq.trans (summarizeRecords_extends env records [] w1)

theorem categorizeContent_extends (env : Env) (parameters : Parameters) (w : World) :
    OpExtends w (categorizeContent env parameters w).2 := by
  unfold categorizeContent
  split
  · exact OpExtends.refl w
  · exact OpExtends.refl w
  · next r rs _ =>
    have hq := runQuery_extends env
      { table := parameters.table_name, conds := [Cond.isIn "id" (r :: rs)] } w
    generalize runQuery env _ w = q at hq
    obtain ⟨reply, w1⟩ := q
    simp only at hq ⊢
    split
    · exact hq
    · split
      · exact hq
      · next records _ =>
        exact hq.trans (categorizeRecords_extends env records [] w1)

theorem performSentimentAnalysis_extends (env : Env) (parameters : Parameters) (w : World) :
    OpExtends w (performSentimentAnalysis env parameters w).2 := by
  unfold performSentimentAnalysis
  split
  · exact OpExtends.refl w
  · exact OpExtends.refl w
  · next r rs _ =>
    have hq := runQuery_extends env
      { table := parameters.table_name, conds := [Cond.isIn "id" (r :: rs)] } w
    generalize runQuery env _ w = q at hq
    obtain ⟨reply, w1⟩ := q
    simp only at hq ⊢
    split
    · exact hq
    · split
      · exact hq
      · next records _ =>
        exact hq.trans (analyzeSentiments_extends env records [] w1)

theorem dispatch_extends (env : Env) (task_type : String) (parameters : Parameters) (w : World) :
    OpExtends w (dispatch env task_type parameters w).2 := by
  unfold dispatch
  split
  · exact analyzeArticles_extends env parameters w
  · split
    · exact generateSummaries_extends env parameters w
    · split
      · exact extractInsights_extends env parameters w
      · split
        · exact categorizeContent_extends env parameters w
        · split
          · exact performSentimentAnalysis_extends env parameters w
          · exact OpExtends.refl w

/-! ### Steps of the task dispatcher -/

theorem statusWrites_append (taskId : String) (a b : List Event) :
    statusWrites taskId (a ++ b) = statusWrites taskId a ++ statusWrites taskId b := by
  induction a with
  | nil => rfl
  | cons e rest ih =>
    cases e with
    | readBody => simpa [statusWrites] using ih
    | insertTask row id =>
      cases id with
      | none => simpa [statusWrites] using ih
      | some id =>
        by_cases h : id = taskId
        · simp [statusWrites, h, ih]
        · simp [statusWrites, h, ih]
    | updateTask id update ok =>
      cases ok with
      | false => simpa [statusWrites] using ih
      | true =>
        by_cases h : id = taskId
        · simp [statusWrites, h, ih]
        · simp [statusWrites, h, ih]
    | select query => simpa [statusWrites] using ih
    | completion request => simpa [statusWrites] using ih

theorem statusWrites_eq_nil (taskId : String) (evs : List Event)
    (h : ∀ e ∈ evs, Event.isTaskWrite e = false) : statusWrites taskId evs = [] := by
  induction evs with
  | nil => rfl
  | cons e rest ih =>
    have he := h e (by simp)
    have hr := ih (fun e2 h2 => h e2 (by simp [h2]))
    cases e with
    | readBody => simpa [statusWrites] using hr
    | insertTask row id => simp [Event.isTaskWrite] at he
    | updateTask id update ok => simp [Event.isTaskWrite] at he
    | select query => simpa [statusWrites] using hr
    | completion request => simpa [statusWrites] using hr

theorem createTask_succeeds (env : Env) (t : String) (p : Parameters) (priority : String)
    (w : World) (hins : ∀ n row, ∃ id, env.insertTask n row = Except.ok id) :
    ∃ id w1, createTask env t p priority w = (Except.ok id, w1) := by
  obtain ⟨id, h⟩ := hins w.log.length
    { task_type := t, parameters := p, priority := priority, status := "pending",
      created_at := env.clock w.log.length }
  refine ⟨id, (createTask env t p priority w).2, ?_⟩
  simp only [createTask, h]

theorem createTask_ok_spec {env : Env} {t : String} {p : Parameters} {priority : String}
    {w w1 : World} {id : String}
    (h : createTask env t p priority w = (Except.ok id, w1)) :
    ∃ row : TaskInsert, row.status = "pending" ∧ row.task_type = t ∧ row.parameters = p ∧
      row.priority = priority ∧
      w1.ai_tasks = w.ai_tasks ++ [row.toRow id] ∧
      w1.log = w.log ++ [Event.insertTask row (some id)] := by
  simp only [createTask] at h
  split at h
  · simp at h
  · next id2 _ =>
    simp only [Prod.mk.injEq, Except.ok.injEq] at h
    obtain ⟨h1, h2⟩ := h
    subst h1
    subst h2
    exact ⟨_, rfl, rfl, rfl, rfl, rfl, rfl⟩

theorem createTask_error_spec {env : Env} {t : String} {p : Parameters} {priority : String}
    {w w1 : World} {message : String}
    (h : createTask env t p priority w = (Except.error message, w1)) :
    w1.ai_tasks = w.ai_tasks ∧ ∃ row, w1.log = w.log ++ [Event.insertTask row none] := by
  simp only [createTask] at h
  split at h
  · simp only [Prod.mk.injEq] at h
    obtain ⟨_, h2⟩ := h
    subst h2
    exact ⟨rfl, _, rfl⟩
  · simp at h

theorem updateTaskStatus_succeeds (env : Env) (id status : String) (results : Option OpResult)
    (error : Option String) (w : World) (hupd : ∀ n id u, env.updateTask n id u = none) :
    ∃ w1, updateTaskStatus env id status results error w = (Except.ok (), w1) := by
  refine ⟨(updateTaskStatus env id status results error w).2, ?_⟩
  simp only [updateTaskStatus, hupd]

theorem updateTaskStatus_ok_spec {env : Env} {id status : String} {results : Option OpResult}
    {error : Option String} {w w1 : World}
    (h : updateTaskStatus env id status results error w = (Except.ok (), w1)) :
    ∃ u : TaskUpdate, u.status = status ∧ u.results = results ∧
      u.error_message = error.filter (fun m => decide (m ≠ "")) ∧
      w1.ai_tasks = w.ai_tasks.map (fun row => if row.id = id then u.apply row else row) ∧
      w1.log = w.log ++ [Event.updateTask id u true] := by
  simp only [updateTaskStatus] at h
  split at h
  · simp at h
  · simp only [Prod.mk.injEq, true_and] at h
    subst h
    exact ⟨_, rfl, rfl, rfl, rfl, rfl⟩

theorem updateTaskStatus_error_spec {env : Env} {id status : String}
    {results : Option OpResult} {error : Option String} {w w1 : World} {message : String}
    (h : updateTaskStatus env id status results error w = (Except.error message, w1)) :
    w1.ai_tasks = w.ai_tasks ∧ ∃ u : TaskUpdate, u.status = status ∧
      w1.log = w.log ++ [Event.updateTask id u false] := by
  simp only [updateTaskStatus] at h
  split at h
  · simp only [Prod.mk.injEq] at h
    obtain ⟨_, h2⟩ := h
    subst h2
    exact ⟨rfl, _, rfl, rfl⟩
  · simp at h

theorem status_after_update (u : TaskUpdate) (id : String) (rows : List TaskRow) :
    (∀ row ∈ rows.map (fun row => if row.id = id then u.apply row else row),
      row.id = id → row.status = u.status) ∧
    ((∃ row ∈ rows, row.id = id) →
      ∃ row ∈ rows.map (fun row => if row.id = id then u.apply row else row), row.id = id) := by
  constructor
  · intro row hrow hid
    simp only [List.mem_map] at hrow
    obtain ⟨r, _, rfl⟩ := hrow
    by_cases h : r.id = id
    · simp [h, TaskUpdate.apply]
    · simp [h] at hid
  · rintro ⟨r, hr, hid⟩
    refine ⟨u.apply r, ?_, ?_⟩
    · simp only [List.mem_map]
      exact ⟨r, hr, by simp [hid]⟩
    · simpa [TaskUpdate.apply] using hid

theorem empty_not_valid : ¬ "" ∈ validTaskTypes := by decide

theorem post_ne_options : ¬ "POST" = "OPTIONS" := by decide

theorem handler_failed_path {env : Env} {req : Request} {w w1 w2 w3 w4 : World}
    {body : TaskRunRequest} {t : String} {p : Parameters} {taskId m : String}
    (hm : req.method = "POST") (hj : req.json = Except.ok body)
    (ht : body.task_type = some t) (hp : body.parameters = some p) (hv : t ∈ validTaskTypes)
    (hc : createTask env t p (body.priority.getD "normal") (w.record Event.readBody) =
      (Except.ok taskId, w1))
    (hproc : updateTaskStatus env taskId "processing" none none w1 = (Except.ok (), w2))
    (hop : dispatch env t p w2 = (Except.error m, w3))
    (hfail : updateTaskStatus env taskId "failed" none (some m) w3 = (Except.ok (), w4)) :
    handler env req w =
      ({ status := 500
         headers := jsonCorsHeaders
         body := some { success := false, task_id := some taskId, error := some m,
                        status := some "failed" } }, w4) := by
  have hne : ¬ t = "" := fun h => empty_not_valid (h ▸ hv)
  simp [handler, handleRequest, runTask, hm, post_ne_options, hj, ht, hp, hne, hv, hc, hproc,
    hop, hfail]

theorem handler_failed_lost {env : Env} {req : Request} {w w1 w2 w3 w4 : World}
    {body : TaskRunRequest} {t : String} {p : Parameters} {taskId m message : String}
    (hm : req.method = "POST") (hj : req.json = Except.ok body)
    (ht : body.task_type = some t) (hp : body.parameters = some p) (hv : t ∈ validTaskTypes)
    (hc : createTask env t p (body.priority.getD "normal") (w.record Event.readBody) =
      (Except.ok taskId, w1))
    (hproc : updateTaskStatus env taskId "processing" none none w1 = (Except.ok (), w2))
    (hop : dispatch env t p w2 = (Except.error m, w3))
    (hfail : updateTaskStatus env taskId "failed" none (some m) w3 = (Except.error message, w4)) :
    handler env req w =
      ({ status := 500
         headers := jsonCorsHeaders
         body := some { success := false, error := some message } }, w4) := by
  have hne : ¬ t = "" := fun h => empty_not_valid (h ▸ hv)
  simp [handler, handleRequest, runTask, hm, post_ne_options, hj, ht, hp, hne, hv, hc, hproc,
    hop, hfail]

theorem handler_completed_path {env : Env} {req : Request} {w w1 w2 w3 w4 : World}
    {body : TaskRunRequest} {t : String} {p : Parameters} {taskId : String} {r : OpResult}
    (hm : req.method = "POST") (hj : req.json = Except.ok body)
    (ht : body.task_type = some t) (hp : body.parameters = some p) (hv : t ∈ validTaskTypes)
    (hc : createTask env t p (body.priority.getD "normal") (w.record Event.readBody) =
      (Except.ok taskId, w1))
    (hproc : updateTaskStatus env taskId "processing" none none w1 = (Except.ok (), w2))
    (hop : dispatch env t p w2 = (Except.ok r, w3))
    (hdone : updateTaskStatus env taskId "completed" (some r) none w3 = (Except.ok (), w4)) :
    handler env req w =
      ({ status := 200
         headers := jsonCorsHeaders
         body := some { success := true, task_id := some taskId, results := some r,
                        status := some "completed" } }, w4) := by
  have hne : ¬ t = "" := fun h => empty_not_valid (h ▸ hv)
  simp [handler, handleRequest, runTask, hm, post_ne_options, hj, ht, hp, hne, hv, hc, hproc,
    hop, hdone]

theorem handler_processing_lost {env : Env} {req : Request} {w w1 w2 : World}
    {body : TaskRunRequest} {t : String} {p : Parameters} {taskId message : String}
    (hm : req.method = "POST") (hj : req.json = Except.ok body)
    (ht : body.task_type = some t) (hp : body.parameters = some p) (hv : t ∈ validTaskTypes)
    (hc : createTask env t p (body.priority.getD "normal") (w.record Event.readBody) =
      (Except.ok taskId, w1))
    (hproc : updateTaskStatus env taskId "processing" none none w1 =
      (Except.error message, w2)) :
    handler env req w =
      ({ status := 500
         headers := jsonCorsHeaders
         body := some { success := false, error := some message } }, w2) := by
  have hne : ¬ t = "" := fun h => empty_not_valid (h ▸ hv)
  simp [handler, handleRequest, hm, post_ne_options, hj, ht, hp, hne, hv, hc, hproc]

theorem results_after_update (u : TaskUpdate) (id : String) (rows : List TaskRow)
    (r : OpResult) (hr : u.results = some r) :
    ∀ row ∈ rows.map (fun row => if row.id = id then u.apply row else row),
      row.id = id → row.results = some r := by
  intro row hrow hid
  simp only [List.mem_map] at hrow
  obtain ⟨r0, _, rfl⟩ := hrow
  by_cases h : r0.id = id
  · simp [h, TaskUpdate.apply, hr]
  · simp [h] at hid

theorem handler_create_lost {env : Env} {req : Request} {w w1 : World}
    {body : TaskRunRequest} {t : String} {p : Parameters} {message : String}
    (hm : req.method = "POST") (hj : req.json = Except.ok body)
    (ht : body.task_type = some t) (hp : body.parameters = some p) (hv : t ∈ validTaskTypes)
    (hc : createTask env t p (body.priority.getD "normal") (w.record Event.readBody) =
      (Except.error message, w1)) :
    handler env req w =
      ({ status := 500
         headers := jsonCorsHeaders
         body := some { success := false, error := some message } }, w1) := by
  have hne : ¬ t = "" := fun h => empty_not_valid (h ▸ hv)
  simp [handler, handleRequest, hm, post_ne_options, hj, ht, hp, hne, hv, hc]

theorem handler_completed_lost {env : Env} {req : Request} {w w1 w2 w3 w4 w5 : World}
    {body : TaskRunRequest} {t : String} {p : Parameters} {taskId message : String}
    {r : OpResult}
    (hm : req.method = "POST") (hj : req.json = Except.ok body)
    (ht : body.task_type = some t) (hp : body.parameters = some p) (hv : t ∈ validTaskTypes)
    (hc : createTask env t p (body.priority.getD "normal") (w.record Event.readBody) =
      (Except.ok taskId, w1))
    (hproc : updateTaskStatus env taskId "processing" none none w1 = (Except.ok (), w2))
    (hop : dispatch env t p w2 = (Except.ok r, w3))
    (hdone : updateTaskStatus env taskId "completed" (some r) none w3 =
      (Except.error message, w4))
    (hfail : updateTaskStatus env taskId "failed" none (some message) w4 = (Except.ok (), w5)) :
    handler env req w =
      ({ status := 500
         headers := jsonCorsHeaders
         body := some { success := false, task_id := some taskId, error := some message,
                        status := some "failed" } }, w5) := by
  have hne : ¬ t = "" := fun h => empty_not_valid (h ▸ hv)
  simp [handler, handleRequest, runTask, hm, post_ne_options, hj, ht, hp, hne, hv, hc, hproc,
    hop, hdone, hfail]

theorem handler_completed_lost_twice {env : Env} {req : Request} {w w1 w2 w3 w4 w5 : World}
    {body : TaskRunRequest} {t : String} {p : Parameters} {taskId message message2 : String}
    {r : OpResult}
    (hm : req.method = "POST") (hj : req.json = Except.ok body)
    (ht : body.task_type = some t) (hp : body.parameters = some p) (hv : t ∈ validTaskTypes)
    (hc : createTask env t p (body.priority.getD "normal") (w.record Event.readBody) =
      (Except.ok taskId, w1))
    (hproc : updateTaskStatus env taskId "processing" none none w1 = (Except.ok (), w2))
    (hop : dispatch env t p w2 = (Except.ok r, w3))
    (hdone : updateTaskStatus env taskId "completed" (some r) none w3 =
      (Except.error message, w4))
    (hfail : updateTaskStatus env taskId "failed" none (some message) w4 =
      (Except.error message2, w5)) :
    handler env req w =
      ({ status := 500
         headers := jsonCorsHeaders
         body := some { success := false, error := some message2 } }, w5) := by
  have hne : ¬ t = "" := fun h => empty_not_valid (h ▸ hv)
  simp [handler, handleRequest, runTask, hm, post_ne_options, hj, ht, hp, hne, hv, hc, hproc,
    hop, hdone, hfail]

theorem handler_trace (env : Env) (req : Request) (w : World) :
    ∃ evs, (handler env req w).2.log = w.log ++ evs ∧ HandlerTrace evs := by
  by_cases ho : req.method = "OPTIONS"
  · exact ⟨[], by simp [handler, ho], HandlerTrace.idle⟩
  by_cases hm : req.method = "POST"
  swap
  · exact ⟨[], by simp [handler, handleRequest, ho, hm], HandlerTrace.idle⟩
  cases hj : req.json with
  | error msg =>
    exact ⟨[Event.readBody], by simp [handler, handleRequest, ho, hm, hj, World.record],
      HandlerTrace.rejected⟩
  | ok body =>
    cases htt : body.task_type with
    | none =>
      exact ⟨[Event.readBody],
        by simp [handler, handleRequest, ho, hm, hj, htt, World.record], HandlerTrace.rejected⟩
    | some t =>
      cases hpp : body.parameters with
      | none =>
        exact ⟨[Event.readBody],
          by simp [handler, handleRequest, ho, hm, hj, htt, hpp, World.record],
          HandlerTrace.rejected⟩
      | some p =>
        by_cases he : t = ""
        · exact ⟨[Event.readBody],
            by simp [handler, handleRequest, ho, hm, hj, htt, hpp, he, World.record],
            HandlerTrace.rejected⟩
        by_cases hv : t ∈ validTaskTypes
        swap
        · exact ⟨[Event.readBody],
            by simp [handler, handleRequest, ho, hm, hj, htt, hpp, he, hv, World.record],
            HandlerTrace.rejected⟩
        rcases hc : createTask env t p (body.priority.getD "normal")
          (w.record Event.readBody) with ⟨r1, w1⟩
        cases r1 with
        | error msg =>
          obtain ⟨_, row, hl⟩ := createTask_error_spec hc
          refine ⟨[Event.readBody, Event.insertTask row none], ?_, HandlerTrace.notCreated row⟩
          rw [handler_create_lost hm hj htt hpp hv hc, hl]
          simp [World.record]
        | ok taskId =>
          obtain ⟨row, hrow, _, _, _, _, hl1⟩ := createTask_ok_spec hc
          rcases hproc : updateTaskStatus env taskId "processing" none none w1 with ⟨r2, w2⟩
          cases r2 with
          | error msg =>
            obtain ⟨_, u, hu, hl2⟩ := updateTaskStatus_error_spec hproc
            refine ⟨[Event.readBody, Event.insertTask row (some taskId),
              Event.updateTask taskId u false], ?_, HandlerTrace.notStarted row taskId u hrow hu⟩
            rw [handler_processing_lost hm hj htt hpp hv hc hproc, hl2, hl1]
            simp [World.record]
          | ok unit2 =>
            obtain ⟨u, hu, _, _, _, hl2⟩ := updateTaskStatus_ok_spec hproc
            have hext := dispatch_extends env t p w2
            rcases hd : dispatch env t p w2 with ⟨r3, w3⟩
            rw [hd] at hext
            obtain ⟨_, ops, hl3, hops⟩ := hext
            have hbase : w3.log = w.log ++ (Event.readBody ::
                Event.insertTask row (some taskId) :: Event.updateTask taskId u true :: ops) := by
              rw [hl3, hl2, hl1]
              simp [World.record]
            cases r3 with
            | error m =>
              rcases hf : updateTaskStatus env taskId "failed" none (some m) w3 with ⟨r4, w4⟩
              cases r4 with
              | error msg =>
                obtain ⟨_, u4, hu4, hl4⟩ := updateTaskStatus_error_spec hf
                refine ⟨_, ?_, HandlerTrace.ran row taskId u ops _ hrow hu hops
                  (TraceEnd.failed u4 false hu4)⟩
                rw [handler_failed_lost hm hj htt hpp hv hc hproc hd hf, hl4, hbase]
                simp
              | ok unit4 =>
                obtain ⟨u4, hu4, _, _, _, hl4⟩ := updateTaskStatus_ok_spec hf
                refine ⟨_, ?_, HandlerTrace.ran row taskId u ops _ hrow hu hops
                  (TraceEnd.failed u4 true hu4)⟩
                rw [handler_failed_path hm hj htt hpp hv hc hproc hd hf, hl4, hbase]
                simp
            | ok res =>
              rcases hdone : updateTaskStatus env taskId "completed" (some res) none w3
                with ⟨r4, w4⟩
              cases r4 with
              | ok unit4 =>
                obtain ⟨u4, hu4, _, _, _, hl4⟩ := updateTaskStatus_ok_spec hdone
                refine ⟨_, ?_, HandlerTrace.ran row taskId u ops _ hrow hu hops
                  (TraceEnd.completed u4 hu4)⟩
                rw [handler_completed_path hm hj htt hpp hv hc hproc hd hdone, hl4, hbase]
                simp
              | error msg =>
                obtain ⟨_, u4, hu4, hl4⟩ := updateTaskStatus_error_spec hdone
                rcases hf : updateTaskStatus env taskId "failed" none (some msg) w4
                  with ⟨r5, w5⟩
                cases r5 with
                | error msg2 =>
                  obtain ⟨_, u5, hu5, hl5⟩ := updateTaskStatus_error_spec hf
                  refine ⟨_, ?_, HandlerTrace.ran row taskId u ops _ hrow hu hops
                    (TraceEnd.lostThenFailed u4 u5 false hu4 hu5)⟩
                  rw [handler_completed_lost_twice hm hj htt hpp hv hc hproc hd hdone hf, hl5,
                    hl4, hbase]
                  simp
                | ok unit5 =>
                  obtain ⟨u5, hu5, _, _, _, hl5⟩ := updateTaskStatus_ok_spec hf
                  refine ⟨_, ?_, HandlerTrace.ran row taskId u ops _ hrow hu hops
                    (TraceEnd.lostThenFailed u4 u5 true hu4 hu5)⟩
                  rw [handler_completed_lost hm hj htt hpp hv hc hproc hd hdone hf, hl5,
                    hl4, hbase]
                  simp

/-! ### The task dispatcher -/

/-- C7, as the specification states it, fails: a `POST` request with an empty
body lacks `task_type` and `parameters`, yet `await req.json()` raises an error
before the validation is reached and the outer `catch` answers 500, not 400,
with the message of that error; no write to the store and no completion call
has been made. -/
theorem handler_rejects_invalid_counterexample :
    emptyBodyRequest.method = "POST" ∧
    (handler sampleEnv emptyBodyRequest emptyWorld).1 =
      { status := 500, headers := jsonCorsHeaders,
        body := some { success := false, error := some "Unexpected end of JSON input" } } ∧
    (handler sampleEnv emptyBodyRequest emptyWorld).1.status ≠ 400 ∧
    (handler sampleEnv emptyBodyRequest emptyWorld).2.ai_tasks = [] ∧
    (handler sampleEnv emptyBodyRequest emptyWorld).2.log = [Event.readBody] := by
  refine ⟨rfl, rfl, by decide, rfl, rfl⟩

/-- C7, amended: a `POST` request whose body is JSON text of an object that
lacks `task_type` or `parameters`, or whose `task_type` is not in the
enumeration, is answered with 400 and `success: false`; `ai_tasks` is unchanged,
and the only thing the handler has done is read the body: no write to the store
and no completion call. -/
theorem handler_rejects_invalid (env : Env) (req : Request) (w : World) (body : TaskRunRequest)
    (hm : req.method = "POST") (hj : req.json = Except.ok body)
    (hbad : body.task_type = none ∨ body.parameters = none ∨
      ∃ t, body.task_type = some t ∧ t ∉ validTaskTypes) :
    (handler env req w).1.status = 400 ∧
    (∃ b, (handler env req w).1.body = some b ∧ b.success = false ∧ b.task_id = none) ∧
    (handler env req w).2.ai_tasks = w.ai_tasks ∧
    (handler env req w).2.log = w.log ++ [Event.readBody] := by
  have hne : ¬ req.method = "OPTIONS" := by rw [hm]; decide
  cases htt : body.task_type with
  | none => simp [handler, handleRequest, hm, hj, htt, World.record]
  | some t =>
    cases hpp : body.parameters with
    | none => simp [handler, handleRequest, hm, hj, htt, hpp, World.record]
    | some p =>
      have hnot : t ∉ validTaskTypes := by
        rcases hbad with h | h | ⟨t2, h1, h2⟩
        · rw [htt] at h; cases h
        · rw [hpp] at h; cases h
        · rw [htt] at h1; cases h1; exact h2
      by_cases he : t = ""
      · simp [handler, handleRequest, hm, hj, htt, hpp, he, World.record]
      · simp [handler, handleRequest, hm, hj, htt, hpp, he, hnot, World.record]

theorem handler_rejects_invalid_witness :
    (handler sampleEnv translateRequest emptyWorld).1.status = 400 ∧
    (∃ b, (handler sampleEnv translateRequest emptyWorld).1.body = some b ∧
      b.success = false ∧ b.task_id = none) ∧
    (handler sampleEnv translateRequest emptyWorld).2.ai_tasks = emptyWorld.ai_tasks ∧
    (handler sampleEnv translateRequest emptyWorld).2.log = emptyWorld.log ++ [Event.readBody] :=
  handler_rejects_invalid sampleEnv translateRequest emptyWorld
    { task_type := some "translate", parameters := some {} } rfl rfl
    (Or.inr (Or.inr ⟨"translate", rfl, by decide⟩))

/-- C6, as the specification states it, fails: when the store accepts the insert
and reports an error for the update to `processing`, the handler answers 500
and returns with the task stored in status `pending`, the only status ever
written to it. -/
theorem handler_lifecycle_counterexample :
    (handler lostStoreEnv analyzeRequest emptyWorld).1.status = 500 ∧
    (handler lostStoreEnv analyzeRequest emptyWorld).2.ai_tasks.map
      (fun row => (row.id, row.status)) = [("task-1", "pending")] ∧
    statusWrites "task-1" (handler lostStoreEnv analyzeRequest emptyWorld).2.log =
      ["pending"] := by
  refine ⟨by decide, by decide, by decide⟩

/-- C6, amended: for every accepted task request and every behaviour of the
content store and of the completion API, when the store carries out the writes
to `ai_tasks`, the statuses written to the task are `pending`, then
`processing`, then exactly one of `completed` and `failed`, and when the handler
returns the task is stored with that last status, hence not `pending`. -/
theorem handler_lifecycle (env : Env) (req : Request) (w : World) (body : TaskRunRequest)
    (t : String) (p : Parameters)
    (hm : req.method = "POST") (hj : req.json = Except.ok body)
    (ht : body.task_type = some t) (hp : body.parameters = some p) (hv : t ∈ validTaskTypes)
    (hins : ∀ n row, ∃ id, env.insertTask n row = Except.ok id)
    (hupd : ∀ n id u, env.updateTask n id u = none) :
    ∃ taskId terminal evs, (terminal = "completed" ∨ terminal = "failed") ∧
      (handler env req w).2.log = w.log ++ evs ∧
      statusWrites taskId evs = ["pending", "processing", terminal] ∧
      (∃ row ∈ (handler env req w).2.ai_tasks, row.id = taskId) ∧
      (∀ row ∈ (handler env req w).2.ai_tasks, row.id = taskId →
        row.status = terminal ∧ row.status ≠ "pending") := by
  obtain ⟨taskId, w1, hc⟩ := createTask_succeeds env t p (body.priority.getD "normal")
    (w.record Event.readBody) hins
  obtain ⟨w2, hproc⟩ := updateTaskStatus_succeeds env taskId "processing" none none w1 hupd
  obtain ⟨row, hrow, _, _, _, ha1, hl1⟩ := createTask_ok_spec hc
  obtain ⟨u2, hu2, _, _, ha2, hl2⟩ := updateTaskStatus_ok_spec hproc
  have hext := dispatch_extends env t p w2
  rcases hd : dispatch env t p w2 with ⟨r, w3⟩
  rw [hd] at hext
  obtain ⟨ha3, evs3, hl3, hnw⟩ := hext
  have hex2 : ∃ row ∈ w3.ai_tasks, row.id = taskId := by
    rw [ha3, ha2]
    apply (status_after_update u2 taskId w1.ai_tasks).2
    rw [ha1]
    exact ⟨row.toRow taskId, by simp, rfl⟩
  have key : ∀ (terminal : String) (w4 : World) (u4 : TaskUpdate),
      (terminal = "completed" ∨ terminal = "failed") → u4.status = terminal →
      w4.ai_tasks = w3.ai_tasks.map (fun row => if row.id = taskId then u4.apply row else row) →
      w4.log = w3.log ++ [Event.updateTask taskId u4 true] →
      ∃ evs, w4.log = w.log ++ evs ∧
        statusWrites taskId evs = ["pending", "processing", terminal] ∧
        (∃ row ∈ w4.ai_tasks, row.id = taskId) ∧
        (∀ row ∈ w4.ai_tasks, row.id = taskId →
          row.status = terminal ∧ row.status ≠ "pending") := by
    intro terminal w4 u4 hterm hu4 ha4 hl4
    refine ⟨[Event.readBody, Event.insertTask row (some taskId),
      Event.updateTask taskId u2 true] ++ evs3 ++ [Event.updateTask taskId u4 true], ?_, ?_, ?_, ?_⟩
    · rw [hl4, hl3, hl2, hl1]
      simp [World.record]
    · rw [statusWrites_append, statusWrites_append, statusWrites_eq_nil taskId evs3 hnw]
      simp [statusWrites, hrow, hu2, hu4]
    · rw [ha4]
      exact (status_after_update u4 taskId w3.ai_tasks).2 hex2
    · intro r4 hr4 hid
      rw [ha4] at hr4
      have := (status_after_update u4 taskId w3.ai_tasks).1 r4 hr4 hid
      rw [hu4] at this
      refine ⟨this, ?_⟩
      rw [this]
      rcases hterm with h | h <;> rw [h] <;> decide
  cases r with
  | error m =>
    obtain ⟨w4, hfail⟩ := updateTaskStatus_succeeds env taskId "failed" none (some m) w3 hupd
    obtain ⟨u4, hu4, _, _, ha4, hl4⟩ := updateTaskStatus_ok_spec hfail
    rw [handler_failed_path hm hj ht hp hv hc hproc hd hfail]
    obtain ⟨evs, h⟩ := key "failed" w4 u4 (Or.inr rfl) hu4 ha4 hl4
    exact ⟨taskId, "failed", evs, Or.inr rfl, h⟩
  | ok res =>
    obtain ⟨w4, hdone⟩ := updateTaskStatus_succeeds env taskId "completed" (some res) none w3 hupd
    obtain ⟨u4, hu4, _, _, ha4, hl4⟩ := updateTaskStatus_ok_spec hdone
    rw [handler_completed_path hm hj ht hp hv hc hproc hd hdone]
    obtain ⟨evs, h⟩ := key "completed" w4 u4 (Or.inl rfl) hu4 ha4 hl4
    exact ⟨taskId, "completed", evs, Or.inl rfl, h⟩

theorem handler_lifecycle_witness :
    ∃ taskId terminal evs, (terminal = "completed" ∨ terminal = "failed") ∧
      (handler sampleEnv analyzeRequest emptyWorld).2.log = emptyWorld.log ++ evs ∧
      statusWrites taskId evs = ["pending", "processing", terminal] ∧
      (∃ row ∈ (handler sampleEnv analyzeRequest emptyWorld).2.ai_tasks, row.id = taskId) ∧
      (∀ row ∈ (handler sampleEnv analyzeRequest emptyWorld).2.ai_tasks, row.id = taskId →
        row.status = terminal ∧ row.status ≠ "pending") :=
  handler_lifecycle sampleEnv analyzeRequest emptyWorld
    { task_type := some "analyze_articles", parameters := some {} } "analyze_articles" {}
    rfl rfl rfl rfl (by decide) (fun _ _ => ⟨"task-1", rfl⟩) (fun _ _ _ => rfl)

/-- C8, as the specification states it, fails: for `categorize_content` with an
empty `record_ids` the handler inserts the task row, writes `pending`,
`processing` and `failed` to it, and answers 500 with the id of the task. -/
theorem categorize_empty_counterexample :
    (handler sampleEnv emptyCategorizeRequest emptyWorld).2.ai_tasks.map
      (fun row => (row.id, row.task_type, row.status)) =
        [("task-1", "categorize_content", "failed")] ∧
    statusWrites "task-1" (handler sampleEnv emptyCategorizeRequest emptyWorld).2.log =
      ["pending", "processing", "failed"] ∧
    (handler sampleEnv emptyCategorizeRequest emptyWorld).1.status = 500 ∧
    (handler sampleEnv emptyCategorizeRequest emptyWorld).1.body.map
      (fun b => (b.success, b.task_id, b.error)) =
        some (false, some "task-1", some "record_ids is required for categorization") := by
  refine ⟨by decide, by decide, by decide, by decide⟩

/-- C8, amended: for `categorize_content` with an empty `record_ids` the task is
created first; the operation then fails at its first step with the explicit
error `record_ids is required for categorization`, without a query of the
content store or a completion call, and, the store carrying out the writes to
`ai_tasks`, the task ends in `failed` and the answer is 500 with
`success: false`, the id of the task, that error and `status: 'failed'`. -/
theorem categorize_empty_fails_after_create (env : Env) (req : Request) (w : World)
    (body : TaskRunRequest) (p : Parameters)
    (hm : req.method = "POST") (hj : req.json = Except.ok body)
    (ht : body.task_type = some "categorize_content") (hp : body.parameters = some p)
    (hr : p.record_ids = some [])
    (hins : ∀ n row, ∃ id, env.insertTask n row = Except.ok id)
    (hupd : ∀ n id u, env.updateTask n id u = none) :
    ∃ taskId w4 evs,
      handler env req w =
        ({ status := 500
           headers := jsonCorsHeaders
           body := some { success := false, task_id := some taskId,
                          error := some "record_ids is required for categorization",
                          status := some "failed" } }, w4) ∧
      w4.log = w.log ++ evs ∧
      statusWrites taskId evs = ["pending", "processing", "failed"] ∧
      (∀ e ∈ evs, Event.isSelect e = false ∧ Event.isCompletion e = false) ∧
      (∃ row ∈ w4.ai_tasks, row.id = taskId ∧ row.task_type = "categorize_content") ∧
      (∀ row ∈ w4.ai_tasks, row.id = taskId → row.status = "failed") := by
  have hv : "categorize_content" ∈ validTaskTypes := by decide
  obtain ⟨taskId, w1, hc⟩ := createTask_succeeds env "categorize_content" p
    (body.priority.getD "normal") (w.record Event.readBody) hins
  obtain ⟨w2, hproc⟩ := updateTaskStatus_succeeds env taskId "processing" none none w1 hupd
  have hd : dispatch env "categorize_content" p w2 =
      (Except.error "record_ids is required for categorization", w2) := by
    simp [dispatch, categorizeContent, hr]
  obtain ⟨w4, hfail⟩ := updateTaskStatus_succeeds env taskId "failed" none
    (some "record_ids is required for categorization") w2 hupd
  obtain ⟨row, hrow, htype, _, _, ha1, hl1⟩ := createTask_ok_spec hc
  obtain ⟨u2, hu2, _, _, ha2, hl2⟩ := updateTaskStatus_ok_spec hproc
  obtain ⟨u4, hu4, _, _, ha4, hl4⟩ := updateTaskStatus_ok_spec hfail
  refine ⟨taskId, w4, [Event.readBody, Event.insertTask row (some taskId),
    Event.updateTask taskId u2 true, Event.updateTask taskId u4 true],
    handler_failed_path hm hj ht hp hv hc hproc hd hfail, ?_, ?_, ?_, ?_, ?_⟩
  · rw [hl4, hl2, hl1]
    simp [World.record]
  · simp [statusWrites, hrow, hu2, hu4]
  · intro e he
    simp only [List.mem_cons, List.mem_singleton, List.not_mem_nil, or_false] at he
    rcases he with h | h | h | h <;> subst h <;> exact ⟨rfl, rfl⟩
  · rw [ha4, ha2, ha1]
    refine ⟨u4.apply (u2.apply (row.toRow taskId)), ?_, ?_, ?_⟩
    · simp [TaskInsert.toRow, TaskUpdate.apply]
    · rfl
    · simpa [TaskInsert.toRow, TaskUpdate.apply] using htype
  · intro r4 hr4 hid
    rw [ha4] at hr4
    have := (status_after_update u4 taskId w2.ai_tasks).1 r4 hr4 hid
    rw [hu4] at this
    exact this

theorem categorize_empty_fails_after_create_witness :
    ∃ taskId w4 evs,
      handler sampleEnv emptyCategorizeRequest emptyWorld =
        ({ status := 500
           headers := jsonCorsHeaders
           body := some { success := false, task_id := some taskId,
                          error := some "record_ids is required for categorization",
                          status := some "failed" } }, w4) ∧
      w4.log = emptyWorld.log ++ evs ∧
      statusWrites taskId evs = ["pending", "processing", "failed"] ∧
      (∀ e ∈ evs, Event.isSelect e = false ∧ Event.isCompletion e = false) ∧
      (∃ row ∈ w4.ai_tasks, row.id = taskId ∧ row.task_type = "categorize_content") ∧
      (∀ row ∈ w4.ai_tasks, row.id = taskId → row.status = "failed") :=
  categorize_empty_fails_after_create sampleEnv emptyCategorizeRequest emptyWorld
    { task_type := some "categorize_content",
      parameters := some { table_name := some "articles", record_ids := some [] } }
    { table_name := some "articles", record_ids := some [] }
    rfl rfl rfl rfl rfl (fun _ _ => ⟨"task-1", rfl⟩) (fun _ _ _ => rfl)

/-- C9, as the specification states it, fails: `generate_summaries` without
`record_ids` is accepted, its operation raises an error after the task was
created, and the response reports `success: false`, the id of the task and the
error with status 500, which is not a 2xx status. -/
theorem failed_task_status_counterexample :
    (handler sampleEnv summariesRequest emptyWorld).1.body.map
      (fun b => (b.success, b.task_id, b.error)) =
        some (false, some "task-1", some "record_ids is required for summary generation") ∧
    (handler sampleEnv summariesRequest emptyWorld).1.status = 500 ∧
    ¬ (200 ≤ (handler sampleEnv summariesRequest emptyWorld).1.status ∧
        (handler sampleEnv summariesRequest emptyWorld).1.status < 300) := by
  refine ⟨by decide, by decide, by decide⟩

/-- C9, amended: for every accepted task request whose operation raises an error
`m` after the task was created and set to `processing`, the handler returns a
response with status 500 whose body reports `success: false`; when the store
carries out the update to `failed`, the body also carries the id of the task,
the error `m` and `status: 'failed'`. -/
theorem failed_task_response (env : Env) (req : Request) (w w1 w2 w3 : World)
    (body : TaskRunRequest) (t : String) (p : Parameters) (taskId m : String)
    (hm : req.method = "POST") (hj : req.json = Except.ok body)
    (ht : body.task_type = some t) (hp : body.parameters = some p) (hv : t ∈ validTaskTypes)
    (hc : createTask env t p (body.priority.getD "normal") (w.record Event.readBody) =
      (Except.ok taskId, w1))
    (hproc : updateTaskStatus env taskId "processing" none none w1 = (Except.ok (), w2))
    (hop : dispatch env t p w2 = (Except.error m, w3)) :
    (handler env req w).1.status = 500 ∧
    (∃ b, (handler env req w).1.body = some b ∧ b.success = false) ∧
    (∀ w4, updateTaskStatus env taskId "failed" none (some m) w3 = (Except.ok (), w4) →
      handler env req w =
        ({ status := 500
           headers := jsonCorsHeaders
           body := some { success := false, task_id := some taskId, error := some m,
                          status := some "failed" } }, w4)) := by
  rcases hf : updateTaskStatus env taskId "failed" none (some m) w3 with ⟨r, w4⟩
  cases r with
  | error message =>
    rw [handler_failed_lost hm hj ht hp hv hc hproc hop hf]
    refine ⟨rfl, ⟨_, rfl, rfl⟩, ?_⟩
    intro w5 h5
    simp at h5
  | ok u =>
    rw [handler_failed_path hm hj ht hp hv hc hproc hop hf]
    refine ⟨rfl, ⟨_, rfl, rfl⟩, ?_⟩
    intro w5 h5
    simp only [Prod.mk.injEq, true_and] at h5
    rw [h5]

theorem failed_task_response_witness :
    (handler sampleEnv summariesRequest emptyWorld).1.status = 500 ∧
    (∃ b, (handler sampleEnv summariesRequest emptyWorld).1.body = some b ∧
      b.success = false) ∧
    (∀ w4, updateTaskStatus sampleEnv "task-1" "failed" none
        (some "record_ids is required for summary generation")
        (dispatch sampleEnv "generate_summaries" { table_name := some "articles" }
          (updateTaskStatus sampleEnv "task-1" "processing" none none
            (createTask sampleEnv "generate_summaries" { table_name := some "articles" }
              "normal" (emptyWorld.record Event.readBody)).2).2).2 = (Except.ok (), w4) →
      handler sampleEnv summariesRequest emptyWorld =
        ({ status := 500
           headers := jsonCorsHeaders
           body := some { success := false, task_id := some "task-1",
                          error := some "record_ids is required for summary generation",
                          status := some "failed" } }, w4)) :=
  failed_task_response sampleEnv summariesRequest emptyWorld _ _ _
    { task_type := some "generate_summaries",
      parameters := some { table_name := some "articles" } }
    "generate_summaries" { table_name := some "articles" } "task-1"
    "record_ids is required for summary generation"
    rfl rfl rfl rfl (by decide) rfl rfl rfl

/-- C10: for every accepted task request whose operation raises an error with
message `m` after the task was created, the store carrying out the updates, the
handler answers 500 with the body `success: false`, the id of the created task,
`error: m` and `status: 'failed'`, and the task is stored with status
`failed`. -/
theorem handler_failed_task (env : Env) (req : Request) (w w1 w3 : World)
    (body : TaskRunRequest) (t : String) (p : Parameters) (taskId m : String)
    (hm : req.method = "POST") (hj : req.json = Except.ok body)
    (ht : body.task_type = some t) (hp : body.parameters = some p) (hv : t ∈ validTaskTypes)
    (hupd : ∀ n id u, env.updateTask n id u = none)
    (hc : createTask env t p (body.priority.getD "normal") (w.record Event.readBody) =
      (Except.ok taskId, w1))
    (hop : dispatch env t p (updateTaskStatus env taskId "processing" none none w1).2 =
      (Except.error m, w3)) :
    ∃ w4,
      handler env req w =
        ({ status := 500
           headers := jsonCorsHeaders
           body := some { success := false, task_id := some taskId, error := some m,
                          status := some "failed" } }, w4) ∧
      (∃ row ∈ w4.ai_tasks, row.id = taskId) ∧
      (∀ row ∈ w4.ai_tasks, row.id = taskId → row.status = "failed") := by
  obtain ⟨w2, hproc⟩ := updateTaskStatus_succeeds env taskId "processing" none none w1 hupd
  rw [hproc] at hop
  simp only at hop
  obtain ⟨w4, hfail⟩ := updateTaskStatus_succeeds env taskId "failed" none (some m) w3 hupd
  obtain ⟨row, _, _, _, _, ha1, _⟩ := createTask_ok_spec hc
  obtain ⟨u2, _, _, _, ha2, _⟩ := updateTaskStatus_ok_spec hproc
  obtain ⟨u4, hu4, _, _, ha4, _⟩ := updateTaskStatus_ok_spec hfail
  have hext := dispatch_extends env t p w2
  rw [hop] at hext
  obtain ⟨ha3, _⟩ := hext
  refine ⟨w4, handler_failed_path hm hj ht hp hv hc hproc hop hfail, ?_, ?_⟩
  · rw [ha4]
    apply (status_after_update u4 taskId w3.ai_tasks).2
    rw [ha3, ha2]
    apply (status_after_update u2 taskId w1.ai_tasks).2
    rw [ha1]
    exact ⟨row.toRow taskId, by simp, rfl⟩
  · intro r4 hr4 hid
    rw [ha4] at hr4
    have := (status_after_update u4 taskId w3.ai_tasks).1 r4 hr4 hid
    rw [hu4] at this
    exact this

theorem handler_failed_task_witness :
    ∃ w4,
      handler sampleEnv sentimentRequest emptyWorld =
        ({ status := 500
           headers := jsonCorsHeaders
           body := some { success := false, task_id := some "task-1",
                          error := some "record_ids is required for sentiment analysis",
                          status := some "failed" } }, w4) ∧
      (∃ row ∈ w4.ai_tasks, row.id = "task-1") ∧
      (∀ row ∈ w4.ai_tasks, row.id = "task-1" → row.status = "failed") :=
  handler_failed_task sampleEnv sentimentRequest emptyWorld _ _
    { task_type := some "sentiment_analysis", parameters := some {} }
    "sentiment_analysis" {} "task-1" "record_ids is required for sentiment analysis"
    rfl rfl rfl rfl (by decide) (fun _ _ _ => rfl) rfl rfl

/-- C11: for every accepted task request whose operation returns a result `r`,
the store carrying out the insert and the updates, the handler answers 200 with
the body `success: true`, the id of the task, `results: r` and
`status: 'completed'`, and the task is stored with status `completed` and
results `r`. -/
theorem handler_completed_task (env : Env) (req : Request) (w w1 w3 : World)
    (body : TaskRunRequest) (t : String) (p : Parameters) (taskId : String) (r : OpResult)
    (hm : req.method = "POST") (hj : req.json = Except.ok body)
    (ht : body.task_type = some t) (hp : body.parameters = some p) (hv : t ∈ validTaskTypes)
    (hupd : ∀ n id u, env.updateTask n id u = none)
    (hc : createTask env t p (body.priority.getD "normal") (w.record Event.readBody) =
      (Except.ok taskId, w1))
    (hop : dispatch env t p (updateTaskStatus env taskId "processing" none none w1).2 =
      (Except.ok r, w3)) :
    ∃ w4,
      handler env req w =
        ({ status := 200
           headers := jsonCorsHeaders
           body := some { success := true, task_id := some taskId, results := some r,
                          status := some "completed" } }, w4) ∧
      (∃ row ∈ w4.ai_tasks, row.id = taskId) ∧
      (∀ row ∈ w4.ai_tasks, row.id = taskId →
        row.status = "completed" ∧ row.results = some r) := by
  obtain ⟨w2, hproc⟩ := updateTaskStatus_succeeds env taskId "processing" none none w1 hupd
  rw [hproc] at hop
  simp only at hop
  obtain ⟨w4, hdone⟩ := updateTaskStatus_succeeds env taskId "completed" (some r) none w3 hupd
  obtain ⟨row, _, _, _, _, ha1, _⟩ := createTask_ok_spec hc
  obtain ⟨u2, _, _, _, ha2, _⟩ := updateTaskStatus_ok_spec hproc
  obtain ⟨u4, hu4, hr4, _, ha4, _⟩ := updateTaskStatus_ok_spec hdone
  have hext := dispatch_extends env t p w2
  rw [hop] at hext
  obtain ⟨ha3, _⟩ := hext
  refine ⟨w4, handler_completed_path hm hj ht hp hv hc hproc hop hdone, ?_, ?_⟩
  · rw [ha4]
    apply (status_after_update u4 taskId w3.ai_tasks).2
    rw [ha3, ha2]
    apply (status_after_update u2 taskId w1.ai_tasks).2
    rw [ha1]
    exact ⟨row.toRow taskId, by simp, rfl⟩
  · intro r4 hrow hid
    rw [ha4] at hrow
    have h1 := (status_after_update u4 taskId w3.ai_tasks).1 r4 hrow hid
    rw [hu4] at h1
    exact ⟨h1, results_after_update u4 taskId w3.ai_tasks r hr4 r4 hrow hid⟩

theorem handler_completed_task_witness :
    ∃ w4,
      handler sampleEnv analyzeRequest emptyWorld =
        ({ status := 200
           headers := jsonCorsHeaders
           body := some { success := true, task_id := some "task-1",
                          results := some (OpResult.message "No articles found for analysis"),
                          status := some "completed" } }, w4) ∧
      (∃ row ∈ w4.ai_tasks, row.id = "task-1") ∧
      (∀ row ∈ w4.ai_tasks, row.id = "task-1" →
        row.status = "completed" ∧
        row.results = some (OpResult.message "No articles found for analysis")) :=
  handler_completed_task sampleEnv analyzeRequest emptyWorld _ _
    { task_type := some "analyze_articles", parameters := some {} }
    "analyze_articles" {} "task-1" (OpResult.message "No articles found for analysis")
    rfl rfl rfl rfl (by decide) (fun _ _ _ => rfl) rfl rfl

/-! ### The embedding pipeline: errors and regeneration -/

theorem embedChunks_fail {V : Type} (env : EmbedEnv V) (record : SourceRecord) (vec : Nat → V)
    (m : String) :
    ∀ (cs : List JsText) (i k : Nat) (w : EmbedWorld V) (ck : JsText),
      cs[k]? = some ck →
      (∀ j chunk, j < k → cs[j]? = some chunk → ∃ rest,
        env.createEmbeddings (i + j) { model := "text-embedding-3-small", input := chunk } =
          Except.ok (vec (i + j) :: rest)) →
      (∀ j, j < k → env.insertError (i + j) = none) →
      env.createEmbeddings (i + k) { model := "text-embedding-3-small", input := ck } =
        Except.error m →
      (embedChunks env record cs i w).1 = some m ∧
      (embedChunks env record cs i w).2.ai_embeddings =
        w.ai_embeddings ++
          ((cs.take k).enumFrom i).map (fun p => embeddingRow record p.1 p.2 (vec p.1)) ∧
      (embedChunks env record cs i w).2.log =
        w.log ++
          ((cs.take k).enumFrom i).flatMap (fun p =>
            [EmbedEvent.createEmbeddings { model := "text-embedding-3-small", input := p.2 },
             EmbedEvent.insert (embeddingRow record p.1 p.2 (vec p.1))]) ++
          [EmbedEvent.createEmbeddings { model := "text-embedding-3-small", input := ck }] := by
  intro cs
  induction cs with
  | nil => intro i k w ck hk; simp at hk
  | cons c cs ih =>
    intro i k w ck hk hprev hins hfail
    cases k with
    | zero =>
      simp only [List.getElem?_cons_zero, Option.some.injEq] at hk
      subst hk
      simp only [Nat.add_zero] at hfail
      simp [embedChunks, hfail]
    | succ k =>
      simp only [List.getElem?_cons_succ] at hk
      obtain ⟨rest, h0⟩ := hprev 0 c (by omega) (by simp)
      simp only [Nat.add_zero] at h0
      have hi0 : env.insertError i = none := by simpa using hins 0 (by omega)
      have hprev2 : ∀ j chunk, j < k → cs[j]? = some chunk → ∃ rest,
          env.createEmbeddings (i + 1 + j) { model := "text-embedding-3-small", input := chunk } =
            Except.ok (vec (i + 1 + j) :: rest) := by
        intro j chunk hj hc
        have := hprev (j + 1) chunk (by omega) (by simpa using hc)
        have e : i + (j + 1) = i + 1 + j := by omega
        rw [e] at this
        exact this
      have hins2 : ∀ j, j < k → env.insertError (i + 1 + j) = none := by
        intro j hj
        have := hins (j + 1) (by omega)
        have e : i + (j + 1) = i + 1 + j := by omega
        rw [e] at this
        exact this
      have hfail2 : env.createEmbeddings (i + 1 + k)
          { model := "text-embedding-3-small", input := ck } = Except.error m := by
        have e : i + (k + 1) = i + 1 + k := by omega
        rw [e] at hfail
        exact hfail
      obtain ⟨h1, h2, h3⟩ := ih (i + 1) k
        (insertEmbedding env i (embeddingRow record i c (vec i))
          { w with log := w.log ++ [EmbedEvent.createEmbeddings
              { model := "text-embedding-3-small", input := c }] }) ck hk hprev2 hins2 hfail2
      simp only [embedChunks, h0]
      refine ⟨h1, ?_, ?_⟩
      · rw [h2]
        simp [insertEmbedding, hi0]
      · rw [h3]
        simp [insertEmbedding]

theorem filter_other_record {V : Type} (id : String) (rows : List (EmbeddingRow V))
    (h : ∀ row ∈ rows, row.source_record_id = id) :
    rows.filter (fun row => decide (row.source_record_id ≠ id)) = [] := by
  rw [List.filter_eq_nil_iff]
  intro a ha
  simp [h a ha]

theorem filter_same_record {V : Type} (id : String) (rows : List (EmbeddingRow V))
    (h : ∀ row ∈ rows, row.source_record_id = id) :
    rows.filter (fun row => decide (row.source_record_id = id)) = rows := by
  rw [List.filter_eq_self]
  intro a ha
  simp [h a ha]

theorem filter_same_of_other {V : Type} (id : String) (rows : List (EmbeddingRow V)) :
    (rows.filter (fun row => decide (row.source_record_id ≠ id))).filter
      (fun row => decide (row.source_record_id = id)) = [] := by
  rw [List.filter_eq_nil_iff]
  intro a ha
  have := (List.mem_filter.1 ha).2
  simpa using this

theorem new_rows_same_record {V : Type} (record : SourceRecord) (vec : Nat → V)
    (cs : List JsText) (i : Nat) :
    ∀ row ∈ (cs.enumFrom i).map (fun p => embeddingRow record p.1 p.2 (vec p.1)),
      row.source_record_id = record.id := by
  intro row hrow
  simp only [List.mem_map] at hrow
  obtain ⟨p, _, rfl⟩ := hrow
  rfl

/-- C16 fails on the code: with a store that reports an error for the delete
and for the insert, the handler still requests the embedding, still attempts the
insert, and answers 200 `Generated 1 embeddings.`; the row of the earlier
generation is still stored and no new row is. -/
theorem generateEmbeddings_ignores_store_errors :
    (generateEmbeddings refusingEmbedEnv { json := Except.ok (some sampleRecord) }
        sampleEmbedWorld).map (fun r => r.1) =
      some { status := 200, body := EmbedBody.message "Generated 1 embeddings." } ∧
    (generateEmbeddings refusingEmbedEnv { json := Except.ok (some sampleRecord) }
        sampleEmbedWorld).map (fun r => r.2.log) =
      some [EmbedEvent.delete "r1",
            EmbedEvent.createEmbeddings
              { model := "text-embedding-3-small", input := [104, 105, 33] },
            EmbedEvent.insert (embeddingRow sampleRecord 0 [104, 105, 33] 0)] ∧
    (generateEmbeddings refusingEmbedEnv { json := Except.ok (some sampleRecord) }
        sampleEmbedWorld).map (fun r => r.2.ai_embeddings) =
      some sampleEmbedWorld.ai_embeddings := by
  refine ⟨by decide, by decide, by decide⟩

/-- C17 fails on the code: the store reports an error for the delete, which the
handler does not look at, and the request for chunk 0 raises an error; the
answer is 400, and the rows with the record's id are not the 0 rows of the new
generation: the row of the earlier generation, with `chunk_ix` 4, which the
delete was to remove, is still there. -/
theorem generateEmbeddings_partial_after_refused_delete :
    refusingLimitedEmbedEnv.deleteError = some "permission denied" ∧
    refusingLimitedEmbedEnv.createEmbeddings 0
      { model := "text-embedding-3-small", input := [104, 105, 33] } =
        Except.error "rate limited" ∧
    (generateEmbeddings refusingLimitedEmbedEnv { json := Except.ok (some sampleRecord) }
        sampleEmbedWorld).map (fun r => r.1) =
      some { status := 400, body := EmbedBody.error "rate limited" } ∧
    (generateEmbeddings refusingLimitedEmbedEnv { json := Except.ok (some sampleRecord) }
        sampleEmbedWorld).map (fun r => (r.2.ai_embeddings.filter
          (fun row => decide (row.source_record_id = "r1"))).map (fun row => row.chunk_ix)) =
      some [4] := by
  refine ⟨rfl, rfl, by decide, by decide⟩

/-- The abort of the chunk loop: if the embedding request for chunk `k` raises
an error with message `m` after the requests and inserts for the chunks before
it succeeded, the handler answers 400 with the body `error: m`; after the delete
it has made exactly the requests and inserts for the chunks `0..k-1` and the
request for chunk `k`, none for a later chunk; the `k` rows inserted stay in the
store behind the rows the delete left, and, when the delete was carried out, the
rows with the record's id are exactly these `k` rows, with `chunk_ix`
`0..k-1`. -/
theorem generateEmbeddings_partial {V : Type} (env : EmbedEnv V) (record : SourceRecord)
    (w : EmbedWorld V) (vec : Nat → V) (chunks : List JsText) (k : Nat) (ck : JsText)
    (m : String)
    (hchunks : chunkText (record.body.getD []) 500 50 = some chunks)
    (hk : chunks[k]? = some ck)
    (hprev : ∀ j chunk, j < k → chunks[j]? = some chunk → ∃ rest,
      env.createEmbeddings j { model := "text-embedding-3-small", input := chunk } =
        Except.ok (vec j :: rest))
    (hins : ∀ j, j < k → env.insertError j = none)
    (hfail : env.createEmbeddings k { model := "text-embedding-3-small", input := ck } =
      Except.error m) :
    ∃ w1,
      generateEmbeddings env { json := Except.ok (some record) } w =
        some ({ status := 400, body := EmbedBody.error m }, w1) ∧
      w1.log =
        w.log ++ [EmbedEvent.delete record.id] ++
          ((chunks.take k).enumFrom 0).flatMap (fun p =>
            [EmbedEvent.createEmbeddings { model := "text-embedding-3-small", input := p.2 },
             EmbedEvent.insert
               { org_id := record.org_id
                 content := p.2
                 embedding := vec p.1
                 source_table := "content_items"
                 source_field := "body"
                 source_record_id := record.id
                 chunk_ix := p.1 }]) ++
          [EmbedEvent.createEmbeddings { model := "text-embedding-3-small", input := ck }] ∧
      w1.ai_embeddings =
        (deleteEmbeddings env record.id w).ai_embeddings ++
          ((chunks.take k).enumFrom 0).map (fun p =>
            { org_id := record.org_id
              content := p.2
              embedding := vec p.1
              source_table := "content_items"
              source_field := "body"
              source_record_id := record.id
              chunk_ix := p.1 }) ∧
      (env.deleteError = none →
        w1.ai_embeddings.filter (fun row => decide (row.source_record_id = record.id)) =
          ((chunks.take k).enumFrom 0).map (fun p =>
            { org_id := record.org_id
              content := p.2
              embedding := vec p.1
              source_table := "content_items"
              source_field := "body"
              source_record_id := record.id
              chunk_ix := p.1 })) := by
  obtain ⟨h1, h2, h3⟩ := embedChunks_fail env record vec m chunks 0 k
    (deleteEmbeddings env record.id w) ck hk
    (by intro j chunk hj hc; simpa using hprev j chunk hj hc)
    (by intro j hj; simpa using hins j hj)
    (by simpa using hfail)
  refine ⟨(embedChunks env record chunks 0 (deleteEmbeddings env record.id w)).2, ?_, ?_, ?_, ?_⟩
  · simp only [generateEmbeddings, hchunks]
    generalize embedChunks env record chunks 0 (deleteEmbeddings env record.id w) = r at h1
    obtain ⟨r1, r2⟩ := r
    simp only at h1
    subst h1
    rfl
  · rw [h3]
    simp only [deleteEmbeddings, List.append_assoc]
    rfl
  · rw [h2]
    rfl
  · intro hdel
    rw [h2]
    simp only [deleteEmbeddings, hdel, List.filter_append]
    rw [filter_same_of_other, List.nil_append,
      filter_same_record record.id _ (new_rows_same_record record vec (chunks.take k) 0)]
    rfl

set_option maxRecDepth 100000 in
theorem generateEmbeddings_partial_witness :
    ∃ w1,
      generateEmbeddings limitedEmbedEnv { json := Except.ok (some longRecord) }
          sampleEmbedWorld =
        some ({ status := 400, body := EmbedBody.error "rate limited" }, w1) ∧
      w1.log =
        sampleEmbedWorld.log ++ [EmbedEvent.delete longRecord.id] ++
          (([List.replicate 451 7, [7]].take 1).enumFrom 0).flatMap (fun p =>
            [EmbedEvent.createEmbeddings { model := "text-embedding-3-small", input := p.2 },
             EmbedEvent.insert
               { org_id := longRecord.org_id
                 content := p.2
                 embedding := (fun _ => 0) p.1
                 source_table := "content_items"
                 source_field := "body"
                 source_record_id := longRecord.id
                 chunk_ix := p.1 }]) ++
          [EmbedEvent.createEmbeddings { model := "text-embedding-3-small", input := [7] }] ∧
      w1.ai_embeddings =
        (deleteEmbeddings limitedEmbedEnv longRecord.id sampleEmbedWorld).ai_embeddings ++
          (([List.replicate 451 7, [7]].take 1).enumFrom 0).map (fun p =>
            { org_id := longRecord.org_id
              content := p.2
              embedding := (fun _ => 0) p.1
              source_table := "content_items"
              source_field := "body"
              source_record_id := longRecord.id
              chunk_ix := p.1 }) ∧
      (limitedEmbedEnv.deleteError = none →
        w1.ai_embeddings.filter (fun row => decide (row.source_record_id = longRecord.id)) =
          (([List.replicate 451 7, [7]].take 1).enumFrom 0).map (fun p =>
            { org_id := longRecord.org_id
              content := p.2
              embedding := (fun _ => 0) p.1
              source_table := "content_items"
              source_field := "body"
              source_record_id := longRecord.id
              chunk_ix := p.1 })) :=
  generateEmbeddings_partial limitedEmbedEnv longRecord sampleEmbedWorld (fun _ => 0)
    [List.replicate 451 7, [7]] 1 [7] "rate limited" (by decide) rfl
    (fun j _ hj _ => ⟨[], by
      have e : j = 0 := by omega
      subst e
      rfl⟩)
    (fun _ _ => rfl) rfl

theorem generateEmbeddings_ok_store {V : Type} (env : EmbedEnv V) (record : SourceRecord)
    (w : EmbedWorld V) (vecOf : JsText → V)
    (hdel : env.deleteError = none)
    (hemb : ∀ k chunk, ∃ rest,
      env.createEmbeddings k { model := "text-embedding-3-small", input := chunk } =
        Except.ok (vecOf chunk :: rest))
    (hins : ∀ k, env.insertError k = none) :
    ∃ chunks w1, chunkText (record.body.getD []) 500 50 = some chunks ∧
      generateEmbeddings env { json := Except.ok (some record) } w =
        some ({ status := 200,
                body := EmbedBody.message
                  ("Generated " ++ toString chunks.length ++ " embeddings.") }, w1) ∧
      w1.ai_embeddings =
        w.ai_embeddings.filter (fun row => decide (row.source_record_id ≠ record.id)) ++
          (chunks.enumFrom 0).map (fun p =>
            embeddingRow record p.1 p.2 (vecOf (chunks[p.1]?.getD []))) := by
  obtain ⟨chunks, hchunks⟩ := chunkText_default_isSome (record.body.getD [])
  obtain ⟨h1, h2⟩ := embedChunks_ok env record (fun k => vecOf (chunks[k]?.getD [])) hins
    chunks 0 (deleteEmbeddings env record.id w)
    (by
      intro k chunk hk
      obtain ⟨rest, hr⟩ := hemb (0 + k) chunk
      refine ⟨rest, ?_⟩
      rw [hr]
      simp [hk])
  refine ⟨chunks, (embedChunks env record chunks 0 (deleteEmbeddings env record.id w)).2,
    hchunks, ?_, ?_⟩
  · simp only [generateEmbeddings, hchunks]
    generalize embedChunks env record chunks 0 (deleteEmbeddings env record.id w) = r at h1
    obtain ⟨r1, r2⟩ := r
    simp only at h1
    subst h1
    rfl
  · rw [h2]
    simp [deleteEmbeddings, hdel]

/-- C18: two runs of the handler in sequence on the same record, every delete,
embedding request and insert succeeding and the embedding API returning the same
vector for the same input, report the same number of chunks, and the second run
leaves `ai_embeddings` as the first run left it: the rows with the record's id
are the `n` rows of one generation, not of two. -/
theorem generateEmbeddings_idempotent {V : Type} (env1 env2 : EmbedEnv V)
    (record : SourceRecord) (w : EmbedWorld V) (vecOf : JsText → V)
    (hdel1 : env1.deleteError = none) (hdel2 : env2.deleteError = none)
    (hemb1 : ∀ k chunk, ∃ rest,
      env1.createEmbeddings k { model := "text-embedding-3-small", input := chunk } =
        Except.ok (vecOf chunk :: rest))
    (hemb2 : ∀ k chunk, ∃ rest,
      env2.createEmbeddings k { model := "text-embedding-3-small", input := chunk } =
        Except.ok (vecOf chunk :: rest))
    (hins1 : ∀ k, env1.insertError k = none) (hins2 : ∀ k, env2.insertError k = none) :
    ∃ n w1 w2,
      generateEmbeddings env1 { json := Except.ok (some record) } w =
        some ({ status := 200,
                body := EmbedBody.message ("Generated " ++ toString n ++ " embeddings.") },
              w1) ∧
      generateEmbeddings env2 { json := Except.ok (some record) } w1 =
        some ({ status := 200,
                body := EmbedBody.message ("Generated " ++ toString n ++ " embeddings.") },
              w2) ∧
      w2.ai_embeddings = w1.ai_embeddings ∧
      (w2.ai_embeddings.filter
        (fun row => decide (row.source_record_id = record.id))).length = n := by
  obtain ⟨chunks, w1, hc1, hr1, hs1⟩ :=
    generateEmbeddings_ok_store env1 record w vecOf hdel1 hemb1 hins1
  obtain ⟨chunks2, w2, hc2, hr2, hs2⟩ :=
    generateEmbeddings_ok_store env2 record w1 vecOf hdel2 hemb2 hins2
  have e : chunks2 = chunks := by
    rw [hc1] at hc2
    exact (Option.some.inj hc2).symm
  subst e
  have hrows := new_rows_same_record record (fun k => vecOf (chunks2[k]?.getD [])) chunks2 0
  have hstore : w2.ai_embeddings = w1.ai_embeddings := by
    rw [hs2, hs1, List.filter_append, List.filter_filter,
      filter_other_record record.id _ hrows, List.append_nil]
    simp
  refine ⟨chunks2.length, w1, w2, hr1, hr2, hstore, ?_⟩
  rw [hstore, hs1, List.filter_append, filter_same_of_other, List.nil_append,
    filter_same_record record.id _ hrows]
  simp

theorem generateEmbeddings_idempotent_witness :
    ∃ n w1 w2,
      generateEmbeddings lengthEmbedEnv { json := Except.ok (some sampleRecord) }
          sampleEmbedWorld =
        some ({ status := 200,
                body := EmbedBody.message ("Generated " ++ toString n ++ " embeddings.") },
              w1) ∧
      generateEmbeddings lengthEmbedEnv { json := Except.ok (some sampleRecord) } w1 =
        some ({ status := 200,
                body := EmbedBody.message ("Generated " ++ toString n ++ " embeddings.") },
              w2) ∧
      w2.ai_embeddings = w1.ai_embeddings ∧
      (w2.ai_embeddings.filter
        (fun row => decide (row.source_record_id = sampleRecord.id))).length = n :=
  generateEmbeddings_idempotent lengthEmbedEnv lengthEmbedEnv sampleRecord sampleEmbedWorld
    List.length rfl rfl (fun _ _ => ⟨[], rfl⟩) (fun _ _ => ⟨[], rfl⟩)
    (fun _ => rfl) (fun _ => rfl)

/-! ### Invariants of the task lifecycle -/

theorem isTerminalWrite_of_not_write (e : Event) (h : Event.isTaskWrite e = false) :
    Event.isTerminalWrite e = false := by
  cases e <;> simp [Event.isTaskWrite] at h <;> rfl

theorem noWriteAfterTerminal_append (xs ys : List Event)
    (h : ∀ e ∈ xs, Event.isTerminalWrite e = false) :
    noWriteAfterTerminal (xs ++ ys) = noWriteAfterTerminal ys := by
  induction xs with
  | nil => rfl
  | cons x xs ih =>
    have hx := h x (by simp)
    have hr := ih (fun e he => h e (by simp [he]))
    simp [noWriteAfterTerminal, hx, hr]

theorem traceEnd_noWrite {id : String} {tail : List Event} (h : TraceEnd id tail) :
    noWriteAfterTerminal tail = true := by
  cases h <;> simp [noWriteAfterTerminal, Event.isTerminalWrite]

theorem traceEnd_terminal_writes {id : String} {tail : List Event} (h : TraceEnd id tail)
    (taskId : String) : ((statusWrites taskId tail).filter isTerminal).length ≤ 1 := by
  cases h with
  | completed u hu =>
    by_cases e : id = taskId <;> simp [statusWrites, e, hu, isTerminal]
  | failed u ok hu =>
    cases ok <;> by_cases e : id = taskId <;> simp [statusWrites, e, hu, isTerminal]
  | lostThenFailed u1 u2 ok h1 h2 =>
    cases ok <;> by_cases e : id = taskId <;> simp [statusWrites, e, h2, isTerminal]

theorem traceEnd_no_completion {id : String} {tail : List Event} (h : TraceEnd id tail) :
    ∀ e ∈ tail, Event.isCompletion e = false := by
  cases h <;> simp [Event.isCompletion]

theorem no_completion_split (evs pre post : List Event) (request : ChatRequest)
    (h : ∀ e ∈ evs, Event.isCompletion e = false) :
    evs ≠ pre ++ Event.completion request :: post := by
  intro he
  have := h (Event.completion request) (by rw [he]; simp)
  simp [Event.isCompletion] at this

/-- C19: in every run of the handler, whatever the store and the completion API
do, no write to `ai_tasks`, attempted or carried out, follows a write of a
terminal status that the store carried out, and at most one terminal status is
written to any task: `completed` or `failed`, never both. -/
theorem handler_single_terminal_write (env : Env) (req : Request) (w : World) :
    ∃ evs, (handler env req w).2.log = w.log ++ evs ∧
      noWriteAfterTerminal evs = true ∧
      ∀ taskId, ((statusWrites taskId evs).filter isTerminal).length ≤ 1 := by
  obtain ⟨evs, hlog, htrace⟩ := handler_trace env req w
  refine ⟨evs, hlog, ?_, ?_⟩
  · cases htrace with
    | idle => rfl
    | rejected => rfl
    | notCreated row => rfl
    | notStarted row id u hrow hu =>
      simp [noWriteAfterTerminal, Event.isTerminalWrite, hrow, isTerminal]
    | ran row id u ops tail hrow hu hops htail =>
      have h3 : noWriteAfterTerminal (ops ++ tail) = true := by
        rw [noWriteAfterTerminal_append ops tail
          (fun e he => isTerminalWrite_of_not_write e (hops e he))]
        exact traceEnd_noWrite htail
      simp [noWriteAfterTerminal, Event.isTerminalWrite, hrow, hu, isTerminal, h3]
  · intro taskId
    cases htrace with
    | idle => simp [statusWrites]
    | rejected => simp [statusWrites]
    | notCreated row => simp [statusWrites]
    | notStarted row id u hrow hu =>
      by_cases e : id = taskId <;> simp [statusWrites, e, hrow, isTerminal]
    | ran row id u ops tail hrow hu hops htail =>
      have happ : statusWrites taskId (Event.readBody :: Event.insertTask row (some id) ::
          Event.updateTask id u true :: (ops ++ tail)) =
          statusWrites taskId [Event.readBody, Event.insertTask row (some id),
            Event.updateTask id u true] ++ statusWrites taskId tail := by
        have e : Event.readBody :: Event.insertTask row (some id) ::
            Event.updateTask id u true :: (ops ++ tail) =
            [Event.readBody, Event.insertTask row (some id), Event.updateTask id u true] ++
              (ops ++ tail) := rfl
        rw [e, statusWrites_append, statusWrites_append, statusWrites_eq_nil taskId ops hops,
          List.nil_append]
      rw [happ, List.filter_append, List.length_append]
      have h1 : (List.filter isTerminal (statusWrites taskId
          [Event.readBody, Event.insertTask row (some id), Event.updateTask id u true])).length
          = 0 := by
        by_cases e : id = taskId <;> simp [statusWrites, e, hrow, hu, isTerminal]
      have h2 := traceEnd_terminal_writes htail taskId
      omega

/-- C20: in every run of the handler, a chat-completion call is preceded by the
insert of the task row with status `pending`, carried out, and by the update of
that row to `processing`, carried out; and in a run in which the store reports
an error for the insert or for the update to `processing`, no completion call
is made. -/
theorem completion_needs_processing (env : Env) (req : Request) (w : World) :
    ∃ evs, (handler env req w).2.log = w.log ++ evs ∧
      (∀ pre post request, evs = pre ++ Event.completion request :: post →
        ∃ row id u rest, row.status = "pending" ∧ u.status = "processing" ∧
          pre = Event.readBody :: Event.insertTask row (some id) ::
            Event.updateTask id u true :: rest) ∧
      (((∃ row, Event.insertTask row none ∈ evs) ∨
          (∃ id u, u.status = "processing" ∧ Event.updateTask id u false ∈ evs)) →
        ∀ e ∈ evs, Event.isCompletion e = false) := by
  obtain ⟨evs, hlog, htrace⟩ := handler_trace env req w
  refine ⟨evs, hlog, ?_, ?_⟩
  · intro pre post request hsplit
    cases htrace with
    | idle => exact absurd hsplit (no_completion_split _ _ _ _ (by simp))
    | rejected =>
      exact absurd hsplit (no_completion_split _ _ _ _ (by simp [Event.isCompletion]))
    | notCreated row =>
      exact absurd hsplit (no_completion_split _ _ _ _ (by simp [Event.isCompletion]))
    | notStarted row id u hrow hu =>
      exact absurd hsplit (no_completion_split _ _ _ _ (by simp [Event.isCompletion]))
    | ran row id u ops tail hrow hu hops htail =>
      cases pre with
      | nil => simp at hsplit
      | cons a pre =>
        cases pre with
        | nil => simp at hsplit
        | cons b pre =>
          cases pre with
          | nil => simp at hsplit
          | cons c pre =>
            simp only [List.cons_append, List.cons.injEq] at hsplit
            obtain ⟨ha, hb, hc, _⟩ := hsplit
            exact ⟨row, id, u, pre, hrow, hu, by rw [← ha, ← hb, ← hc]⟩
  · intro hfail
    cases htrace with
    | idle => simp
    | rejected => simp [Event.isCompletion]
    | notCreated row => simp [Event.isCompletion]
    | notStarted row id u hrow hu => simp [Event.isCompletion]
    | ran row id u ops tail hrow hu hops htail =>
      exfalso
      rcases hfail with ⟨row2, hmem⟩ | ⟨id2, u2, hu2, hmem⟩
      · simp only [List.mem_cons, List.mem_append] at hmem
        rcases hmem with h | h | h | h | h
        · cases h
        · cases h
        · cases h
        · simpa [Event.isTaskWrite] using hops _ h
        · cases htail <;> simp at h
      · simp only [List.mem_cons, List.mem_append] at hmem
        rcases hmem with h | h | h | h | h
        · cases h
        · cases h
        · cases h
        · simpa [Event.isTaskWrite] using hops _ h
        · cases htail with
          | completed u4 h4 => simp at h
          | failed u4 ok h4 =>
            simp only [List.mem_singleton, Event.updateTask.injEq] at h
            obtain ⟨_, h2, _⟩ := h
            rw [h2, h4] at hu2
            exact absurd hu2 (by decide)
          | lostThenFailed u4 u5 ok h4 h5 =>
            simp only [List.mem_cons, Event.updateTask.injEq, List.mem_singleton,
              List.not_mem_nil, or_false] at h
            rcases h with ⟨_, h2, _⟩ | ⟨_, h2, _⟩
            · rw [h2, h4] at hu2
              exact absurd hu2 (by decide)
            · rw [h2, h5] at hu2
              exact absurd hu2 (by decide)

/-! ### The per-record operations in closed form -/

theorem callOpenAI_eq (env : Env) (messages : List ChatMessage) (w : World) :
    callOpenAI env messages (7 / 10) w =
      ((env.fetch w.log.length (chatRequest messages)).outcome,
        w.record (Event.completion (chatRequest messages))) := by
  simp only [callOpenAI, chatRequest]
  cases env.fetch w.log.length
    { model := GPT_MODEL, messages := messages, temperature := 7 / 10, max_tokens := 4000 } <;>
    rfl

theorem summarizeRecords_eq (env : Env) :
    ∀ (records : List ContentRecord) (summaries : List SummaryEntry) (w : World),
      summarizeRecords env records summaries w =
        (summaries ++ summaryEntries env records w.log.length,
          { ai_tasks := w.ai_tasks
            log := w.log ++
              (records.filter (fun r => decide (summaryContent r ≠ ""))).map
                (fun r => Event.completion (chatRequest (summaryMessages r))) }) := by
  intro records
  induction records with
  | nil => intro summaries w; simp [summarizeRecords, summaryEntries]
  | cons record rest ih =>
    intro summaries w
    have step : summarizeRecords env (record :: rest) summaries w =
        (if summaryContent record = "" then
          summarizeRecords env rest (summaries ++ [emptySummaryEntry record]) w
        else
          match callOpenAI env (summaryMessages record) (7 / 10) w with
          | (Except.ok summary, w1) =>
            summarizeRecords env rest
              (summaries ++ [summaryEntryFor record (Except.ok summary)]) w1
          | (Except.error message, w1) =>
            summarizeRecords env rest
              (summaries ++ [summaryEntryFor record (Except.error message)]) w1) := rfl
    rw [step]
    by_cases hc : summaryContent record = ""
    · simp [hc, ih, summaryEntries]
    · simp only [hc, if_false, callOpenAI_eq]
      cases ho : (env.fetch w.log.length (chatRequest (summaryMessages record))).outcome <;>
        simp [ih, summaryEntries, hc, ho, World.record]

theorem categorizeRecords_eq (env : Env) :
    ∀ (records : List ContentRecord) (categories : List CategoryEntry) (w : World),
      categorizeRecords env records categories w =
        (categories ++ (records.enumFrom w.log.length).map (fun p =>
            categoryEntryFor p.2 (env.fetch p.1 (chatRequest (categoryMessages p.2))).outcome),
          { ai_tasks := w.ai_tasks
            log := w.log ++
              records.map (fun r => Event.completion (chatRequest (categoryMessages r))) }) := by
  intro records
  induction records with
  | nil => intro categories w; simp [categorizeRecords]
  | cons record rest ih =>
    intro categories w
    have step : categorizeRecords env (record :: rest) categories w =
        (match callOpenAI env (categoryMessages record) (7 / 10) w with
          | (Except.ok category, w1) =>
            categorizeRecords env rest
              (categories ++ [categoryEntryFor record (Except.ok category)]) w1
          | (Except.error message, w1) =>
            categorizeRecords env rest
              (categories ++ [categoryEntryFor record (Except.error message)]) w1) := rfl
    rw [step, callOpenAI_eq]
    cases ho : (env.fetch w.log.length (chatRequest (categoryMessages record))).outcome <;>
      simp [ih, ho, World.record]

theorem analyzeSentiments_eq (env : Env) :
    ∀ (records : List ContentRecord) (sentiments : List SentimentEntry) (w : World),
      analyzeSentiments env records sentiments w =
        (sentiments ++ (records.enumFrom w.log.length).map (fun p =>
            sentimentEntryFor env p.2
              (env.fetch p.1 (chatRequest (sentimentMessages p.2))).outcome),
          { ai_tasks := w.ai_tasks
            log := w.log ++
              records.map (fun r => Event.completion (chatRequest (sentimentMessages r))) }) := by
  intro records
  induction records with
  | nil => intro sentiments w; simp [analyzeSentiments]
  | cons record rest ih =>
    intro sentiments w
    have step : analyzeSentiments env (record :: rest) sentiments w =
        (match callOpenAI env (sentimentMessages record) (7 / 10) w with
          | (Except.ok sentimentResult, w1) =>
            analyzeSentiments env rest
              (sentiments ++ [sentimentEntryFor env record (Except.ok sentimentResult)]) w1
          | (Except.error message, w1) =>
            analyzeSentiments env rest
              (sentiments ++ [sentimentEntryFor env record (Except.error message)]) w1) := by
      simp only [analyzeSentiments, sentimentEntryFor, sentimentMessages, failedSentimentEntry]
      split
      · split <;> simp_all
      · simp_all
    rw [step, callOpenAI_eq]
    cases ho : (env.fetch w.log.length (chatRequest (sentimentMessages record))).outcome <;>
      simp [ih, ho, World.record]

theorem summaryEntries_getElem? (env : Env) :
    ∀ (records : List ContentRecord) (n k : Nat) (record : ContentRecord),
      records[k]? = some record →
      (summaryEntries env records n)[k]? =
        some (if summaryContent record = "" then emptySummaryEntry record
          else summaryEntryFor record
            (env.fetch
              (n + ((records.take k).filter (fun r => decide (summaryContent r ≠ ""))).length)
              (chatRequest (summaryMessages record))).outcome) := by
  intro records
  induction records with
  | nil => intro n k record h; simp at h
  | cons r rest ih =>
    intro n k record h
    cases k with
    | zero =>
      simp only [List.getElem?_cons_zero, Option.some.injEq] at h
      subst h
      by_cases hc : summaryContent r = "" <;> simp [summaryEntries, hc]
    | succ k =>
      simp only [List.getElem?_cons_succ] at h
      by_cases hc : summaryContent r = ""
      · simp [summaryEntries, hc, ih n k record h]
      · have e : n + (((r :: rest).take (k + 1)).filter
            (fun r => decide (summaryContent r ≠ ""))).length =
            n + 1 + ((rest.take k).filter (fun r => decide (summaryContent r ≠ ""))).length := by
          simp [List.filter_cons, hc]
          omega
        rw [e]
        simp [summaryEntries, hc, ih (n + 1) k record h]

theorem categoryEntries_getElem? (env : Env) (records : List ContentRecord) (n k : Nat)
    (record : ContentRecord) (h : records[k]? = some record) :
    ((records.enumFrom n).map (fun p =>
      categoryEntryFor p.2 (env.fetch p.1 (chatRequest (categoryMessages p.2))).outcome))[k]? =
      some (categoryEntryFor record
        (env.fetch (n + k) (chatRequest (categoryMessages record))).outcome) := by
  simp [List.getElem?_enumFrom, h]

theorem sentimentEntries_getElem? (env : Env) (records : List ContentRecord) (n k : Nat)
    (record : ContentRecord) (h : records[k]? = some record) :
    ((records.enumFrom n).map (fun p =>
      sentimentEntryFor env p.2
        (env.fetch p.1 (chatRequest (sentimentMessages p.2))).outcome))[k]? =
      some (sentimentEntryFor env record
        (env.fetch (n + k) (chatRequest (sentimentMessages record))).outcome) := by
  simp [List.getElem?_enumFrom, h]

theorem summaryEntryFor_id (record : ContentRecord) (outcome : Except String String) :
    (summaryEntryFor record outcome).id = record.id := by
  cases outcome <;> rfl

theorem categoryEntryFor_id (record : ContentRecord) (outcome : Except String String) :
    (categoryEntryFor record outcome).id = record.id := by
  cases outcome <;> rfl

theorem sentimentEntry_id {env : Env} {record : ContentRecord} {text : String}
    {entry : SentimentEntry} (h : sentimentEntry env record text = Except.ok entry) :
    entry.id = record.id := by
  simp only [sentimentEntry] at h
  split at h
  · simp at h
  · split at h <;> simp at h
    subst h
    rfl

theorem sentimentEntryFor_id (env : Env) (record : ContentRecord)
    (outcome : Except String String) :
    (sentimentEntryFor env record outcome).id = record.id := by
  cases outcome with
  | error message => rfl
  | ok text =>
    simp only [sentimentEntryFor]
    split
    · next entry h => exact sentimentEntry_id h
    · rfl

theorem sentimentEntryFor_congr {env env0 : Env} (h : env0.jsonParse = env.jsonParse)
    (record : ContentRecord) (outcome : Except String String) :
    sentimentEntryFor env0 record outcome = sentimentEntryFor env record outcome := by
  cases outcome with
  | error message => rfl
  | ok text => simp [sentimentEntryFor, sentimentEntry, h]

theorem summaryEntries_ids (env : Env) :
    ∀ (records : List ContentRecord) (n : Nat),
      (summaryEntries env records n).map (fun e => e.id) = records.map (fun r => r.id) := by
  intro records
  induction records with
  | nil => intro n; rfl
  | cons r rest ih =>
    intro n
    by_cases hc : summaryContent r = ""
    · simp [summaryEntries, hc, ih, emptySummaryEntry]
    · simp [summaryEntries, hc, ih, summaryEntryFor_id]

theorem categoryEntries_ids (env : Env) (records : List ContentRecord) (n : Nat) :
    ((records.enumFrom n).map (fun p =>
      categoryEntryFor p.2 (env.fetch p.1 (chatRequest (categoryMessages p.2))).outcome)).map
        (fun e => e.id) = records.map (fun r => r.id) := by
  rw [List.map_map]
  have e : ((fun e : CategoryEntry => e.id) ∘ fun p : Nat × ContentRecord =>
      categoryEntryFor p.2 (env.fetch p.1 (chatRequest (categoryMessages p.2))).outcome) =
      (fun r : ContentRecord => r.id) ∘ Prod.snd := by
    funext p
    simp [categoryEntryFor_id]
  rw [e, ← List.map_map, List.enumFrom_map_snd]

theorem sentimentEntries_ids (env : Env) (records : List ContentRecord) (n : Nat) :
    ((records.enumFrom n).map (fun p =>
      sentimentEntryFor env p.2
        (env.fetch p.1 (chatRequest (sentimentMessages p.2))).outcome)).map
        (fun e => e.id) = records.map (fun r => r.id) := by
  rw [List.map_map]
  have e : ((fun e : SentimentEntry => e.id) ∘ fun p : Nat × ContentRecord =>
      sentimentEntryFor env p.2
        (env.fetch p.1 (chatRequest (sentimentMessages p.2))).outcome) =
      (fun r : ContentRecord => r.id) ∘ Prod.snd := by
    funext p
    simp [sentimentEntryFor_id]
  rw [e, ← List.map_map, List.enumFrom_map_snd]

theorem generateSummaries_eq (env : Env) (p : Parameters) (w : World) (r : String)
    (rs : List String) (records : List ContentRecord)
    (hids : p.record_ids = some (r :: rs))
    (hsel : env.select w.log.length
      { table := p.table_name, conds := [Cond.isIn "id" (r :: rs)] } =
        { data := some records, error := none }) :
    ∃ ts, generateSummaries env p w =
      (Except.ok (OpResult.summaries (summaryEntries env records (w.log.length + 1))
          records.length ts),
        { ai_tasks := w.ai_tasks
          log := w.log ++ [Event.select
              { table := p.table_name, conds := [Cond.isIn "id" (r :: rs)] }] ++
            (records.filter (fun r => decide (summaryContent r ≠ ""))).map
              (fun r => Event.completion (chatRequest (summaryMessages r))) }) := by
  have hlen : ∀ e : Event, (w.log ++ [e]).length = w.log.length + 1 := by simp
  simp only [generateSummaries, hids, runQuery, hsel, summarizeRecords_eq, World.record, hlen,
    List.nil_append]
  exact ⟨_, rfl⟩

theorem categorizeContent_eq (env : Env) (p : Parameters) (w : World) (r : String)
    (rs : List String) (records : List ContentRecord)
    (hids : p.record_ids = some (r :: rs))
    (hsel : env.select w.log.length
      { table := p.table_name, conds := [Cond.isIn "id" (r :: rs)] } =
        { data := some records, error := none }) :
    ∃ ts, categorizeContent env p w =
      (Except.ok (OpResult.categories
          ((records.enumFrom (w.log.length + 1)).map (fun p =>
            categoryEntryFor p.2 (env.fetch p.1 (chatRequest (categoryMessages p.2))).outcome))
          records.length ts),
        { ai_tasks := w.ai_tasks
          log := w.log ++ [Event.select
              { table := p.table_name, conds := [Cond.isIn "id" (r :: rs)] }] ++
            records.map (fun r => Event.completion (chatRequest (categoryMessages r))) }) := by
  have hlen : ∀ e : Event, (w.log ++ [e]).length = w.log.length + 1 := by simp
  simp only [categorizeContent, hids, runQuery, hsel, categorizeRecords_eq, World.record, hlen,
    List.nil_append]
  exact ⟨_, rfl⟩

theorem performSentimentAnalysis_eq (env : Env) (p : Parameters) (w : World) (r : String)
    (rs : List String) (records : List ContentRecord)
    (hids : p.record_ids = some (r :: rs))
    (hsel : env.select w.log.length
      { table := p.table_name, conds := [Cond.isIn "id" (r :: rs)] } =
        { data := some records, error := none }) :
    ∃ ts, performSentimentAnalysis env p w =
      (Except.ok (OpResult.sentiments
          ((records.enumFrom (w.log.length + 1)).map (fun p =>
            sentimentEntryFor env p.2
              (env.fetch p.1 (chatRequest (sentimentMessages p.2))).outcome))
          records.length ts),
        { ai_tasks := w.ai_tasks
          log := w.log ++ [Event.select
              { table := p.table_name, conds := [Cond.isIn "id" (r :: rs)] }] ++
            records.map (fun r => Event.completion (chatRequest (sentimentMessages r))) }) := by
  have hlen : ∀ e : Event, (w.log ++ [e]).length = w.log.length + 1 := by simp
  simp only [performSentimentAnalysis, hids, runQuery, hsel, analyzeSentiments_eq, World.record,
    hlen, List.nil_append]
  exact ⟨_, rfl⟩

/-! ### The claims on the operations -/

/-- C12: `generateSummaries`, `categorizeContent` and `performSentimentAnalysis`,
given a non-empty `record_ids` and a list of fetched records, return for every
pattern of completion-call failures: the result has one entry per fetched
record, entry `k` carrying the id of record `k`; a record whose call fails with
a message gets the error-tagged entry with that message; a record whose call
returns a text gets the entry made from that text (for
`performSentimentAnalysis`: the entry read from the parsed text, or the
error-tagged entry with the message of the error raised in reading it), a
record of `generateSummaries` without content its `No content available` entry;
and each of these entries of records whose call did not fail is the entry the
record gets under collaborators `env0` that differ from `env` only in how they
answer the calls that fail under `env`, in particular under collaborators that
answer every call. -/
theorem per_record_isolation (env env0 : Env) (p : Parameters) (w : World) (r : String)
    (rs : List String) (records : List ContentRecord)
    (hids : p.record_ids = some (r :: rs))
    (hsel : env.select w.log.length
      { table := p.table_name, conds := [Cond.isIn "id" (r :: rs)] } =
        { data := some records, error := none })
    (hsame : SameButFailures env env0) :
    (∃ entries entries0 ts ts0 w1 w0,
      generateSummaries env p w =
        (Except.ok (OpResult.summaries entries records.length ts), w1) ∧
      generateSummaries env0 p w =
        (Except.ok (OpResult.summaries entries0 records.length ts0), w0) ∧
      entries.length = records.length ∧
      ∀ k record, records[k]? = some record →
        (∃ entry, entries[k]? = some entry ∧ entry.id = record.id) ∧
        (∀ message, summaryContent record ≠ "" →
          (env.fetch
            (w.log.length + 1 +
              ((records.take k).filter (fun r => decide (summaryContent r ≠ ""))).length)
            (chatRequest (summaryMessages record))).outcome = Except.error message →
          entries[k]? = some { id := record.id, summary := "Failed to generate summary",
                               error := some message }) ∧
        (∀ text, summaryContent record ≠ "" →
          (env.fetch
            (w.log.length + 1 +
              ((records.take k).filter (fun r => decide (summaryContent r ≠ ""))).length)
            (chatRequest (summaryMessages record))).outcome = Except.ok text →
          entries[k]? =
            some { id := record.id
                   title := some (((record.title.or record.name).or
                     (JsStr.str "Untitled")).orEmpty)
                   summary := text
                   word_count := some (jsLength (summaryContent record)) } ∧
          entries0[k]? = entries[k]?) ∧
        (summaryContent record = "" →
          entries[k]? = some { id := record.id
                               summary := "No content available for summarization"
                               error := some "Empty content" } ∧
          entries0[k]? = entries[k]?)) ∧
    (∃ entries entries0 ts ts0 w1 w0,
      categorizeContent env p w =
        (Except.ok (OpResult.categories entries records.length ts), w1) ∧
      categorizeContent env0 p w =
        (Except.ok (OpResult.categories entries0 records.length ts0), w0) ∧
      entries.length = records.length ∧
      ∀ k record, records[k]? = some record →
        (∃ entry, entries[k]? = some entry ∧ entry.id = record.id) ∧
        (∀ message,
          (env.fetch (w.log.length + 1 + k)
            (chatRequest (categoryMessages record))).outcome = Except.error message →
          entries[k]? = some { id := record.id, title := record.title.or record.name,
                               suggested_category := "Other", error := some message }) ∧
        (∀ text,
          (env.fetch (w.log.length + 1 + k)
            (chatRequest (categoryMessages record))).outcome = Except.ok text →
          entries[k]? = some { id := record.id, title := record.title.or record.name,
                               suggested_category := jsTrim text, confidence := some "high" } ∧
          entries0[k]? = entries[k]?)) ∧
    (∃ entries entries0 ts ts0 w1 w0,
      performSentimentAnalysis env p w =
        (Except.ok (OpResult.sentiments entries records.length ts), w1) ∧
      performSentimentAnalysis env0 p w =
        (Except.ok (OpResult.sentiments entries0 records.length ts0), w0) ∧
      entries.length = records.length ∧
      ∀ k record, records[k]? = some record →
        (∃ entry, entries[k]? = some entry ∧ entry.id = record.id) ∧
        (∀ message,
          (env.fetch (w.log.length + 1 + k)
            (chatRequest (sentimentMessages record))).outcome = Except.error message →
          entries[k]? = some { id := record.id, title := record.title.or record.name,
                               sentiment := some (Json.str "neutral"),
                               confidence := some (Json.num 0), error := some message }) ∧
        (∀ text message,
          (env.fetch (w.log.length + 1 + k)
            (chatRequest (sentimentMessages record))).outcome = Except.ok text →
          sentimentEntry env record text = Except.error message →
          entries[k]? = some { id := record.id, title := record.title.or record.name,
                               sentiment := some (Json.str "neutral"),
                               confidence := some (Json.num 0), error := some message } ∧
          entries0[k]? = entries[k]?) ∧
        (∀ text entry,
          (env.fetch (w.log.length + 1 + k)
            (chatRequest (sentimentMessages record))).outcome = Except.ok text →
          sentimentEntry env record text = Except.ok entry →
          entries[k]? = some entry ∧ entries0[k]? = entries[k]?)) := by
  obtain ⟨_, hselect, hparse, hfetch⟩ := hsame
  have hsel0 : env0.select w.log.length
      { table := p.table_name, conds := [Cond.isIn "id" (r :: rs)] } =
        { data := some records, error := none } := by rw [hselect]; exact hsel
  have hsucc : ∀ n request text, (env.fetch n request).outcome = Except.ok text →
      env0.fetch n request = env.fetch n request := by
    intro n request text hout
    rcases hfetch n request with hf | ⟨message, hf⟩
    · exact hf
    · rw [hout] at hf
      cases hf
  refine ⟨?_, ?_, ?_⟩
  · obtain ⟨ts, h⟩ := generateSummaries_eq env p w r rs records hids hsel
    obtain ⟨ts0, h0⟩ := generateSummaries_eq env0 p w r rs records hids hsel0
    refine ⟨_, _, ts, ts0, _, _, h, h0, ?_, ?_⟩
    · have := congrArg List.length (summaryEntries_ids env records (w.log.length + 1))
      simpa using this
    · intro k record hk
      have e := summaryEntries_getElem? env records (w.log.length + 1) k record hk
      have e0 := summaryEntries_getElem? env0 records (w.log.length + 1) k record hk
      refine ⟨?_, ?_, ?_, ?_⟩
      · refine ⟨_, e, ?_⟩
        by_cases hc : summaryContent record = ""
        · simp [hc, emptySummaryEntry]
        · simp [hc, summaryEntryFor_id]
      · intro message hc hout
        rw [e, hout]
        simp [hc, summaryEntryFor, failedSummaryEntry]
      · intro text hc hout
        refine ⟨?_, ?_⟩
        · rw [e, hout]
          simp [hc, summaryEntryFor]
        · rw [e, e0, hsucc _ _ text hout]
      · intro hc
        refine ⟨?_, ?_⟩
        · rw [e]
          simp [hc, emptySummaryEntry]
        · rw [e, e0]
          simp [hc]
  · obtain ⟨ts, h⟩ := categorizeContent_eq env p w r rs records hids hsel
    obtain ⟨ts0, h0⟩ := categorizeContent_eq env0 p w r rs records hids hsel0
    refine ⟨_, _, ts, ts0, _, _, h, h0, by simp, ?_⟩
    intro k record hk
    have e := categoryEntries_getElem? env records (w.log.length + 1) k record hk
    have e0 := categoryEntries_getElem? env0 records (w.log.length + 1) k record hk
    refine ⟨⟨_, e, categoryEntryFor_id _ _⟩, ?_, ?_⟩
    · intro message hout
      rw [e, hout]
      rfl
    · intro text hout
      refine ⟨?_, ?_⟩
      · rw [e, hout]
        rfl
      · rw [e, e0, hsucc _ _ text hout]
  · obtain ⟨ts, h⟩ := performSentimentAnalysis_eq env p w r rs records hids hsel
    obtain ⟨ts0, h0⟩ := performSentimentAnalysis_eq env0 p w r rs records hids hsel0
    refine ⟨_, _, ts, ts0, _, _, h, h0, by simp, ?_⟩
    intro k record hk
    have e := sentimentEntries_getElem? env records (w.log.length + 1) k record hk
    have e0 := sentimentEntries_getElem? env0 records (w.log.length + 1) k record hk
    refine ⟨⟨_, e, sentimentEntryFor_id _ _ _⟩, ?_, ?_, ?_⟩
    · intro message hout
      rw [e, hout]
      rfl
    · intro text message hout hentry
      refine ⟨?_, ?_⟩
      · rw [e, hout]
        simp [sentimentEntryFor, hentry, failedSentimentEntry]
      · rw [e, e0, hsucc _ _ text hout, sentimentEntryFor_congr hparse]
    · intro text entry hout hentry
      refine ⟨?_, ?_⟩
      · rw [e, hout]
        simp [sentimentEntryFor, hentry]
      · rw [e, e0, hsucc _ _ text hout, sentimentEntryFor_congr hparse]

theorem per_record_isolation_witness :
    (∃ entries entries0 ts ts0 w1 w0,
      generateSummaries flakyEnv twoIds emptyWorld =
        (Except.ok (OpResult.summaries entries ([recordB, recordA] : List ContentRecord).length ts), w1) ∧
      generateSummaries steadyEnv twoIds emptyWorld =
        (Except.ok (OpResult.summaries entries0 ([recordB, recordA] : List ContentRecord).length ts0), w0) ∧
      entries.length = ([recordB, recordA] : List ContentRecord).length ∧
      ∀ k record, ([recordB, recordA] : List ContentRecord)[k]? = some record →
        (∃ entry, entries[k]? = some entry ∧ entry.id = record.id) ∧
        (∀ message, summaryContent record ≠ "" →
          (flakyEnv.fetch
            (emptyWorld.log.length + 1 +
              ((([recordB, recordA] : List ContentRecord).take k).filter (fun r => decide (summaryContent r ≠ ""))).length)
            (chatRequest (summaryMessages record))).outcome = Except.error message →
          entries[k]? = some { id := record.id, summary := "Failed to generate summary",
                               error := some message }) ∧
        (∀ text, summaryContent record ≠ "" →
          (flakyEnv.fetch
            (emptyWorld.log.length + 1 +
              ((([recordB, recordA] : List ContentRecord).take k).filter (fun r => decide (summaryContent r ≠ ""))).length)
            (chatRequest (summaryMessages record))).outcome = Except.ok text →
          entries[k]? =
            some { id := record.id
                   title := some (((record.title.or record.name).or
                     (JsStr.str "Untitled")).orEmpty)
                   summary := text
                   word_count := some (jsLength (summaryContent record)) } ∧
          entries0[k]? = entries[k]?) ∧
        (summaryContent record = "" →
          entries[k]? = some { id := record.id
                               summary := "No content available for summarization"
                               error := some "Empty content" } ∧
          entries0[k]? = entries[k]?)) ∧
    (∃ entries entries0 ts ts0 w1 w0,
      categorizeContent flakyEnv twoIds emptyWorld =
        (Except.ok (OpResult.categories entries ([recordB, recordA] : List ContentRecord).length ts), w1) ∧
      categorizeContent steadyEnv twoIds emptyWorld =
        (Except.ok (OpResult.categories entries0 ([recordB, recordA] : List ContentRecord).length ts0), w0) ∧
      entries.length = ([recordB, recordA] : List ContentRecord).length ∧
      ∀ k record, ([recordB, recordA] : List ContentRecord)[k]? = some record →
        (∃ entry, entries[k]? = some entry ∧ entry.id = record.id) ∧
        (∀ message,
          (flakyEnv.fetch (emptyWorld.log.length + 1 + k)
            (chatRequest (categoryMessages record))).outcome = Except.error message →
          entries[k]? = some { id := record.id, title := record.title.or record.name,
                               suggested_category := "Other", error := some message }) ∧
        (∀ text,
          (flakyEnv.fetch (emptyWorld.log.length + 1 + k)
            (chatRequest (categoryMessages record))).outcome = Except.ok text →
          entries[k]? = some { id := record.id, title := record.title.or record.name,
                               suggested_category := jsTrim text, confidence := some "high" } ∧
          entries0[k]? = entries[k]?)) ∧
    (∃ entries entries0 ts ts0 w1 w0,
      performSentimentAnalysis flakyEnv twoIds emptyWorld =
        (Except.ok (OpResult.sentiments entries ([recordB, recordA] : List ContentRecord).length ts), w1) ∧
      performSentimentAnalysis steadyEnv twoIds emptyWorld =
        (Except.ok (OpResult.sentiments entries0 ([recordB, recordA] : List ContentRecord).length ts0), w0) ∧
      entries.length = ([recordB, recordA] : List ContentRecord).length ∧
      ∀ k record, ([recordB, recordA] : List ContentRecord)[k]? = some record →
        (∃ entry, entries[k]? = some entry ∧ entry.id = record.id) ∧
        (∀ message,
          (flakyEnv.fetch (emptyWorld.log.length + 1 + k)
            (chatRequest (sentimentMessages record))).outcome = Except.error message →
          entries[k]? = some { id := record.id, title := record.title.or record.name,
                               sentiment := some (Json.str "neutral"),
                               confidence := some (Json.num 0), error := some message }) ∧
        (∀ text message,
          (flakyEnv.fetch (emptyWorld.log.length + 1 + k)
            (chatRequest (sentimentMessages record))).outcome = Except.ok text →
          sentimentEntry flakyEnv record text = Except.error message →
          entries[k]? = some { id := record.id, title := record.title.or record.name,
                               sentiment := some (Json.str "neutral"),
                               confidence := some (Json.num 0), error := some message } ∧
          entries0[k]? = entries[k]?) ∧
        (∀ text entry,
          (flakyEnv.fetch (emptyWorld.log.length + 1 + k)
            (chatRequest (sentimentMessages record))).outcome = Except.ok text →
          sentimentEntry flakyEnv record text = Except.ok entry →
          entries[k]? = some entry ∧ entries0[k]? = entries[k]?)) :=
  per_record_isolation flakyEnv steadyEnv twoIds emptyWorld "a" ["b"] [recordB, recordA] rfl rfl
    ⟨rfl, rfl, rfl, fun n _ => by
      by_cases h : n = 1 <;> simp [flakyEnv, steadyEnv, h, ApiReply.outcome]⟩

/-- C13, as the specification states it, fails: for `record_ids` `["a", "b"]`,
both matching a stored record, and a store that returns record `b` before
record `a`, the three operations return their entries in the order `b`, `a`. -/
theorem result_order_counterexample :
    twoIds.record_ids = some ["a", "b"] ∧
    (returned (generateSummaries steadyEnv twoIds emptyWorld)).map OpResult.entryIds =
      some ["b", "a"] ∧
    (returned (categorizeContent steadyEnv twoIds emptyWorld)).map OpResult.entryIds =
      some ["b", "a"] ∧
    (returned (performSentimentAnalysis steadyEnv twoIds emptyWorld)).map OpResult.entryIds =
      some ["b", "a"] := by
  refine ⟨rfl, by decide, by decide, by decide⟩

/-- C13, amended: for a non-empty `record_ids`, the ids of the entries of the
result of `generateSummaries`, `categorizeContent` and
`performSentimentAnalysis`, read in order, are the ids of the fetched records in
the order in which the store returns them; they are `record_ids` in input order
when the store returns the records in that order. -/
theorem result_order_follows_store (env : Env) (p : Parameters) (w : World) (r : String)
    (rs : List String) (records : List ContentRecord)
    (hids : p.record_ids = some (r :: rs))
    (hsel : env.select w.log.length
      { table := p.table_name, conds := [Cond.isIn "id" (r :: rs)] } =
        { data := some records, error := none }) :
    (∃ result w1, generateSummaries env p w = (Except.ok result, w1) ∧
      result.entryIds = records.map (fun x => x.id) ∧
      (records.map (fun x => x.id) = r :: rs → result.entryIds = r :: rs)) ∧
    (∃ result w1, categorizeContent env p w = (Except.ok result, w1) ∧
      result.entryIds = records.map (fun x => x.id) ∧
      (records.map (fun x => x.id) = r :: rs → result.entryIds = r :: rs)) ∧
    (∃ result w1, performSentimentAnalysis env p w = (Except.ok result, w1) ∧
      result.entryIds = records.map (fun x => x.id) ∧
      (records.map (fun x => x.id) = r :: rs → result.entryIds = r :: rs)) := by
  refine ⟨?_, ?_, ?_⟩
  · obtain ⟨ts, h⟩ := generateSummaries_eq env p w r rs records hids hsel
    have hid := summaryEntries_ids env records (w.log.length + 1)
    exact ⟨_, _, h, hid, fun hr => hid.trans hr⟩
  · obtain ⟨ts, h⟩ := categorizeContent_eq env p w r rs records hids hsel
    have hid := categoryEntries_ids env records (w.log.length + 1)
    exact ⟨_, _, h, hid, fun hr => hid.trans hr⟩
  · obtain ⟨ts, h⟩ := performSentimentAnalysis_eq env p w r rs records hids hsel
    have hid := sentimentEntries_ids env records (w.log.length + 1)
    exact ⟨_, _, h, hid, fun hr => hid.trans hr⟩

theorem result_order_follows_store_witness :
    (∃ result w1, generateSummaries steadyEnv twoIds emptyWorld = (Except.ok result, w1) ∧
      result.entryIds = [recordB, recordA].map (fun x => x.id) ∧
      ([recordB, recordA].map (fun x => x.id) = "a" :: ["b"] →
        result.entryIds = "a" :: ["b"])) ∧
    (∃ result w1, categorizeContent steadyEnv twoIds emptyWorld = (Except.ok result, w1) ∧
      result.entryIds = [recordB, recordA].map (fun x => x.id) ∧
      ([recordB, recordA].map (fun x => x.id) = "a" :: ["b"] →
        result.entryIds = "a" :: ["b"])) ∧
    (∃ result w1, performSentimentAnalysis steadyEnv twoIds emptyWorld =
        (Except.ok result, w1) ∧
      result.entryIds = [recordB, recordA].map (fun x => x.id) ∧
      ([recordB, recordA].map (fun x => x.id) = "a" :: ["b"] →
        result.entryIds = "a" :: ["b"])) :=
  result_order_follows_store steadyEnv twoIds emptyWorld "a" ["b"] [recordB, recordA] rfl rfl

/-- C14, as the specification states it, fails: when the fetch yields zero
records, `generateSummaries`, `categorizeContent` and `performSentimentAnalysis`
return a result with an empty entry list and no `message` key. -/
theorem zero_records_counterexample :
    (sampleEnv.select 0 { table := twoIds.table_name, conds := [Cond.isIn "id" ["a", "b"]] }) =
      { data := some [], error := none } ∧
    (returned (generateSummaries sampleEnv twoIds emptyWorld)).map OpResult.message? =
      some none ∧
    (returned (categorizeContent sampleEnv twoIds emptyWorld)).map OpResult.message? =
      some none ∧
    (returned (performSentimentAnalysis sampleEnv twoIds emptyWorld)).map OpResult.message? =
      some none := by
  refine ⟨rfl, by decide, by decide, by decide⟩

/-- C14, amended: when the fetch succeeds and yields zero records, none of the
five operations fails or makes a completion call; `analyzeArticles` returns the
message `No articles found for analysis` and `extractInsights` the message
`No records found for insight extraction`, whatever the parameters, while
`generateSummaries`, `categorizeContent` and `performSentimentAnalysis`, which
fetch only when called with a non-empty `record_ids`, return an empty entry
list with `total_processed` 0 and no message. -/
theorem zero_records_results (env : Env) (p : Parameters) (w : World)
    (hsel : ∀ query, env.select w.log.length query = { data := some [], error := none }) :
    analyzeArticles env p w =
      (Except.ok (OpResult.message "No articles found for analysis"),
        w.record (Event.select { table := some (p.table_name.getD "articles"),
                                 conds := articleConds (p.filters.getD {}) })) ∧
    extractInsights env p w =
      (Except.ok (OpResult.message "No records found for insight extraction"),
        w.record (Event.select { table := p.table_name,
                                 conds := insightConds (p.filters.getD {}) })) ∧
    ∀ r rs, p.record_ids = some (r :: rs) →
      (∃ ts, generateSummaries env p w =
        (Except.ok (OpResult.summaries [] 0 ts),
          w.record (Event.select { table := p.table_name,
                                   conds := [Cond.isIn "id" (r :: rs)] }))) ∧
      (∃ ts, categorizeContent env p w =
        (Except.ok (OpResult.categories [] 0 ts),
          w.record (Event.select { table := p.table_name,
                                   conds := [Cond.isIn "id" (r :: rs)] }))) ∧
      (∃ ts, performSentimentAnalysis env p w =
        (Except.ok (OpResult.sentiments [] 0 ts),
          w.record (Event.select { table := p.table_name,
                                   conds := [Cond.isIn "id" (r :: rs)] }))) := by
  refine ⟨?_, ?_, ?_⟩
  · simp [analyzeArticles, runQuery, hsel]
  · simp [extractInsights, runQuery, hsel]
  · intro r rs hids
    refine ⟨?_, ?_, ?_⟩
    · obtain ⟨ts, h⟩ := generateSummaries_eq env p w r rs [] hids (hsel _)
      exact ⟨ts, by simpa [summaryEntries, World.record] using h⟩
    · obtain ⟨ts, h⟩ := categorizeContent_eq env p w r rs [] hids (hsel _)
      exact ⟨ts, by simpa [World.record] using h⟩
    · obtain ⟨ts, h⟩ := performSentimentAnalysis_eq env p w r rs [] hids (hsel _)
      exact ⟨ts, by simpa [World.record] using h⟩

theorem zero_records_results_witness :
    analyzeArticles sampleEnv analyzeParameters emptyWorld =
      (Except.ok (OpResult.message "No articles found for analysis"),
        emptyWorld.record
          (Event.select { table := some (analyzeParameters.table_name.getD "articles"),
                          conds := articleConds (analyzeParameters.filters.getD {}) })) ∧
    extractInsights sampleEnv analyzeParameters emptyWorld =
      (Except.ok (OpResult.message "No records found for insight extraction"),
        emptyWorld.record
          (Event.select { table := analyzeParameters.table_name,
                          conds := insightConds (analyzeParameters.filters.getD {}) })) ∧
    (∃ ts, generateSummaries sampleEnv twoIds emptyWorld =
      (Except.ok (OpResult.summaries [] 0 ts),
        emptyWorld.record (Event.select { table := twoIds.table_name,
                                          conds := [Cond.isIn "id" ("a" :: ["b"])] }))) ∧
    (∃ ts, categorizeContent sampleEnv twoIds emptyWorld =
      (Except.ok (OpResult.categories [] 0 ts),
        emptyWorld.record (Event.select { table := twoIds.table_name,
                                          conds := [Cond.isIn "id" ("a" :: ["b"])] }))) ∧
    (∃ ts, performSentimentAnalysis sampleEnv twoIds emptyWorld =
      (Except.ok (OpResult.sentiments [] 0 ts),
        emptyWorld.record (Event.select { table := twoIds.table_name,
                                          conds := [Cond.isIn "id" ("a" :: ["b"])] }))) :=
  ⟨(zero_records_results sampleEnv analyzeParameters emptyWorld (fun _ => rfl)).1,
   (zero_records_results sampleEnv analyzeParameters emptyWorld (fun _ => rfl)).2.1,
   (zero_records_results sampleEnv twoIds emptyWorld (fun _ => rfl)).2.2 "a" ["b"] rfl⟩

theorem analyzeArticles_log (env : Env) (p : Parameters) (w : World) (a : ContentRecord)
    (rest : List ContentRecord)
    (hsel : env.select w.log.length
      { table := some (p.table_name.getD "articles"),
        conds := articleConds (p.filters.getD {}) } =
        { data := some (a :: rest), error := none }) :
    (analyzeArticles env p w).2.log =
      w.log ++ [Event.select { table := some (p.table_name.getD "articles"),
                               conds := articleConds (p.filters.getD {}) },
                Event.completion (chatRequest (articlesMessages (a :: rest)))] := by
  simp only [analyzeArticles, runQuery, hsel, callOpenAI_eq, articlesMessages]
  split
  · next message w2 heq =>
    rw [← (Prod.mk.inj heq).2]
    simp [World.record]
  · next analysis w2 heq =>
    rw [← (Prod.mk.inj heq).2]
    split <;> simp [World.record]

theorem extractInsights_log (env : Env) (p : Parameters) (w : World) (a : ContentRecord)
    (rest : List ContentRecord)
    (hsel : env.select w.log.length
      { table := p.table_name, conds := insightConds (p.filters.getD {}) } =
        { data := some (a :: rest), error := none }) :
    (extractInsights env p w).2.log =
      w.log ++ [Event.select { table := p.table_name,
                               conds := insightConds (p.filters.getD {}) },
                Event.completion (chatRequest (insightsMessages (a :: rest)))] := by
  simp only [extractInsights, runQuery, hsel, callOpenAI_eq, insightsMessages]
  split
  · next message w2 heq =>
    rw [← (Prod.mk.inj heq).2]
    simp [World.record]
  · next analysis w2 heq =>
    rw [← (Prod.mk.inj heq).2]
    split <;> simp [World.record]

/-- C15, as the specification states it, fails: `generateSummaries` fetches one
record, which has no body, description or content, returns one entry for it and
makes no chat-completion call. -/
theorem completion_calls_counterexample :
    (blankEnv.select 0 { table := oneId.table_name, conds := [Cond.isIn "id" ["c"]] }).data =
      some [recordBlank] ∧
    (returned (generateSummaries blankEnv oneId emptyWorld)).map OpResult.entryIds =
      some ["c"] ∧
    ((generateSummaries blankEnv oneId emptyWorld).2.log.filter Event.isCompletion).length =
      0 := by
  refine ⟨rfl, by decide, by decide⟩

/-- C15, amended: after its query, `generateSummaries` makes exactly one
chat-completion call for each fetched record that has content (a non-empty
body, description or content), in record order, and none for a record without;
`categorizeContent` and `performSentimentAnalysis` make exactly one call for
each fetched record, in record order; `analyzeArticles` and `extractInsights`,
whatever the parameters, make exactly one call in an invocation that fetches at
least one record. -/
theorem completion_calls (env : Env) (p : Parameters) (w : World)
    (records : List ContentRecord)
    (hsel : ∀ query, env.select w.log.length query = { data := some records, error := none }) :
    (∀ r rs, p.record_ids = some (r :: rs) →
      (generateSummaries env p w).2.log =
        w.log ++ [Event.select { table := p.table_name, conds := [Cond.isIn "id" (r :: rs)] }] ++
          (records.filter (fun x => decide (summaryContent x ≠ ""))).map
            (fun x => Event.completion (chatRequest (summaryMessages x))) ∧
      (categorizeContent env p w).2.log =
        w.log ++ [Event.select { table := p.table_name, conds := [Cond.isIn "id" (r :: rs)] }] ++
          records.map (fun x => Event.completion (chatRequest (categoryMessages x))) ∧
      (performSentimentAnalysis env p w).2.log =
        w.log ++ [Event.select { table := p.table_name, conds := [Cond.isIn "id" (r :: rs)] }] ++
          records.map (fun x => Event.completion (chatRequest (sentimentMessages x)))) ∧
    (records ≠ [] → (analyzeArticles env p w).2.log =
      w.log ++ [Event.select { table := some (p.table_name.getD "articles"),
                               conds := articleConds (p.filters.getD {}) },
                Event.completion (chatRequest (articlesMessages records))]) ∧
    (records ≠ [] → (extractInsights env p w).2.log =
      w.log ++ [Event.select { table := p.table_name,
                               conds := insightConds (p.filters.getD {}) },
                Event.completion (chatRequest (insightsMessages records))]) := by
  refine ⟨?_, ?_, ?_⟩
  · intro r rs hids
    refine ⟨?_, ?_, ?_⟩
    · obtain ⟨ts, h⟩ := generateSummaries_eq env p w r rs records hids (hsel _)
      rw [h]
    · obtain ⟨ts, h⟩ := categorizeContent_eq env p w r rs records hids (hsel _)
      rw [h]
    · obtain ⟨ts, h⟩ := performSentimentAnalysis_eq env p w r rs records hids (hsel _)
      rw [h]
  · intro hne
    cases records with
    | nil => exact absurd rfl hne
    | cons a rest => exact analyzeArticles_log env p w a rest (hsel _)
  · intro hne
    cases records with
    | nil => exact absurd rfl hne
    | cons a rest => exact extractInsights_log env p w a rest (hsel _)

theorem completion_calls_witness :
    ((generateSummaries steadyEnv twoIds emptyWorld).2.log =
      emptyWorld.log ++
        [Event.select { table := twoIds.table_name, conds := [Cond.isIn "id" ("a" :: ["b"])] }] ++
        ([recordB, recordA].filter (fun x => decide (summaryContent x ≠ ""))).map
          (fun x => Event.completion (chatRequest (summaryMessages x))) ∧
    (categorizeContent steadyEnv twoIds emptyWorld).2.log =
      emptyWorld.log ++
        [Event.select { table := twoIds.table_name, conds := [Cond.isIn "id" ("a" :: ["b"])] }] ++
        [recordB, recordA].map (fun x => Event.completion (chatRequest (categoryMessages x))) ∧
    (performSentimentAnalysis steadyEnv twoIds emptyWorld).2.log =
      emptyWorld.log ++
        [Event.select { table := twoIds.table_name, conds := [Cond.isIn "id" ("a" :: ["b"])] }] ++
        [recordB, recordA].map (fun x => Event.completion (chatRequest (sentimentMessages x)))) ∧
    (analyzeArticles steadyEnv analyzeParameters emptyWorld).2.log =
      emptyWorld.log ++
        [Event.select { table := some (analyzeParameters.table_name.getD "articles"),
                        conds := articleConds (analyzeParameters.filters.getD {}) },
         Event.completion (chatRequest (articlesMessages [recordB, recordA]))] ∧
    (extractInsights steadyEnv analyzeParameters emptyWorld).2.log =
      emptyWorld.log ++
        [Event.select { table := analyzeParameters.table_name,
                        conds := insightConds (analyzeParameters.filters.getD {}) },
         Event.completion (chatRequest (insightsMessages [recordB, recordA]))] :=
  ⟨(completion_calls steadyEnv twoIds emptyWorld [recordB, recordA] (fun _ => rfl)).1
      "a" ["b"] rfl,
   (completion_calls steadyEnv analyzeParameters emptyWorld [recordB, recordA]
      (fun _ => rfl)).2.1 (by simp),
   (completion_calls steadyEnv analyzeParameters emptyWorld [recordB, recordA]
      (fun _ => rfl)).2.2 (by simp)⟩

/-! ### The chunker: shape of the chunks and termination -/

theorem slice_length {α : Type} (text : List α) (i e : Nat) :
    (slice text i e).length = min (e - i) (text.length - i) := by
  simp [slice]

theorem windowSpans_getElem? (len size step n k : Nat) (p : Nat × Nat)
    (h : (windowSpans len size step n 0)[k]? = some p) :
    k < n ∧ p = (k * step, min (k * step + size) len) := by
  rw [windowSpans_eq_map_range] at h
  simp only [List.getElem?_map, Option.map_eq_some', Nat.zero_add] at h
  obtain ⟨j, hj, rfl⟩ := h
  rw [List.getElem?_eq_some] at hj
  obtain ⟨hlt, hj⟩ := hj
  simp only [List.getElem_range] at hj
  subst hj
  simp only [List.length_range] at hlt
  exact ⟨hlt, rfl⟩

/-- C28: for `0 ≤ O < S`, `chunkText` returns exactly `ceil(L / (S - O))`
chunks; every chunk is non-empty and has at most `S` code units, and the last
chunk ends at offset `L`. -/
theorem chunkText_shape {α : Type} (text : List α) (S O : Nat) (h : O < S) :
    ∃ chunks spans, chunkText text S O = some chunks ∧
      chunkSpans text.length S O = some spans ∧
      chunks = spans.map (fun p => slice text p.1 p.2) ∧
      chunks.length = ⌈(text.length : ℚ) / ((S : ℚ) - (O : ℚ))⌉₊ ∧
      (∀ c ∈ chunks, 0 < c.length ∧ c.length ≤ S) ∧
      (∀ p, spans.getLast? = some p → p.2 = text.length) := by
  have hs : 0 < S - O := by omega
  have hcast : ((S - O : ℕ) : ℚ) = (S : ℚ) - (O : ℚ) := by
    rw [Nat.cast_sub (le_of_lt h)]
  refine ⟨_, _, chunkText_eq text S O h, chunkSpans_eq text.length S O h,
    windows_eq_map_spans text S (S - O) _ 0, ?_, ?_, ?_⟩
  · rw [windows_length, ceilDiv_eq_ceil _ _ hs, hcast]
  · intro c hc
    rw [windows_eq_map_range] at hc
    simp only [List.mem_map, List.mem_range, Nat.zero_add] at hc
    obtain ⟨k, hk, rfl⟩ := hc
    have hlt := (lt_ceilDiv_iff text.length (S - O) k hs).1 hk
    rw [slice_length]
    generalize k * (S - O) = i at hlt ⊢
    omega
  · intro p hp
    rw [List.getLast?_eq_getElem?] at hp
    obtain ⟨hk, rfl⟩ := windowSpans_getElem? _ _ _ _ _ p hp
    have hlen : (windowSpans text.length S (S - O) (ceilDiv text.length (S - O)) 0).length =
        ceilDiv text.length (S - O) := by
      rw [windowSpans_eq_map_range]
      simp
    rw [hlen] at hk ⊢
    have hnot : ¬ ceilDiv text.length (S - O) < ceilDiv text.length (S - O) := lt_irrefl _
    rw [lt_ceilDiv_iff _ _ _ hs] at hnot
    have hpos : 0 < ceilDiv text.length (S - O) := by omega
    have e : ceilDiv text.length (S - O) * (S - O) =
        (ceilDiv text.length (S - O) - 1) * (S - O) + (S - O) := by
      have e1 : ceilDiv text.length (S - O) = (ceilDiv text.length (S - O) - 1) + 1 := by omega
      nth_rewrite 1 [e1]
      ring
    rw [e] at hnot
    simp only
    generalize (ceilDiv text.length (S - O) - 1) * (S - O) = i at hnot ⊢
    omega

theorem chunkText_shape_witness :
    ∃ chunks spans, chunkText [10, 11, 12, 13, 14] 3 1 = some chunks ∧
      chunkSpans ([10, 11, 12, 13, 14] : List Nat).length 3 1 = some spans ∧
      chunks = spans.map (fun p => slice [10, 11, 12, 13, 14] p.1 p.2) ∧
      chunks.length =
        ⌈(([10, 11, 12, 13, 14] : List Nat).length : ℚ) / (((3 : ℕ) : ℚ) - ((1 : ℕ) : ℚ))⌉₊ ∧
      (∀ c ∈ chunks, 0 < c.length ∧ c.length ≤ 3) ∧
      (∀ p, spans.getLast? = some p → p.2 = ([10, 11, 12, 13, 14] : List Nat).length) :=
  chunkText_shape [10, 11, 12, 13, 14] 3 1 (by decide)

/-- C30: for `0 ≤ O < S` the step `S - O` is positive and the loop of
`chunkText` terminates: every fuel above the length of the text gives the same
result; the offsets of the iterations are `0`, `S - O`, `2 * (S - O)`, ..., each
below the length of the text and each larger by `S - O` than the one before,
and the loop ends with the first offset that reaches the length. The default
size 500 and overlap 50 are such a pair. -/
theorem chunkText_terminates {α : Type} (text : List α) (S O : Nat) (h : O < S) :
    0 < S - O ∧
    (∃ chunks, chunkText text S O = some chunks ∧
      ∀ fuel, text.length < fuel → chunkTextLoop text S O fuel 0 [] = some chunks) ∧
    (∃ spans, chunkSpans text.length S O = some spans ∧
      (∀ k p, spans[k]? = some p → p.1 = k * (S - O) ∧ p.1 < text.length) ∧
      (∀ k p q, spans[k]? = some p → spans[k + 1]? = some q →
        q.1 = p.1 + (S - O) ∧ p.1 < q.1) ∧
      text.length ≤ spans.length * (S - O)) ∧
    (∃ chunks, chunkText text 500 50 = some chunks) := by
  have hs : 0 < S - O := by omega
  refine ⟨hs, ⟨_, chunkText_eq text S O h, ?_⟩, ⟨_, chunkSpans_eq text.length S O h, ?_, ?_, ?_⟩,
    ⟨_, chunkText_eq text 500 50 (by decide)⟩⟩
  · intro fuel hf
    have := chunkTextLoop_eq text S O hs fuel 0 []
      (by have := ceilDiv_le text.length (S - O) hs; simp; omega)
    simpa using this
  · intro k p hp
    obtain ⟨hk, rfl⟩ := windowSpans_getElem? _ _ _ _ _ p hp
    exact ⟨rfl, (lt_ceilDiv_iff _ _ _ hs).1 hk⟩
  · intro k p q hp hq
    obtain ⟨_, rfl⟩ := windowSpans_getElem? _ _ _ _ _ p hp
    obtain ⟨_, rfl⟩ := windowSpans_getElem? _ _ _ _ _ q hq
    have e : (k + 1) * (S - O) = k * (S - O) + (S - O) := by ring
    show (k + 1) * (S - O) = k * (S - O) + (S - O) ∧ k * (S - O) < (k + 1) * (S - O)
    rw [e]
    omega
  · have hlen : (windowSpans text.length S (S - O) (ceilDiv text.length (S - O)) 0).length =
        ceilDiv text.length (S - O) := by
      rw [windowSpans_eq_map_range]
      simp
    rw [hlen]
    have hnot : ¬ ceilDiv text.length (S - O) < ceilDiv text.length (S - O) := lt_irrefl _
    rw [lt_ceilDiv_iff _ _ _ hs] at hnot
    omega

theorem chunkText_terminates_witness :
    0 < 500 - 50 ∧
    (∃ chunks, chunkText [10, 11, 12, 13, 14] 500 50 = some chunks ∧
      ∀ fuel, ([10, 11, 12, 13, 14] : List Nat).length < fuel →
        chunkTextLoop [10, 11, 12, 13, 14] 500 50 fuel 0 [] = some chunks) ∧
    (∃ spans, chunkSpans ([10, 11, 12, 13, 14] : List Nat).length 500 50 = some spans ∧
      (∀ k p, spans[k]? = some p →
        p.1 = k * (500 - 50) ∧ p.1 < ([10, 11, 12, 13, 14] : List Nat).length) ∧
      (∀ k p q, spans[k]? = some p → spans[k + 1]? = some q →
        q.1 = p.1 + (500 - 50) ∧ p.1 < q.1) ∧
      ([10, 11, 12, 13, 14] : List Nat).length ≤ spans.length * (500 - 50)) ∧
    (∃ chunks, chunkText [10, 11, 12, 13, 14] 500 50 = some chunks) :=
  chunkText_terminates [10, 11, 12, 13, 14] 500 50 (by decide)

/-! ### The guard on `record_ids` and the dispatch -/

theorem fetch_error_ne_required (message required : String)
    (h : required.data.head? = some 'r') :
    "Failed to fetch records: " ++ message ≠ required := by
  intro he
  have h2 := congrArg (fun s : String => s.data.head?) he
  simp only [String.data_append] at h2
  rw [h] at h2
  simp at h2

/-- C21: `generateSummaries`, `categorizeContent` and `performSentimentAnalysis`
fail with their error `record_ids is required for ...` if and only if
`record_ids` is absent or the empty list, and they then fail at the first step:
the world is unchanged, so no store query and no completion call is made. -/
theorem record_ids_required (env : Env) (p : Parameters) (w : World) :
    (((generateSummaries env p w).1 =
        Except.error "record_ids is required for summary generation" ↔
      (p.record_ids = none ∨ p.record_ids = some [])) ∧
     ((p.record_ids = none ∨ p.record_ids = some []) →
        generateSummaries env p w =
          (Except.error "record_ids is required for summary generation", w))) ∧
    (((categorizeContent env p w).1 =
        Except.error "record_ids is required for categorization" ↔
      (p.record_ids = none ∨ p.record_ids = some [])) ∧
     ((p.record_ids = none ∨ p.record_ids = some []) →
        categorizeContent env p w =
          (Except.error "record_ids is required for categorization", w))) ∧
    (((performSentimentAnalysis env p w).1 =
        Except.error "record_ids is required for sentiment analysis" ↔
      (p.record_ids = none ∨ p.record_ids = some [])) ∧
     ((p.record_ids = none ∨ p.record_ids = some []) →
        performSentimentAnalysis env p w =
          (Except.error "record_ids is required for sentiment analysis", w))) := by
  have hs := fetch_error_ne_required
  refine ⟨?_, ?_, ?_⟩
  · have hfwd : (p.record_ids = none ∨ p.record_ids = some []) →
        generateSummaries env p w =
          (Except.error "record_ids is required for summary generation", w) := by
      rintro (h | h) <;> simp [generateSummaries, h]
    refine ⟨⟨?_, fun h => by rw [hfwd h]⟩, hfwd⟩
    intro hres
    cases hids : p.record_ids with
    | none => exact Or.inl rfl
    | some ids =>
      cases ids with
      | nil => exact Or.inr rfl
      | cons r rs =>
        exfalso
        simp only [generateSummaries, hids, runQuery] at hres
        split at hres
        · simp only [Except.error.injEq] at hres
          exact hs _ _ (by decide) hres
        · split at hres
          · simp only [Except.error.injEq] at hres
            exact absurd hres (by decide)
          · simp at hres
  · have hfwd : (p.record_ids = none ∨ p.record_ids = some []) →
        categorizeContent env p w =
          (Except.error "record_ids is required for categorization", w) := by
      rintro (h | h) <;> simp [categorizeContent, h]
    refine ⟨⟨?_, fun h => by rw [hfwd h]⟩, hfwd⟩
    intro hres
    cases hids : p.record_ids with
    | none => exact Or.inl rfl
    | some ids =>
      cases ids with
      | nil => exact Or.inr rfl
      | cons r rs =>
        exfalso
        simp only [categorizeContent, hids, runQuery] at hres
        split at hres
        · simp only [Except.error.injEq] at hres
          exact hs _ _ (by decide) hres
        · split at hres
          · simp only [Except.error.injEq] at hres
            exact absurd hres (by decide)
          · simp at hres
  · have hfwd : (p.record_ids = none ∨ p.record_ids = some []) →
        performSentimentAnalysis env p w =
          (Except.error "record_ids is required for sentiment analysis", w) := by
      rintro (h | h) <;> simp [performSentimentAnalysis, h]
    refine ⟨⟨?_, fun h => by rw [hfwd h]⟩, hfwd⟩
    intro hres
    cases hids : p.record_ids with
    | none => exact Or.inl rfl
    | some ids =>
      cases ids with
      | nil => exact Or.inr rfl
      | cons r rs =>
        exfalso
        simp only [performSentimentAnalysis, hids, runQuery] at hres
        split at hres
        · simp only [Except.error.injEq] at hres
          exact hs _ _ (by decide) hres
        · split at hres
          · simp only [Except.error.injEq] at hres
            exact absurd hres (by decide)
          · simp at hres

/-- C29: a task type that passes the validation is one of the five names, and
the switch then runs the operation of that name and no other branch; the
default branch, which raises `Unknown task type`, is taken only for a task type
outside the enumeration, which the validation rejects before a task exists. -/
theorem dispatch_exhaustive (env : Env) (t : String) (p : Parameters) (w : World)
    (hv : t ∈ validTaskTypes) :
    ((t = "analyze_articles" ∧ dispatch env t p w = analyzeArticles env p w) ∨
     (t = "generate_summaries" ∧ dispatch env t p w = generateSummaries env p w) ∨
     (t = "extract_insights" ∧ dispatch env t p w = extractInsights env p w) ∨
     (t = "categorize_content" ∧ dispatch env t p w = categorizeContent env p w) ∨
     (t = "sentiment_analysis" ∧ dispatch env t p w = performSentimentAnalysis env p w)) ∧
    (∀ other : String, other ∉ validTaskTypes →
      dispatch env other p w = (Except.error ("Unknown task type: " ++ other), w)) ∧
    (∀ (req : Request) (body : TaskRunRequest) (other : String),
      req.method = "POST" → req.json = Except.ok body → body.task_type = some other →
      other ∉ validTaskTypes →
      (handler env req w).1.status = 400 ∧
      (handler env req w).2.log = w.log ++ [Event.readBody]) := by
  refine ⟨?_, ?_, ?_⟩
  · simp only [validTaskTypes, List.mem_cons, List.mem_singleton, List.not_mem_nil,
      or_false] at hv
    rcases hv with h | h | h | h | h <;> subst h <;> simp [dispatch]
  · intro other hother
    simp only [validTaskTypes, List.mem_cons, List.mem_singleton, List.not_mem_nil,
      or_false, not_or] at hother
    obtain ⟨h1, h2, h3, h4, h5⟩ := hother
    simp [dispatch, h1, h2, h3, h4, h5]
  · intro req body other hm hj ht hother
    have hne : ¬ req.method = "OPTIONS" := by rw [hm]; decide
    cases hpp : body.parameters with
    | none => simp [handler, handleRequest, hm, hj, ht, hpp, World.record]
    | some q =>
      by_cases he : other = ""
      · simp [handler, handleRequest, hm, hj, ht, hpp, he, World.record]
      · simp [handler, handleRequest, hm, hj, ht, hpp, he, hother, World.record]

theorem dispatch_exhaustive_witness :
    (("categorize_content" = "analyze_articles" ∧
        dispatch sampleEnv "categorize_content" twoIds emptyWorld =
          analyzeArticles sampleEnv twoIds emptyWorld) ∨
     ("categorize_content" = "generate_summaries" ∧
        dispatch sampleEnv "categorize_content" twoIds emptyWorld =
          generateSummaries sampleEnv twoIds emptyWorld) ∨
     ("categorize_content" = "extract_insights" ∧
        dispatch sampleEnv "categorize_content" twoIds emptyWorld =
          extractInsights sampleEnv twoIds emptyWorld) ∨
     ("categorize_content" = "categorize_content" ∧
        dispatch sampleEnv "categorize_content" twoIds emptyWorld =
          categorizeContent sampleEnv twoIds emptyWorld) ∨
     ("categorize_content" = "sentiment_analysis" ∧
        dispatch sampleEnv "categorize_content" twoIds emptyWorld =
          performSentimentAnalysis sampleEnv twoIds emptyWorld)) ∧
    (∀ other : String, other ∉ validTaskTypes →
      dispatch sampleEnv other twoIds emptyWorld =
        (Except.error ("Unknown task type: " ++ other), emptyWorld)) ∧
    (∀ (req : Request) (body : TaskRunRequest) (other : String),
      req.method = "POST" → req.json = Except.ok body → body.task_type = some other →
      other ∉ validTaskTypes →
      (handler sampleEnv req emptyWorld).1.status = 400 ∧
      (handler sampleEnv req emptyWorld).2.log = emptyWorld.log ++ [Event.readBody]) :=
  dispatch_exhaustive sampleEnv "categorize_content" twoIds emptyWorld (by decide)

/-! ### The boundary of the handler -/

theorem runTask_status {env : Env} {taskId t : String} {p : Parameters} {w w1 : World}
    {resp : Response} (h : runTask env taskId t p w = (Except.ok resp, w1)) :
    resp.status = 200 := by
  simp only [runTask] at h
  split at h
  · simp at h
  · split at h
    · simp at h
    · simp only [Prod.mk.injEq, Except.ok.injEq] at h
      rw [← h.1]

theorem handleRequest_status {env : Env} {req : Request} {w w1 : World} {resp : Response}
    (h : handleRequest env req w = (Except.ok resp, w1)) :
    resp.status = 200 ∨ resp.status = 400 ∨ resp.status = 405 ∨ resp.status = 500 := by
  simp only [handleRequest] at h
  repeat' split at h
  all_goals first
    | (simp at h; done)
    | (simp only [Prod.mk.injEq, Except.ok.injEq] at h
       obtain ⟨h1, _⟩ := h
       subst h1
       simp)
    | (rename_i heq
       simp only [Prod.mk.injEq, Except.ok.injEq] at h
       obtain ⟨h1, _⟩ := h
       subst h1
       exact Or.inl (runTask_status heq))

/-- C24: for every request and every behaviour of the store and of the
completion API, the handler returns a response, and its status is 200, 400, 405
or 500: an error raised anywhere inside the outer `try` block, the parse of the
body and the task updates of the failure path included, is turned into the
response 500 with `success: false` and the message of the error. -/
theorem handler_never_raises (env : Env) (req : Request) (w : World) :
    ((handler env req w).1.status = 200 ∨ (handler env req w).1.status = 400 ∨
      (handler env req w).1.status = 405 ∨ (handler env req w).1.status = 500) ∧
    (∀ message w1, req.method ≠ "OPTIONS" →
      handleRequest env req w = (Except.error message, w1) →
      handler env req w =
        ({ status := 500, headers := jsonCorsHeaders,
           body := some { success := false, error := some message } }, w1)) := by
  constructor
  · by_cases ho : req.method = "OPTIONS"
    · simp [handler, ho]
    · rcases hr : handleRequest env req w with ⟨r, w1⟩
      cases r with
      | error message => simp [handler, ho, hr]
      | ok resp =>
        have := handleRequest_status hr
        simpa [handler, ho, hr] using this
  · intro message w1 ho hr
    simp [handler, ho, hr]

/-- C25: a request whose method is not `POST` is answered without reading the
body, writing to the store or calling the completion API (the world is
unchanged): an `OPTIONS` request with 200, no body and the CORS headers
(`Access-Control-Allow-Origin: *`, `Access-Control-Allow-Methods: POST,
OPTIONS`), every other one with 405 and `success: false`. -/
theorem method_gate (env : Env) (req : Request) (w : World) (h : req.method ≠ "POST") :
    handler env req w =
      (if req.method = "OPTIONS" then
        { status := 200
          headers := [("Access-Control-Allow-Origin", "*"),
                      ("Access-Control-Allow-Headers",
                        "authorization, x-client-info, apikey, content-type"),
                      ("Access-Control-Allow-Methods", "POST, OPTIONS")]
          body := none }
      else
        { status := 405
          headers := [("Content-Type", "application/json")]
          body := some { success := false, error := some "Method not allowed" } }, w) := by
  by_cases ho : req.method = "OPTIONS"
  · simp [handler, ho]
  · simp [handler, handleRequest, ho, h, jsonHeaders]

theorem method_gate_witness :
    handler sampleEnv getRequest emptyWorld =
      (if getRequest.method = "OPTIONS" then
        { status := 200
          headers := [("Access-Control-Allow-Origin", "*"),
                      ("Access-Control-Allow-Headers",
                        "authorization, x-client-info, apikey, content-type"),
                      ("Access-Control-Allow-Methods", "POST, OPTIONS")]
          body := none }
      else
        { status := 405
          headers := [("Content-Type", "application/json")]
          body := some { success := false, error := some "Method not allowed" } },
        emptyWorld) :=
  method_gate sampleEnv getRequest emptyWorld (by decide)

/-! ### What a run keeps of the created task -/

theorem handler_after_create {env : Env} {req : Request} {w w1 : World}
    {body : TaskRunRequest} {t : String} {p : Parameters} {taskId : String}
    (hm : req.method = "POST") (hj : req.json = Except.ok body)
    (ht : body.task_type = some t) (hp : body.parameters = some p) (hv : t ∈ validTaskTypes)
    (hc : createTask env t p (body.priority.getD "normal") (w.record Event.readBody) =
      (Except.ok taskId, w1))
    (Inv : World → Prop)
    (hupd : ∀ (a b : World) (id st : String) (res : Option OpResult) (err : Option String)
      (r : Except String Unit), updateTaskStatus env id st res err a = (r, b) → Inv a → Inv b)
    (hop : ∀ a b, OpExtends a b → Inv a → Inv b)
    (h1 : Inv w1) : Inv (handler env req w).2 := by
  rcases hproc : updateTaskStatus env taskId "processing" none none w1 with ⟨r2, w2⟩
  have h2 : Inv w2 := hupd _ _ _ _ _ _ _ hproc h1
  cases r2 with
  | error msg =>
    rw [handler_processing_lost hm hj ht hp hv hc hproc]
    exact h2
  | ok unit2 =>
    have hext := dispatch_extends env t p w2
    rcases hd : dispatch env t p w2 with ⟨r3, w3⟩
    rw [hd] at hext
    have h3 : Inv w3 := hop _ _ hext h2
    cases r3 with
    | error m =>
      rcases hf : updateTaskStatus env taskId "failed" none (some m) w3 with ⟨r4, w4⟩
      have h4 : Inv w4 := hupd _ _ _ _ _ _ _ hf h3
      cases r4 with
      | error msg =>
        rw [handler_failed_lost hm hj ht hp hv hc hproc hd hf]
        exact h4
      | ok unit4 =>
        rw [handler_failed_path hm hj ht hp hv hc hproc hd hf]
        exact h4
    | ok res =>
      rcases hdone : updateTaskStatus env taskId "completed" (some res) none w3 with ⟨r4, w4⟩
      have h4 : Inv w4 := hupd _ _ _ _ _ _ _ hdone h3
      cases r4 with
      | ok unit4 =>
        rw [handler_completed_path hm hj ht hp hv hc hproc hd hdone]
        exact h4
      | error msg =>
        rcases hf : updateTaskStatus env taskId "failed" none (some msg) w4 with ⟨r5, w5⟩
        have h5 : Inv w5 := hupd _ _ _ _ _ _ _ hf h4
        cases r5 with
        | error msg2 =>
          rw [handler_completed_lost_twice hm hj ht hp hv hc hproc hd hdone hf]
          exact h5
        | ok unit5 =>
          rw [handler_completed_lost hm hj ht hp hv hc hproc hd hdone hf]
          exact h5

theorem updateTaskStatus_keeps {env : Env} {id st : String} {res : Option OpResult}
    {err : Option String} {a b : World} {r : Except String Unit}
    (h : updateTaskStatus env id st res err a = (r, b)) :
    (∃ e, b.log = a.log ++ [e]) ∧
    (∀ tid priority, (∃ row ∈ a.ai_tasks, row.id = tid ∧ row.priority = priority) →
      ∃ row ∈ b.ai_tasks, row.id = tid ∧ row.priority = priority) := by
  cases r with
  | error msg =>
    obtain ⟨ha, u, _, hl⟩ := updateTaskStatus_error_spec h
    refine ⟨⟨_, hl⟩, ?_⟩
    intro tid priority hrow
    rw [ha]
    exact hrow
  | ok done =>
    obtain ⟨u, _, _, _, ha, hl⟩ := updateTaskStatus_ok_spec h
    refine ⟨⟨_, hl⟩, ?_⟩
    rintro tid priority ⟨row, hrow, hid, hprio⟩
    rw [ha]
    refine ⟨if row.id = id then u.apply row else row, ?_, ?_, ?_⟩
    · simp only [List.mem_map]
      exact ⟨row, hrow, rfl⟩
    · by_cases h2 : row.id = id
      · rw [if_pos h2]
        exact hid
      · rw [if_neg h2]
        exact hid
    · by_cases h2 : row.id = id
      · rw [if_pos h2]
        exact hprio
      · rw [if_neg h2]
        exact hprio

theorem createTask_row (env : Env) (t : String) (p : Parameters) (priority : String)
    (w : World) :
    ∃ (row : TaskInsert) (idOpt : Option String),
      row.priority = priority ∧ row.status = "pending" ∧ row.task_type = t ∧
      row.parameters = p ∧
      (createTask env t p priority w).2.log = w.log ++ [Event.insertTask row idOpt] ∧
      (∀ id, idOpt = some id →
        createTask env t p priority w =
          (Except.ok id, { ai_tasks := w.ai_tasks ++ [row.toRow id],
                           log := w.log ++ [Event.insertTask row (some id)] })) ∧
      (idOpt = none → ∃ message, (createTask env t p priority w).1 = Except.error message) := by
  cases hi : env.insertTask w.log.length
    { task_type := t, parameters := p, priority := priority, status := "pending",
      created_at := env.clock w.log.length } with
  | error message =>
    refine ⟨{ task_type := t, parameters := p, priority := priority, status := "pending",
              created_at := env.clock w.log.length }, none, rfl, rfl, rfl, rfl, ?_, ?_, ?_⟩
    · simp [createTask, hi, World.record]
    · intro id h
      cases h
    · intro _
      exact ⟨"Failed to create task: " ++ message, by simp [createTask, hi]⟩
  | ok id =>
    refine ⟨{ task_type := t, parameters := p, priority := priority, status := "pending",
              created_at := env.clock w.log.length }, some id, rfl, rfl, rfl, rfl, ?_, ?_, ?_⟩
    · simp [createTask, hi]
    · intro id2 h
      cases h
      simp [createTask, hi]
    · intro h
      cases h

/-- C26: for every accepted task request the handler inserts, right after
reading the body, a task object with status `pending`, the task type and the
parameters of the request, and the priority of the request, `normal` when the
request carries none; when the store carries out the insert, the row is still
stored with that priority when the handler returns. -/
theorem inserted_priority (env : Env) (req : Request) (w : World) (body : TaskRunRequest)
    (t : String) (p : Parameters)
    (hm : req.method = "POST") (hj : req.json = Except.ok body)
    (ht : body.task_type = some t) (hp : body.parameters = some p) (hv : t ∈ validTaskTypes) :
    ∃ (row : TaskInsert) (idOpt : Option String) (rest : List Event),
      (handler env req w).2.log =
        w.log ++ Event.readBody :: Event.insertTask row idOpt :: rest ∧
      row.priority = (match body.priority with
        | some given => given
        | none => "normal") ∧
      row.status = "pending" ∧ row.task_type = t ∧ row.parameters = p ∧
      (∀ id, idOpt = some id →
        ∃ stored ∈ (handler env req w).2.ai_tasks,
          stored.id = id ∧ stored.priority = row.priority) := by
  obtain ⟨row, idOpt, hprio, hstatus, htype, hparams, hlog, hsome, hnone⟩ :=
    createTask_row env t p (body.priority.getD "normal") (w.record Event.readBody)
  have hprio2 : row.priority = (match body.priority with
      | some given => given
      | none => "normal") := by
    rw [hprio]
    cases body.priority <;> rfl
  cases idOpt with
  | none =>
    obtain ⟨message, hmsg⟩ := hnone rfl
    have hc : createTask env t p (body.priority.getD "normal") (w.record Event.readBody) =
        (Except.error message,
          (createTask env t p (body.priority.getD "normal") (w.record Event.readBody)).2) := by
      rw [← hmsg]
    refine ⟨row, none, [], ?_, hprio2, hstatus, htype, hparams, ?_⟩
    · rw [handler_create_lost hm hj ht hp hv hc, hlog]
      simp [World.record]
    · intro id h
      cases h
  | some taskId =>
    have hc := hsome taskId rfl
    have hinv := handler_after_create hm hj ht hp hv hc
      (fun a => (∃ rest, a.log = w.log ++ Event.readBody ::
          Event.insertTask row (some taskId) :: rest) ∧
        ∃ stored ∈ a.ai_tasks, stored.id = taskId ∧ stored.priority = row.priority)
      (by
        intro a b id st res err r hu ⟨⟨rest, hl⟩, hrow⟩
        obtain ⟨⟨e, hle⟩, hkeep⟩ := updateTaskStatus_keeps hu
        refine ⟨⟨rest ++ [e], ?_⟩, hkeep _ _ hrow⟩
        rw [hle, hl]
        simp)
      (by
        intro a b ⟨hta, evs, hle, _⟩ ⟨⟨rest, hl⟩, hrow⟩
        refine ⟨⟨rest ++ evs, ?_⟩, ?_⟩
        · rw [hle, hl]
          simp
        · rw [hta]
          exact hrow)
      (by
        refine ⟨⟨[], ?_⟩, row.toRow taskId, by simp, rfl, rfl⟩
        simp [World.record])
    obtain ⟨⟨rest, hl⟩, hrow⟩ := hinv
    refine ⟨row, some taskId, rest, hl, hprio2, hstatus, htype, hparams, ?_⟩
    intro id h
    cases h
    exact hrow

theorem inserted_priority_witness :
    ∃ (row : TaskInsert) (idOpt : Option String) (rest : List Event),
      (handler sampleEnv analyzeRequest emptyWorld).2.log =
        emptyWorld.log ++ Event.readBody :: Event.insertTask row idOpt :: rest ∧
      row.priority = (match (none : Option String) with
        | some given => given
        | none => "normal") ∧
      row.status = "pending" ∧ row.task_type = "analyze_articles" ∧
      row.parameters = ({} : Parameters) ∧
      (∀ id, idOpt = some id →
        ∃ stored ∈ (handler sampleEnv analyzeRequest emptyWorld).2.ai_tasks,
          stored.id = id ∧ stored.priority = row.priority) :=
  inserted_priority sampleEnv analyzeRequest emptyWorld
    { task_type := some "analyze_articles", parameters := some {} } "analyze_articles" {}
    rfl rfl rfl rfl (by decide)

/-! ### Failures of the operations -/

theorem analyzeArticles_fails (env : Env) (p : Parameters) (w : World) (a : ContentRecord)
    (rest : List ContentRecord) (m : String)
    (hsel : env.select w.log.length
      { table := some (p.table_name.getD "articles"),
        conds := articleConds (p.filters.getD {}) } =
        { data := some (a :: rest), error := none })
    (hfail : CallFails env (w.log.length + 1) (chatRequest (articlesMessages (a :: rest))) m) :
    (analyzeArticles env p w).1 = Except.error m := by
  have hlen : ∀ e : Event, (w.log ++ [e]).length = w.log.length + 1 := by simp
  simp only [analyzeArticles, runQuery, hsel, callOpenAI_eq, World.record, hlen]
  rcases hfail with h | ⟨text, h, hparse⟩
  · simp only [articlesMessages] at h
    rw [h]
  · simp only [articlesMessages] at h
    rw [h]
    simp only [hparse]

theorem extractInsights_fails (env : Env) (p : Parameters) (w : World) (a : ContentRecord)
    (rest : List ContentRecord) (m : String)
    (hsel : env.select w.log.length
      { table := p.table_name, conds := insightConds (p.filters.getD {}) } =
        { data := some (a :: rest), error := none })
    (hfail : CallFails env (w.log.length + 1) (chatRequest (insightsMessages (a :: rest))) m) :
    (extractInsights env p w).1 = Except.error m := by
  have hlen : ∀ e : Event, (w.log ++ [e]).length = w.log.length + 1 := by simp
  simp only [extractInsights, runQuery, hsel, callOpenAI_eq, World.record, hlen]
  rcases hfail with h | ⟨text, h, hparse⟩
  · simp only [insightsMessages] at h
    rw [h]
  · simp only [insightsMessages] at h
    rw [h]
    simp only [hparse]

theorem error_after_update (u : TaskUpdate) (id : String) (rows : List TaskRow)
    (m : String) (hm : u.error_message = some m) :
    ∀ row ∈ rows.map (fun row => if row.id = id then u.apply row else row),
      row.id = id → row.error_message = some m := by
  intro row hrow hid
  simp only [List.mem_map] at hrow
  obtain ⟨r0, _, rfl⟩ := hrow
  by_cases h : r0.id = id
  · simp [h, TaskUpdate.apply, hm]
  · simp [h] at hid

theorem created_row_survives {env : Env} {t : String} {p : Parameters} {priority : String}
    {w w1 w2 w3 : World} {taskId : String} {r : Except String OpResult}
    (hc : createTask env t p priority w = (Except.ok taskId, w1))
    (hproc : updateTaskStatus env taskId "processing" none none w1 = (Except.ok (), w2))
    (hop : dispatch env t p w2 = (r, w3)) :
    ∃ row ∈ w3.ai_tasks, row.id = taskId := by
  obtain ⟨row, _, _, _, _, ha1, _⟩ := createTask_ok_spec hc
  obtain ⟨u2, _, _, _, ha2, _⟩ := updateTaskStatus_ok_spec hproc
  have hext := dispatch_extends env t p w2
  rw [hop] at hext
  obtain ⟨ha3, _⟩ := hext
  rw [ha3, ha2]
  apply (status_after_update u2 taskId w1.ai_tasks).2
  rw [ha1]
  exact ⟨row.toRow taskId, by simp, rfl⟩

/-- C22: when `analyzeArticles` or `extractInsights` has fetched at least one
record and its one completion call raises an error, or returns text that
`JSON.parse` rejects, the operation fails with that error and returns no result,
and the dispatcher answers 500 and, as its last act, updates the owning task to
`failed`; the task is stored as `failed` when the store carries that update
out. -/
theorem batch_failure_fails_task (env : Env) (req : Request) (w w1 w2 : World)
    (body : TaskRunRequest) (t : String) (p : Parameters) (taskId m : String)
    (a : ContentRecord) (rest : List ContentRecord)
    (hm : req.method = "POST") (hj : req.json = Except.ok body)
    (ht : body.task_type = some t) (hp : body.parameters = some p)
    (hc : createTask env t p (body.priority.getD "normal") (w.record Event.readBody) =
      (Except.ok taskId, w1))
    (hproc : updateTaskStatus env taskId "processing" none none w1 = (Except.ok (), w2))
    (hsel : ∀ query, env.select w2.log.length query =
      { data := some (a :: rest), error := none })
    (hcase :
      (t = "analyze_articles" ∧
        CallFails env (w2.log.length + 1) (chatRequest (articlesMessages (a :: rest))) m) ∨
      (t = "extract_insights" ∧
        CallFails env (w2.log.length + 1) (chatRequest (insightsMessages (a :: rest))) m)) :
    ∃ w3, dispatch env t p w2 = (Except.error m, w3) ∧
      ∃ (u : TaskUpdate) (ok : Bool),
        (handler env req w).2.log = w3.log ++ [Event.updateTask taskId u ok] ∧
        u.status = "failed" ∧
        (handler env req w).1.status = 500 ∧
        (ok = true →
          (∃ row ∈ (handler env req w).2.ai_tasks, row.id = taskId) ∧
          ∀ row ∈ (handler env req w).2.ai_tasks, row.id = taskId → row.status = "failed") := by
  have hv : t ∈ validTaskTypes := by
    rcases hcase with ⟨h, _⟩ | ⟨h, _⟩ <;> rw [h] <;> decide
  have hfst : (dispatch env t p w2).1 = Except.error m := by
    rcases hcase with ⟨h, hf⟩ | ⟨h, hf⟩
    · subst h
      simpa [dispatch] using analyzeArticles_fails env p w2 a rest m (hsel _) hf
    · subst h
      simpa [dispatch] using extractInsights_fails env p w2 a rest m (hsel _) hf
  have hd : dispatch env t p w2 = (Except.error m, (dispatch env t p w2).2) := by
    rw [← hfst]
  refine ⟨_, hd, ?_⟩
  have hex := created_row_survives hc hproc hd
  rcases hf : updateTaskStatus env taskId "failed" none (some m) (dispatch env t p w2).2
    with ⟨r4, w4⟩
  cases r4 with
  | error msg =>
    obtain ⟨_, u, hu, hl⟩ := updateTaskStatus_error_spec hf
    rw [handler_failed_lost hm hj ht hp hv hc hproc hd hf]
    exact ⟨u, false, hl, hu, rfl, fun h => by cases h⟩
  | ok done =>
    obtain ⟨u, hu, _, _, ha, hl⟩ := updateTaskStatus_ok_spec hf
    rw [handler_failed_path hm hj ht hp hv hc hproc hd hf]
    refine ⟨u, true, hl, hu, rfl, fun _ => ⟨?_, ?_⟩⟩
    · rw [ha]
      exact (status_after_update u taskId _).2 hex
    · intro row hrow hid
      rw [ha] at hrow
      have := (status_after_update u taskId _).1 row hrow hid
      rw [hu] at this
      exact this

theorem batch_failure_fails_task_witness :
    ∃ w3, dispatch blankEnv "analyze_articles" {}
        (updateTaskStatus blankEnv "task-1" "processing" none none
          (createTask blankEnv "analyze_articles" {} "normal"
            (emptyWorld.record Event.readBody)).2).2 = (Except.error "Unexpected token", w3) ∧
      ∃ (u : TaskUpdate) (ok : Bool),
        (handler blankEnv analyzeRequest emptyWorld).2.log =
          w3.log ++ [Event.updateTask "task-1" u ok] ∧
        u.status = "failed" ∧
        (handler blankEnv analyzeRequest emptyWorld).1.status = 500 ∧
        (ok = true →
          (∃ row ∈ (handler blankEnv analyzeRequest emptyWorld).2.ai_tasks, row.id = "task-1") ∧
          ∀ row ∈ (handler blankEnv analyzeRequest emptyWorld).2.ai_tasks,
            row.id = "task-1" → row.status = "failed") :=
  batch_failure_fails_task blankEnv analyzeRequest emptyWorld _ _
    { task_type := some "analyze_articles", parameters := some {} } "analyze_articles" {}
    "task-1" "Unexpected token" recordBlank [] rfl rfl rfl rfl rfl rfl (fun _ => rfl)
    (Or.inl ⟨rfl, Or.inr ⟨"A summary.", rfl, rfl⟩⟩)

/-- C23, as the specification states it, fails. When the operation fails with
the empty message, the response carries the error `""` and the task is stored
as `failed` with no `error_message`. And when the store reports an error for
the update to `failed`, the response carries the error of that update, not the
message of the operation, and no `error_message` is stored. -/
theorem error_message_counterexample :
    (handler silentEnv analyzeRequest emptyWorld).1.body.map (fun b => (b.task_id, b.error)) =
      some (some "task-1", some "") ∧
    (handler silentEnv analyzeRequest emptyWorld).2.ai_tasks.map
      (fun row => (row.id, row.status, row.error_message)) = [("task-1", "failed", none)] ∧
    (dispatch lateLostEnv "generate_summaries" { table_name := some "articles" }
      emptyWorld).1.toOption.isNone = true ∧
    (handler lateLostEnv summariesRequest emptyWorld).1.body.map (fun b => b.error) =
      some (some "Failed to update task: connection lost") ∧
    (handler lateLostEnv summariesRequest emptyWorld).2.ai_tasks.map
      (fun row => (row.id, row.status, row.error_message)) =
        [("task-1", "processing", none)] := by
  refine ⟨by decide, by decide, by decide, by decide, by decide⟩

/-- C23, amended: for every accepted task request whose operation fails with an
error with message `m`, the store carrying out the updates, the response's
error field is `m` and the update to `failed` carries `error_message: m` when
`m` is not the empty string, so that the task is then stored with
`error_message` equal to `m`; when `m` is the empty string the update sets no
`error_message`. -/
theorem error_message_preserved (env : Env) (req : Request) (w w1 w3 : World)
    (body : TaskRunRequest) (t : String) (p : Parameters) (taskId m : String)
    (hm : req.method = "POST") (hj : req.json = Except.ok body)
    (ht : body.task_type = some t) (hp : body.parameters = some p) (hv : t ∈ validTaskTypes)
    (hupd : ∀ n id u, env.updateTask n id u = none)
    (hc : createTask env t p (body.priority.getD "normal") (w.record Event.readBody) =
      (Except.ok taskId, w1))
    (hop : dispatch env t p (updateTaskStatus env taskId "processing" none none w1).2 =
      (Except.error m, w3)) :
    ∃ (w4 : World) (u : TaskUpdate),
      handler env req w =
        ({ status := 500
           headers := jsonCorsHeaders
           body := some { success := false, task_id := some taskId, error := some m,
                          status := some "failed" } }, w4) ∧
      w4.log = w3.log ++ [Event.updateTask taskId u true] ∧
      u.status = "failed" ∧
      u.error_message = (if m = "" then none else some m) ∧
      (∃ row ∈ w4.ai_tasks, row.id = taskId) ∧
      (m ≠ "" → ∀ row ∈ w4.ai_tasks, row.id = taskId → row.error_message = some m) := by
  obtain ⟨w2, hproc⟩ := updateTaskStatus_succeeds env taskId "processing" none none w1 hupd
  rw [hproc] at hop
  simp only at hop
  obtain ⟨w4, hfail⟩ := updateTaskStatus_succeeds env taskId "failed" none (some m) w3 hupd
  obtain ⟨u, hu, _, herr, ha, hl⟩ := updateTaskStatus_ok_spec hfail
  have hex := created_row_survives hc hproc hop
  have herr2 : u.error_message = (if m = "" then none else some m) := by
    rw [herr]
    by_cases h : m = "" <;> simp [Option.filter, h]
  refine ⟨w4, u, handler_failed_path hm hj ht hp hv hc hproc hop hfail, hl, hu, herr2, ?_, ?_⟩
  · rw [ha]
    exact (status_after_update u taskId _).2 hex
  · intro hne row hrow hid
    rw [ha] at hrow
    exact error_after_update u taskId _ m (by rw [herr2, if_neg hne]) row hrow hid

theorem error_message_preserved_witness :
    ∃ (w4 : World) (u : TaskUpdate),
      handler sampleEnv summariesRequest emptyWorld =
        ({ status := 500
           headers := jsonCorsHeaders
           body := some { success := false, task_id := some "task-1",
                          error := some "record_ids is required for summary generation",
                          status := some "failed" } }, w4) ∧
      w4.log =
        (dispatch sampleEnv "generate_summaries" { table_name := some "articles" }
          (updateTaskStatus sampleEnv "task-1" "processing" none none
            (createTask sampleEnv "generate_summaries" { table_name := some "articles" }
              "normal" (emptyWorld.record Event.readBody)).2).2).2.log ++
          [Event.updateTask "task-1" u true] ∧
      u.status = "failed" ∧
      u.error_message =
        (if "record_ids is required for summary generation" = "" then none
          else some "record_ids is required for summary generation") ∧
      (∃ row ∈ w4.ai_tasks, row.id = "task-1") ∧
      ("record_ids is required for summary generation" ≠ "" →
        ∀ row ∈ w4.ai_tasks, row.id = "task-1" →
          row.error_message = some "record_ids is required for summary generation") :=
  error_message_preserved sampleEnv summariesRequest emptyWorld _ _
    { task_type := some "generate_summaries",
      parameters := some { table_name := some "articles" } }
    "generate_summaries" { table_name := some "articles" } "task-1"
    "record_ids is required for summary generation"
    rfl rfl rfl rfl (by decide) (fun _ _ _ => rfl) rfl rfl

/-! ### The webhook -/

/-- C27: with the webhook secret configured and a body that parses as JSON, a
request that lacks one of the headers `svix-id`, `svix-timestamp` and
`svix-signature` is answered with 400 and the body `Error: Missing svix
headers`; the handler has only read the body: it has verified no signature and
made no call that creates, updates or deletes a user. -/
theorem missing_svix_headers (env : ClerkEnv) (req : WebhookRequest) (log : List ClerkCall)
    (secret : String) (payload : Json)
    (hsecret : env.secret = some secret) (hne : secret ≠ "")
    (hjson : req.json = Except.ok payload)
    (hmissing : req.headers.lookup "svix-id" = none ∨
      req.headers.lookup "svix-timestamp" = none ∨
      req.headers.lookup "svix-signature" = none) :
    clerkWebhook env req log =
      ({ status := 400, body := "Error: Missing svix headers" }, log ++ [ClerkCall.readBody]) := by
  simp only [clerkWebhook, hsecret, hne, if_false, hjson]
  rcases hmissing with h | h | h
  · have e : truthyHeader req.headers "svix-id" = none := by simp [truthyHeader, h]
    rw [e]
  · have e : truthyHeader req.headers "svix-timestamp" = none := by simp [truthyHeader, h]
    rw [e]
    cases truthyHeader req.headers "svix-id" <;> rfl
  · have e : truthyHeader req.headers "svix-signature" = none := by simp [truthyHeader, h]
    rw [e]
    cases truthyHeader req.headers "svix-id" <;>
      cases truthyHeader req.headers "svix-timestamp" <;> rfl

theorem missing_svix_headers_witness :
    clerkWebhook sampleClerkEnv unsignedRequest [] =
      ({ status := 400, body := "Error: Missing svix headers" }, [] ++ [ClerkCall.readBody]) :=
  missing_svix_headers sampleClerkEnv unsignedRequest [] "whsec_c2VjcmV0"
    (Json.obj [("test", Json.str "invalid_webhook_data")]) rfl (by decide) rfl
    (Or.inr (Or.inr (by decide)))

end Manduvi
